import Mathlib

/-!
# VulkanEngine: swapchain selection policy and the frame scheduler

A shallow embedding of the parts of `src/Engine.cpp` that decide the swapchain
configuration (`chooseSwapSurfaceFormat`, `chooseSwapPresentMode`,
`chooseSwapExtent`), of the frame loop (`Engine::update`, `Engine::render` with its callee
`Engine::recordCommandBuffer`, `Engine::run`, `Engine::cleanup`), of the descriptor
sets and the staged uploads (with buffers as byte arrays), and of the device selection
and format search of `src/Devices/PhysicalDevice.cpp`, followed by the theorems proved
about them.

Vulkan enumerators are represented by their numeric values from `vulkan_core.h`.
A `std::vector` is a `List`; an `uint32_t` is a `Nat` reduced modulo `2^32`
wherever the source performs arithmetic or a conversion on it; a `float` is the number it
holds.
-/

namespace vkEngine

/-! ## Vulkan constants -/

/-- The type `VkFormat`, an enumerator value. -/
abbrev VkFormat := Nat
/-- The type `VkColorSpaceKHR`, an enumerator value. -/
abbrev VkColorSpaceKHR := Nat
/-- The type `VkPresentModeKHR`, an enumerator value. -/
abbrev VkPresentModeKHR := Nat
/-- The type `VkResult`, a signed enumerator value. -/
abbrev VkResult := Int

def VK_FORMAT_R8G8B8A8_UNORM : VkFormat := 37
def VK_FORMAT_B8G8R8A8_SRGB : VkFormat := 50
def VK_COLOR_SPACE_SRGB_NONLINEAR_KHR : VkColorSpaceKHR := 0

def VK_PRESENT_MODE_IMMEDIATE_KHR : VkPresentModeKHR := 0
def VK_PRESENT_MODE_MAILBOX_KHR : VkPresentModeKHR := 1
def VK_PRESENT_MODE_FIFO_KHR : VkPresentModeKHR := 2
def VK_PRESENT_MODE_FIFO_RELAXED_KHR : VkPresentModeKHR := 3

def VK_SUCCESS : VkResult := 0
def VK_NOT_READY : VkResult := 1
def VK_TIMEOUT : VkResult := 2
def VK_ERROR_OUT_OF_HOST_MEMORY : VkResult := -1
def VK_SUBOPTIMAL_KHR : VkResult := 1000001003
def VK_ERROR_OUT_OF_DATE_KHR : VkResult := -1000001004
def VK_ERROR_SURFACE_LOST_KHR : VkResult := -1000000000

/-- The bit `VK_PIPELINE_STAGE_COLOR_ATTACHMENT_OUTPUT_BIT`. -/
def VK_PIPELINE_STAGE_COLOR_ATTACHMENT_OUTPUT_BIT : Nat := 0x400

/-- The value of `std::numeric_limits<uint32_t>::max()`. -/
def UINT32_MAX : Nat := 4294967295

/-- The conversion `static_cast<uint32_t>` applied to an `int`: reduction modulo `2^32`. -/
def castU32 (x : Int) : Nat := (x % 4294967296).toNat

/-! ## Swapchain selection (`Engine.cpp`, lines 181-226) -/

/-- The struct `VkSurfaceFormatKHR`. -/
structure VkSurfaceFormatKHR where
  format : VkFormat
  colorSpace : VkColorSpaceKHR
deriving DecidableEq, Repr

/-- The struct `VkExtent2D`. -/
structure VkExtent2D where
  width : Nat
  height : Nat
deriving DecidableEq, Repr

/-- The fields of `VkSurfaceCapabilitiesKHR` that `chooseSwapExtent` reads. -/
structure VkSurfaceCapabilitiesKHR where
  currentExtent : VkExtent2D
  minImageExtent : VkExtent2D
  maxImageExtent : VkExtent2D
deriving DecidableEq, Repr

/-- The loop of `chooseSwapPresentMode`: the first element equal to
`VK_PRESENT_MODE_MAILBOX_KHR` is returned; after the loop `VK_PRESENT_MODE_FIFO_KHR`. -/
def chooseSwapPresentMode : List VkPresentModeKHR → VkPresentModeKHR
  | [] => VK_PRESENT_MODE_FIFO_KHR
  | availablePresentMode :: rest =>
    if availablePresentMode = VK_PRESENT_MODE_MAILBOX_KHR then availablePresentMode
    else chooseSwapPresentMode rest

/-- The condition tested in the loop of `chooseSwapSurfaceFormat`. -/
def isPreferredFormat (f : VkSurfaceFormatKHR) : Bool :=
  f.format == VK_FORMAT_B8G8R8A8_SRGB && f.colorSpace == VK_COLOR_SPACE_SRGB_NONLINEAR_KHR

/-- The range-for loop of `chooseSwapSurfaceFormat`: `some f` when the loop returns `f`,
`none` when the loop runs to its end. -/
def chooseSwapSurfaceFormatLoop : List VkSurfaceFormatKHR → Option VkSurfaceFormatKHR
  | [] => none
  | availableFormat :: rest =>
    if isPreferredFormat availableFormat then some availableFormat
    else chooseSwapSurfaceFormatLoop rest

/-- The function `Engine::chooseSwapSurfaceFormat`. After the loop the source returns
`availableFormats[0]`; on an empty vector that access has no defined value, which is
`none` here. -/
def chooseSwapSurfaceFormat (availableFormats : List VkSurfaceFormatKHR) :
    Option VkSurfaceFormatKHR :=
  match chooseSwapSurfaceFormatLoop availableFormats with
  | some f => some f
  | none => availableFormats[0]?

/-- The reference implementation of `std::clamp(v, lo, hi)` with `operator<`. -/
def stdClamp (v lo hi : Nat) : Nat :=
  if v < lo then lo else if hi < v then hi else v

/-- The function `Engine::chooseSwapExtent`; `windowSize` is the pair of `int` returned by
`m_App->getWindow()->getWindowSize()`. -/
def chooseSwapExtent (capabilities : VkSurfaceCapabilitiesKHR) (windowSize : Int × Int) :
    VkExtent2D :=
  if capabilities.currentExtent.width ≠ UINT32_MAX then
    capabilities.currentExtent
  else
    let actualExtent : VkExtent2D := ⟨castU32 windowSize.1, castU32 windowSize.2⟩
    let actualExtent : VkExtent2D :=
      { actualExtent with
        width := stdClamp actualExtent.width capabilities.minImageExtent.width
          capabilities.maxImageExtent.width }
    let actualExtent : VkExtent2D :=
      { actualExtent with
        height := stdClamp actualExtent.height capabilities.minImageExtent.height
          capabilities.maxImageExtent.height }
    actualExtent

/-! ## Frame scheduler (`Engine.cpp`, lines 12, 28-137, 541-551, 917-937) -/

/-- The constant `Engine::s_MaxFramesInFlight` (`Engine.h`, line 32). -/
def s_MaxFramesInFlight : Nat := 3

/-- A semaphore handle, named by the vector that holds it and its index:
`Swapchain::m_ImageAvailableSemaphores[frame]` (returned by `getImageSemaphore(frame)`)
or `Engine::m_RenderFinishedSemaphores[frame]`. -/
inductive Semaphore where
  | imageAvailable (frame : Nat)
  | renderFinished (frame : Nat)
deriving DecidableEq, Repr

/-- The fields of `VkSubmitInfo` that `Engine::render` fills in; a command buffer is named
by its index in the command handler (`getCommandBuffer(index)`). -/
structure VkSubmitInfo where
  waitSemaphores : List Semaphore
  waitDstStageMask : List Nat
  commandBuffers : List Nat
  signalSemaphores : List Semaphore
deriving DecidableEq, Repr

/-- The calls the frame loop makes, one constructor per call site of `Engine::update`,
`Engine::updateUniformBuffer` and `Engine::render`. A callee is recorded as one entry with
the arguments it receives; fences, command buffers, descriptor sets and mapped uniform
buffers are named by their index in the vector that holds them. -/
inductive Call where
  /-- The call `m_Camera->Update(deltaTime)`. -/
  | cameraUpdate
  /-- The call `memcpy(m_UniformBuffersMapped[currentFrame], &ubo, sizeof(ubo))`. -/
  | memcpyUniform (currentFrame : Nat)
  /-- The call `m_App->getWindow()->pollEvents()`. -/
  | pollEvents
  /-- The call `vkWaitForFences(device, 1, &m_InFlightFences[fence], VK_TRUE, UINT64_MAX)`. -/
  | waitForFences (fence : Nat)
  /-- The call `swapchain->acquireNextImage(frame)`. -/
  | acquireNextImage (frame : Nat)
  /-- The call `swapchain->recreateSwapchain(m_RenderPass)`. -/
  | recreateSwapchain
  /-- A failed `ENGINE_ASSERT` with its message. -/
  | assertFailed (msg : String)
  /-- The call `vkResetFences(device, 1, &m_InFlightFences[fence])`. -/
  | resetFences (fence : Nat)
  /-- The call `vkResetCommandBuffer(cmdBuffer, 0)`. -/
  | resetCommandBuffer (cmdBuffer : Nat)
  /-- The call `recordCommandBuffer(cmdBuffer, imageIndex)`; the third argument is the index
  of the descriptor set it binds, `m_DescriptorSets[nextRenderFrame]` (line 905). -/
  | recordCommandBuffer (cmdBuffer : Nat) (imageIndex : Nat) (descriptorSet : Nat)
  /-- The call `getQueueHandler()->submitCommands(submitInfo, m_InFlightFences[fence])`. -/
  | submitCommands (submitInfo : VkSubmitInfo) (fence : Nat)
  /-- The call `swapchain->present(signalSemaphores, signalSemaphoresCount)`. -/
  | present (waitSemaphores : List Semaphore)
deriving DecidableEq, Repr

/-- Modelled from the spec: the macro `ENGINE_ASSERT(cond, msg)`, whose definition is not
among the sources. Section 7 of the specification makes a failed check fatal: nothing is
executed after it. The result is the failure entry, if any. -/
def ENGINE_ASSERT (cond : Bool) (msg : String) : Option Call :=
  if cond then none else some (Call.assertFailed msg)

/-! ## Command recording (`Engine.cpp`, lines 850-915) -/

def VK_PIPELINE_BIND_POINT_GRAPHICS : Nat := 0
def VK_SUBPASS_CONTENTS_INLINE : Nat := 0
def VK_INDEX_TYPE_UINT16 : Nat := 0

/-- The struct `VkOffset2D`. -/
structure VkOffset2D where
  x : Int
  y : Int
deriving DecidableEq, Repr

/-- The struct `VkRect2D`. -/
structure VkRect2D where
  offset : VkOffset2D
  extent : VkExtent2D
deriving DecidableEq, Repr

/-- The spacing between neighbouring `float` values at the magnitude of `n`: 1 below `2^24`
(the significand of a `float` has 24 bits), doubled with every further binary digit of `n`.
The first argument bounds the number of doublings; 8 of them cover every `uint32_t`. -/
def floatSpacing : Nat → Nat → Nat
  | 0, _ => 1
  | fuel + 1, n => if n < 2 ^ 24 then 1 else 2 * floatSpacing fuel (n / 2)

/-- The value of `static_cast<float>(n)` for an `uint32_t` `n`, as a number. A value below
`2^24` is representable and is kept. A larger one that is not representable becomes one of
its two neighbours among the `float` values (which one is implementation-defined in C++):
here the nearest multiple of the spacing of `float` at its magnitude, a tie going to the
even significand, which is the default rounding of IEEE 754 arithmetic. -/
def castFloat (n : Nat) : Nat :=
  let spacing := floatSpacing 8 n
  let significand := n / spacing
  let rest := n % spacing
  if spacing < 2 * rest ∨ (2 * rest = spacing ∧ significand % 2 = 1) then
    (significand + 1) * spacing
  else significand * spacing

/-- The struct `VkViewport`. Its fields are `float` in the source; each field holds the value
of that `float` as a number (every value assigned in `recordCommandBuffer` is a non-negative
whole number: `0.0f`, `1.0f` or the conversion of an `uint32_t`). -/
structure VkViewport where
  x : Nat
  y : Nat
  width : Nat
  height : Nat
  minDepth : Nat
  maxDepth : Nat
deriving DecidableEq, Repr

/-- The Vulkan commands `Engine::recordCommandBuffer` issues on its command buffer, one
constructor per call, with the arguments the source passes. Framebuffers and descriptor
sets are named by their index in the vector that holds them; the pipeline, the vertex
buffer and the index buffer are the members `m_GraphicsPipeline`, `m_VertexBuffer`,
`m_IndexBuffer`. -/
inductive Cmd where
  | beginCommandBuffer (flags : Nat)
  | beginRenderPass (framebuffer : Nat) (renderArea : VkRect2D) (clearValueCount : Nat)
      (contents : Nat)
  | bindPipeline (pipelineBindPoint : Nat)
  | bindVertexBuffers (firstBinding : Nat) (bindingCount : Nat) (offsets : List Nat)
  | bindIndexBuffer (offset : Nat) (indexType : Nat)
  | setViewport (firstViewport : Nat) (viewportCount : Nat) (viewport : VkViewport)
  | setScissor (firstScissor : Nat) (scissorCount : Nat) (scissor : VkRect2D)
  | bindDescriptorSets (pipelineBindPoint : Nat) (firstSet : Nat)
      (descriptorSets : List Nat)
  | drawIndexed (indexCount : Nat) (instanceCount : Nat) (firstIndex : Nat)
      (vertexOffset : Int) (firstInstance : Nat)
  | endRenderPass
  | endCommandBuffer
deriving DecidableEq, Repr

/-- What one execution of `Engine::recordCommandBuffer` did: the command buffer it recorded
into, the commands issued, in order, and the failed assertion it stopped at, if any. -/
structure Recording where
  commandBuffer : Nat
  commands : List Cmd
  failure : Option Call
deriving DecidableEq, Repr

/-- The function `Engine::recordCommandBuffer(commandBuffer, imageIndex)`, run with the given
value of the static `nextRenderFrame`. `swapchainExtent` is what `getExtent()` returns,
`indicesSize` the value of `indices.size()` (a `size_t`), `beginResult` and `endResult` what
`vkBeginCommandBuffer` and `vkEndCommandBuffer` return. Every command is issued on
`commandBuffer`. -/
def recordCommandBuffer (nextRenderFrame : Nat) (commandBuffer : Nat) (imageIndex : Nat)
    (swapchainExtent : VkExtent2D) (indicesSize : Nat) (beginResult endResult : VkResult) :
    Recording :=
  match ENGINE_ASSERT (decide (beginResult = VK_SUCCESS))
      "Beginning of command buffer failed" with
  | some failure =>
    { commandBuffer := commandBuffer
      commands := [Cmd.beginCommandBuffer 0]
      failure := some failure }
  | none =>
    let renderArea : VkRect2D := { offset := ⟨0, 0⟩, extent := swapchainExtent }
    let viewport : VkViewport :=
      { x := 0, y := 0,
        width := castFloat swapchainExtent.width,
        height := castFloat swapchainExtent.height,
        minDepth := 0, maxDepth := 1 }
    let scissor : VkRect2D := { offset := ⟨0, 0⟩, extent := swapchainExtent }
    { commandBuffer := commandBuffer
      commands :=
        [ Cmd.beginCommandBuffer 0,
          Cmd.beginRenderPass imageIndex renderArea 1 VK_SUBPASS_CONTENTS_INLINE,
          Cmd.bindPipeline VK_PIPELINE_BIND_POINT_GRAPHICS,
          Cmd.bindVertexBuffers 0 1 [0],
          Cmd.bindIndexBuffer 0 VK_INDEX_TYPE_UINT16,
          Cmd.setViewport 0 1 viewport,
          Cmd.setScissor 0 1 scissor,
          Cmd.bindDescriptorSets VK_PIPELINE_BIND_POINT_GRAPHICS 0 [nextRenderFrame],
          Cmd.drawIndexed (indicesSize % 4294967296) 1 0 0 0,
          Cmd.endRenderPass,
          Cmd.endCommandBuffer ]
      failure := ENGINE_ASSERT (decide (endResult = VK_SUCCESS))
        "Ending of command buffer failed" }

/-- What `Engine::recordCommandBuffer` reads from outside its arguments during one execution
of `Engine::render`: the extent that `getSwapchain()->getExtent()` returns, the value of
`indices.size()`, and what `vkBeginCommandBuffer` and `vkEndCommandBuffer` return. -/
structure RecordInput where
  swapchainExtent : VkExtent2D
  indicesSize : Nat
  beginResult : VkResult
  endResult : VkResult
deriving DecidableEq, Repr

/-! ## The tick (`Engine.cpp`, lines 84-137, 541-551) -/

/-- What one execution of `Engine::render` did: the calls in program order, the value of
the static `nextRenderFrame` when it ends, and whether it ended in a failed assertion. -/
structure Tick where
  calls : List Call
  nextRenderFrame : Nat
  aborted : Bool
deriving DecidableEq, Repr

/-- The function `Engine::updateUniformBuffer`: its only effect outside the local `ubo` is
the `memcpy` into the mapped uniform buffer `currentFrame`. -/
def updateUniformBuffer (currentFrame : Nat) : List Call :=
  [Call.memcpyUniform currentFrame]

/-- The function `Engine::update`, run with the given value of the static
`nextRenderFrame`. -/
def update (nextRenderFrame : Nat) : List Call :=
  [Call.cameraUpdate] ++ updateUniformBuffer nextRenderFrame ++ [Call.pollEvents]

/-- The function `Engine::render`, run with the given value of the static `nextRenderFrame`;
`result` is what `acquireNextImage` returns, `imageIndex` (an `uint32_t`) what
`getImageIndex()` returns, and `recordInput` what the call of `recordCommandBuffer` meets.
A failed assertion inside `recordCommandBuffer` ends the tick as one of `render` itself
does. The addition on line 136 is in `uint32_t`. -/
def render (nextRenderFrame : Nat) (result : VkResult) (imageIndex : Nat)
    (recordInput : RecordInput) : Tick :=
  let acquired : List Call :=
    [Call.waitForFences nextRenderFrame, Call.acquireNextImage nextRenderFrame]
  if result = VK_ERROR_OUT_OF_DATE_KHR then
    { calls := acquired ++ [Call.recreateSwapchain]
      nextRenderFrame := nextRenderFrame
      aborted := false }
  else
    match ENGINE_ASSERT (decide (result = VK_SUCCESS ∨ result = VK_SUBOPTIMAL_KHR))
        "failed to acquire swap chain image!" with
    | some failure =>
      { calls := acquired ++ [failure]
        nextRenderFrame := nextRenderFrame
        aborted := true }
    | none =>
      let cmdBuffer := nextRenderFrame
      let recording := recordCommandBuffer nextRenderFrame cmdBuffer imageIndex
        recordInput.swapchainExtent recordInput.indicesSize recordInput.beginResult
        recordInput.endResult
      let recorded : List Call :=
        acquired ++
          [ Call.resetFences nextRenderFrame,
            Call.resetCommandBuffer cmdBuffer,
            Call.recordCommandBuffer cmdBuffer imageIndex nextRenderFrame ]
      match recording.failure with
      | some failure =>
        { calls := recorded ++ [failure]
          nextRenderFrame := nextRenderFrame
          aborted := true }
      | none =>
        let waitSemaphores := [Semaphore.imageAvailable nextRenderFrame]
        let waitStages := [VK_PIPELINE_STAGE_COLOR_ATTACHMENT_OUTPUT_BIT]
        let signalSemaphores := [Semaphore.renderFinished nextRenderFrame]
        let submitInfo : VkSubmitInfo :=
          { waitSemaphores := waitSemaphores
            waitDstStageMask := waitStages
            commandBuffers := [cmdBuffer]
            signalSemaphores := signalSemaphores }
        { calls := recorded ++
            [ Call.submitCommands submitInfo nextRenderFrame,
              Call.present signalSemaphores ]
          nextRenderFrame := (imageIndex + 1) % 4294967296 % s_MaxFramesInFlight
          aborted := false }

/-! ### The device: fences and the queue -/

/-- A queue submission that the GPU has not completed: the submit info and the index of the
fence passed as completion fence. -/
structure Submission where
  info : VkSubmitInfo
  fence : Nat
deriving DecidableEq, Repr

/-- The state the CPU and the GPU share: `fences` is `m_InFlightFences` (`true` is
signaled), `pending` the submissions handed to the queue and not completed yet. -/
structure Device where
  fences : List Bool
  pending : List Submission
deriving DecidableEq, Repr

/-- The fences made by `Engine::initSyncObjects`: `s_MaxFramesInFlight` of them, each created
with `VK_FENCE_CREATE_SIGNALED_BIT`. -/
def initSyncObjects : List Bool :=
  List.replicate s_MaxFramesInFlight true

/-- Modelled from the spec: the function `QueueHandler::submitCommands`, whose body is not
among the sources. By section 4.3 the request is submitted to the queue with the given fence
as completion signal: it joins the pending submissions. An index outside the fence vector
gives `none`. -/
def Device.submitCommands (d : Device) (submitInfo : VkSubmitInfo) (fence : Nat) :
    Option Device :=
  if fence < d.fences.length then some { d with pending := d.pending ++ [⟨submitInfo, fence⟩] }
  else none

/-- The effect of one call on fences and queue. `vkWaitForFences` with timeout `UINT64_MAX`
returns only when the fence is signaled, so it cannot be executed (`none`) while the fence
is unsignaled; `vkResetFences` unsignals the fence; `submitCommands` is the function above.
An index outside the fence vector gives `none`. The other calls are taken to leave fences
and queue as they are. -/
def Device.exec (d : Device) : Call → Option Device
  | Call.waitForFences f => if d.fences[f]? = some true then some d else none
  | Call.resetFences f =>
    if f < d.fences.length then some { d with fences := d.fences.set f false } else none
  | Call.submitCommands submitInfo f => d.submitCommands submitInfo f
  | _ => some d

/-- The calls of a list executed in order. -/
def Device.runCalls (d : Device) : List Call → Option Device
  | [] => some d
  | c :: rest =>
    match d.exec c with
    | some d1 => d1.runCalls rest
    | none => none

/-- The element at position `k` taken out of a list, with the list that remains. -/
def takeOut {α : Type} : List α → Nat → Option (α × List α)
  | [], _ => none
  | x :: xs, 0 => some (x, xs)
  | x :: xs, k + 1 =>
    match takeOut xs k with
    | some (y, ys) => some (y, x :: ys)
    | none => none

/-- The GPU completes the pending submission at position `k` of the queue (any position:
no completion order is assumed) and signals its fence. -/
def Device.complete (d : Device) (k : Nat) : Option Device :=
  match takeOut d.pending k with
  | some (sub, others) => some { fences := d.fences.set sub.fence true, pending := others }
  | none => none

/-- The GPU may still execute command buffer `slot`, which binds descriptor set `slot` and
through it reads uniform buffer `slot`: a pending submission contains it. -/
def Device.busy (d : Device) (slot : Nat) : Bool :=
  d.pending.any (fun sub => decide (slot ∈ sub.info.commandBuffers))

/-! ### The run loop -/

/-- Where the loop body of `Engine::run` stands: before `update(deltaTime)` or before
`render()`. -/
inductive Phase where
  | atUpdate
  | atRender
deriving DecidableEq, Repr

/-- The state of a run: the static `nextRenderFrame`, the device, the position in the loop
body, and whether the program is still running (no assertion has failed). -/
structure World where
  nextRenderFrame : Nat
  device : Device
  phase : Phase
  running : Bool
deriving DecidableEq, Repr

/-- The state when `Engine::run` enters its loop: `nextRenderFrame = 0` (line 12), the
fences of `initSyncObjects`, nothing submitted. -/
def World.init : World :=
  { nextRenderFrame := 0
    device := { fences := initSyncObjects, pending := [] }
    phase := Phase.atUpdate
    running := true }

/-- What happens next in a run: the CPU executes `update`, the CPU executes `render` (the
swapchain answering with `result` and `imageIndex`, the recording meeting `recordInput`), or
the GPU completes the pending submission at position `k`. -/
inductive Event where
  | update
  | render (result : VkResult) (imageIndex : Nat) (recordInput : RecordInput)
  | gpuComplete (k : Nat)
deriving DecidableEq, Repr

/-- One step of a run; `none` when the event cannot happen in this state (the CPU is at the
other statement of the loop body or has stopped, `vkWaitForFences` has not returned, or the
queue has no submission at that position). -/
def World.step (w : World) : Event → Option World
  | Event.update =>
    if w.running ∧ w.phase = Phase.atUpdate then
      match w.device.runCalls (update w.nextRenderFrame) with
      | some d => some { w with device := d, phase := Phase.atRender }
      | none => none
    else none
  | Event.render result imageIndex recordInput =>
    if w.running ∧ w.phase = Phase.atRender then
      let t := render w.nextRenderFrame result imageIndex recordInput
      match w.device.runCalls t.calls with
      | some d =>
        some { nextRenderFrame := t.nextRenderFrame
               device := d
               phase := Phase.atUpdate
               running := !t.aborted }
      | none => none
    else none
  | Event.gpuComplete k =>
    match w.device.complete k with
    | some d => some { w with device := d }
    | none => none

/-- A run: the events of a list in order. -/
def World.run (w : World) : List Event → Option World
  | [] => some w
  | e :: rest =>
    match w.step e with
    | some w1 => w1.run rest
    | none => none

/-- The uniform buffers that `update`, executed in this state, writes while the GPU may
still read them. -/
def World.racyWrites (w : World) : List Nat :=
  (update w.nextRenderFrame).filterMap fun c =>
    match c with
    | Call.memcpyUniform slot => if w.device.busy slot then some slot else none
    | _ => none

/-- The command buffers the GPU has been handed and has not completed. -/
def Device.inFlight (d : Device) : List Nat :=
  (d.pending.map fun sub => sub.info.commandBuffers).flatten

/-- The invariant of the run loop: there are `s_MaxFramesInFlight` fences, the slot index
is below that number, every pending submission carries exactly the command buffer of its
fence's slot and its fence is unsignaled, and no two pending submissions share a fence. -/
structure World.Inv (w : World) : Prop where
  fences_length : w.device.fences.length = s_MaxFramesInFlight
  slot_lt : w.nextRenderFrame < s_MaxFramesInFlight
  pending_ok : ∀ sub ∈ w.device.pending,
    sub.info.commandBuffers = [sub.fence] ∧ w.device.fences[sub.fence]? = some false
  fences_nodup : (w.device.pending.map Submission.fence).Nodup

/-! ## Descriptor sets (`Engine.cpp`, lines 269-314) -/

def VK_DESCRIPTOR_TYPE_COMBINED_IMAGE_SAMPLER : Nat := 1
def VK_DESCRIPTOR_TYPE_UNIFORM_BUFFER : Nat := 6
def VK_WHOLE_SIZE : Nat := 18446744073709551615
def VK_IMAGE_LAYOUT_SHADER_READ_ONLY_OPTIMAL : Nat := 5
/-- What a descriptor write points to: `VkDescriptorBufferInfo` (the uniform buffer named by
its index in `m_UniformBuffers`, with offset and range) or `VkDescriptorImageInfo` (the
members `m_TextureView` and `m_TextureSampler`, with the image layout). -/
inductive DescriptorInfo where
  | buffer (uniformBuffer : Nat) (offset : Nat) (range : Nat)
  | image (imageLayout : Nat)
deriving DecidableEq, Repr

/-- The fields of `VkWriteDescriptorSet` that `initDescriptorSets` fills in; `dstSet` is the
index of the set in `m_DescriptorSets`. -/
structure VkWriteDescriptorSet where
  dstSet : Nat
  dstBinding : Nat
  dstArrayElement : Nat
  descriptorType : Nat
  descriptorCount : Nat
  info : DescriptorInfo
deriving DecidableEq, Repr

/-- What `Engine::initDescriptorSets` did: one list of writes per `vkUpdateDescriptorSets`
call, in order, and the failed assertion it stopped at, if any. -/
structure DescriptorSetup where
  updates : List (List VkWriteDescriptorSet)
  failure : Option Call
deriving DecidableEq, Repr

/-- The body of the loop of `Engine::initDescriptorSets` for index `i`: the two writes passed
to `vkUpdateDescriptorSets`. -/
def initDescriptorSetsBody (i : Nat) : List VkWriteDescriptorSet :=
  let bufferInfo := DescriptorInfo.buffer i 0 VK_WHOLE_SIZE
  let imageInfo := DescriptorInfo.image VK_IMAGE_LAYOUT_SHADER_READ_ONLY_OPTIMAL
  [ { dstSet := i, dstBinding := 0, dstArrayElement := 0,
      descriptorType := VK_DESCRIPTOR_TYPE_UNIFORM_BUFFER, descriptorCount := 1,
      info := bufferInfo },
    { dstSet := i, dstBinding := 1, dstArrayElement := 0,
      descriptorType := VK_DESCRIPTOR_TYPE_COMBINED_IMAGE_SAMPLER, descriptorCount := 1,
      info := imageInfo } ]

/-- The function `Engine::initDescriptorSets`; `allocateResult` is what
`vkAllocateDescriptorSets` returns. The loop runs over `i = 0 .. s_MaxFramesInFlight - 1`. -/
def initDescriptorSets (allocateResult : VkResult) : DescriptorSetup :=
  match ENGINE_ASSERT (decide (allocateResult = VK_SUCCESS))
      "Descriptor sets allocations failed" with
  | some failure => { updates := [], failure := some failure }
  | none =>
    { updates := (List.range s_MaxFramesInFlight).map initDescriptorSetsBody
      failure := none }

/-! ## How a call can end -/

/-- The ways a call of a selection function can end: it returns a value, it stops at a
failed `ENGINE_ASSERT`, or it accesses a vector element outside the vector, for which the
language defines no behaviour. -/
inductive CallOutcome (α : Type) where
  | returned (value : α)
  | fatal (failure : Call)
  | undefinedAccess
deriving DecidableEq, Repr

/-- The function `Engine::chooseSwapSurfaceFormat` with the way it ends made explicit: the
loop returns the first preferred element; after the loop the source evaluates
`availableFormats[0]` without any check. The function contains no `ENGINE_ASSERT`. -/
def chooseSwapSurfaceFormatOutcome (availableFormats : List VkSurfaceFormatKHR) :
    CallOutcome VkSurfaceFormatKHR :=
  match chooseSwapSurfaceFormatLoop availableFormats with
  | some f => CallOutcome.returned f
  | none =>
    match availableFormats[0]? with
    | some f => CallOutcome.returned f
    | none => CallOutcome.undefinedAccess

/-! ## Physical device selection (`PhysicalDevice.cpp`, lines 17-136, 189-225) -/

def VK_PHYSICAL_DEVICE_TYPE_DISCRETE_GPU : Nat := 2

/-- What the queries made by `isDeviceSuitable` report for one enumerated
`VkPhysicalDevice`: the device type of `vkGetPhysicalDeviceProperties`, whether
`findQueueFamilies(device, VK_QUEUE_GRAPHICS_BIT).isComplete()` holds (the struct
`QueueFamilyIndices` is not among the sources), the extension names of
`vkEnumerateDeviceExtensionProperties`, and the surface formats and present modes of the
surface queries. -/
structure PhysicalDeviceReport where
  deviceType : Nat
  queueFamiliesComplete : Bool
  availableExtensions : List String
  formats : List VkSurfaceFormatKHR
  presentModes : List VkPresentModeKHR
deriving DecidableEq, Repr

/-- The fields `formats` and `presentModes` of the struct `SwapChainSupportDetails`
(`Swapchain.h`, lines 22-27). -/
structure SwapChainSupportDetails where
  formats : List VkSurfaceFormatKHR
  presentModes : List VkPresentModeKHR
deriving DecidableEq, Repr

/-- The function `PhysicalDevice::checkDeviceExtensionSupport`: the required names are put
into an `unordered_set` (so duplicates collapse), the name of every available extension is
erased from it, and the result is whether the set is empty. -/
def checkDeviceExtensionSupport (m_DeviceExtensions : List String)
    (device : PhysicalDeviceReport) : Bool :=
  let requiredExtensions := m_DeviceExtensions.dedup
  let requiredExtensions :=
    device.availableExtensions.foldl (fun required extension => required.erase extension)
      requiredExtensions
  requiredExtensions.isEmpty

/-- The function `PhysicalDevice::querySwapChainSupport(physicalDevice)`: each vector is
filled only when the reported count is not zero. -/
def querySwapChainSupport (device : PhysicalDeviceReport) : SwapChainSupportDetails :=
  { formats := if device.formats.length ≠ 0 then device.formats else []
    presentModes := if device.presentModes.length ≠ 0 then device.presentModes else [] }

/-- The function `PhysicalDevice::isDeviceSuitable`. -/
def isDeviceSuitable (m_DeviceExtensions : List String) (device : PhysicalDeviceReport) :
    Bool :=
  let extensSupported := checkDeviceExtensionSupport m_DeviceExtensions device
  let swapChainAdequate :=
    if extensSupported then
      let swapChainSupport := querySwapChainSupport device
      !swapChainSupport.formats.isEmpty && !swapChainSupport.presentModes.isEmpty
    else false
  decide (device.deviceType = VK_PHYSICAL_DEVICE_TYPE_DISCRETE_GPU)
    && device.queueFamiliesComplete
    && extensSupported
    && swapChainAdequate

/-- The loop of `PhysicalDevice::initialize` over the enumerated devices. `m_PhysicalDevice`
is `none` for `VK_NULL_HANDLE` and otherwise the position of the picked device in the
enumeration; `deviceCount` is the counter the loop increments. -/
def initializeLoop (m_DeviceExtensions : List String) :
    Option Nat → Nat → List PhysicalDeviceReport → Option Nat
  | m_PhysicalDevice, _, [] => m_PhysicalDevice
  | m_PhysicalDevice, deviceCount, device :: rest =>
    if m_PhysicalDevice = none ∧ isDeviceSuitable m_DeviceExtensions device = true then
      initializeLoop m_DeviceExtensions (some deviceCount) (deviceCount + 1) rest
    else
      initializeLoop m_DeviceExtensions m_PhysicalDevice (deviceCount + 1) rest

/-- What `PhysicalDevice::initialize` did: the value of `m_PhysicalDevice` when it ends and
the failed assertion it stopped at, if any. -/
structure DeviceSelection where
  m_PhysicalDevice : Option Nat
  failure : Option Call
deriving DecidableEq, Repr

/-- The function `PhysicalDevice::initialize`, run with the given value of the member
`m_PhysicalDevice` on the devices that `vkEnumeratePhysicalDevices` reports. -/
def initializePhysicalDevice (m_DeviceExtensions : List String)
    (m_PhysicalDevice : Option Nat)
    (devices : List PhysicalDeviceReport) : DeviceSelection :=
  match ENGINE_ASSERT (decide (devices.length ≠ 0))
      "Failed to find GPUs with Vulkan support" with
  | some failure => { m_PhysicalDevice := m_PhysicalDevice, failure := some failure }
  | none =>
    let picked := initializeLoop m_DeviceExtensions m_PhysicalDevice 0 devices
    { m_PhysicalDevice := picked
      failure := ENGINE_ASSERT (decide (picked ≠ none)) "Failed to find suitable GPU" }

/-! ## Transient uploads (`Engine.cpp`, lines 406-474, 794-848) -/

/-- A buffer or device-memory handle, named by the variable that holds it. -/
inductive Handle where
  | stagingBuffer
  | stagingBufferMemory
  | m_VertexBuffer
  | m_VertexBufferMemory
  | m_IndexBuffer
  | m_IndexBufferMemory
  | m_UniformBuffers (i : Nat)
  | m_UniformBuffersMemory (i : Nat)
deriving DecidableEq, Repr

/-- The host array a `memcpy` into mapped staging memory reads. -/
inductive HostData where
  | vertices
  | indices
  | pixels
deriving DecidableEq, Repr

/-- The struct `VkBufferCopy`. -/
structure VkBufferCopy where
  srcOffset : Nat
  dstOffset : Nat
  size : Nat
deriving DecidableEq, Repr

/-- The calls made outside the frame loop, by the upload functions and by the teardown:
one constructor per call site, with the arguments the source passes. -/
inductive Op where
  /-- The call `stbi_load(path, ...)`. -/
  | stbiLoad (path : String)
  /-- The call `stbi_image_free(pixels)`. -/
  | stbiImageFree
  /-- The call `initBuffer(size, usage, properties, buffer, bufferMemory)`. -/
  | initBuffer (size : Nat) (usage : Nat) (properties : Nat) (buffer : Handle)
      (bufferMemory : Handle)
  /-- The call `vkMapMemory(device, memory, offset, size, 0, &data)`. -/
  | mapMemory (memory : Handle) (offset : Nat) (size : Nat)
  /-- The call `memcpy(data, source, size)` into the mapped memory. -/
  | memcpy (source : HostData) (size : Nat)
  /-- The call `vkUnmapMemory(device, memory)`. -/
  | unmapMemory (memory : Handle)
  /-- The call `CreateShared<Image2D>(extent, format, usage, properties)`. -/
  | createImage2D (extent : VkExtent2D) (format : VkFormat) (usage : Nat) (properties : Nat)
  /-- The call `getCommandHandler()->beginSingleTimeCommands()`. -/
  | beginSingleTimeCommands
  /-- The call `m_TextureTest->transitionImageLayout(cmdBuffer, oldLayout, newLayout)`. -/
  | transitionImageLayout (oldLayout : Nat) (newLayout : Nat)
  /-- The call `m_TextureTest->copyBufferToImage(cmdBuffer, buffer, width, height)`. -/
  | copyBufferToImage (buffer : Handle) (width : Nat) (height : Nat)
  /-- The call `vkCmdCopyBuffer(commandBuffer, srcBuffer, dstBuffer, count, regions)`. -/
  | cmdCopyBuffer (srcBuffer : Handle) (dstBuffer : Handle) (regions : List VkBufferCopy)
  /-- The call `getCommandHandler()->endSingleTimeCommands(commandBuffer)`. -/
  | endSingleTimeCommands
  /-- The call `m_TextureTest->getImage()`. -/
  | getImage
  /-- The call `vkDestroyBuffer(device, buffer, nullptr)`. -/
  | destroyBuffer (buffer : Handle)
  /-- The call `vkFreeMemory(device, memory, nullptr)`. -/
  | freeMemory (memory : Handle)
  /-- A failed `ENGINE_ASSERT` with its message. -/
  | assertFailed (msg : String)
  /-- The call `m_TextureTest.reset()`. -/
  | resetTexture
  | destroySampler
  | destroyDescriptorPool
  | destroyDescriptorSetLayout
  | destroyPipeline
  | destroyPipelineLayout
  | destroyRenderPass
  /-- The call `vkDestroySemaphore(device, m_RenderFinishedSemaphores[i], nullptr)`. -/
  | destroySemaphore (i : Nat)
  /-- The call `vkDestroyFence(device, m_InFlightFences[i], nullptr)`. -/
  | destroyFence (i : Nat)
  /-- The statements of `VulkanContext::cleanup`: `m_Swapchain.reset()` and so on. -/
  | resetSwapchain
  | resetCommandHandler
  | resetQueueHandler
  | resetDevice
deriving DecidableEq, Repr

/-- The function `VulkanContext::cleanup`, which the destructor runs when
`VulkanContext::destroyInstance` resets the context instance. -/
def VulkanContext.cleanup : List Op :=
  [Op.resetSwapchain, Op.resetCommandHandler, Op.resetQueueHandler, Op.resetDevice]

/-- The function `VulkanContext::destroyInstance`: `m_ContextInstance.reset()` deletes the
context, whose destructor calls `cleanup()`. -/
def VulkanContext.destroyInstance : List Op :=
  VulkanContext.cleanup

/-- The function `Engine::cleanup`; the two loops run over
`i = 0 .. s_MaxFramesInFlight - 1`. -/
def cleanup : List Op :=
  [Op.resetTexture, Op.destroySampler]
  ++ ((List.range s_MaxFramesInFlight).map fun i =>
        [Op.destroyBuffer (Handle.m_UniformBuffers i),
         Op.freeMemory (Handle.m_UniformBuffersMemory i)]).flatten
  ++ [ Op.destroyDescriptorPool,
       Op.destroyDescriptorSetLayout,
       Op.destroyBuffer Handle.m_IndexBuffer,
       Op.freeMemory Handle.m_IndexBufferMemory,
       Op.destroyBuffer Handle.m_VertexBuffer,
       Op.freeMemory Handle.m_VertexBufferMemory,
       Op.destroyPipeline,
       Op.destroyPipelineLayout,
       Op.destroyRenderPass ]
  ++ ((List.range s_MaxFramesInFlight).map fun i =>
        [Op.destroySemaphore i, Op.destroyFence i]).flatten
  ++ VulkanContext.destroyInstance

/-- What the environment answers during one pass through the loop of `Engine::run`: the
value of `shouldClose()` at the loop test, the window's minimize flag during the pass
(`Window::isMinimized()`, which `Engine::run`, `update` and `render` never call), the
swapchain's answer to the acquire of `render`, and what the recording of that `render`
meets. -/
structure LoopInput where
  shouldClose : Bool
  minimized : Bool
  result : VkResult
  imageIndex : Nat
  recordInput : RecordInput
deriving DecidableEq, Repr

/-- The steps of `Engine::run`, in program order. -/
inductive RunOp where
  /-- The call `init()`. -/
  | init
  /-- The loop test `m_App->getWindow()->shouldClose()` with its answer. -/
  | shouldClose (answer : Bool)
  /-- The call `timer.Start()`. -/
  | timerStart
  /-- The call `timer.Stop()`. -/
  | timerStop
  /-- A call made by `update(deltaTime)` or `render()`. -/
  | frame (c : Call)
  /-- The call `vkDeviceWaitIdle(VulkanContext::getDevice())`. -/
  | deviceWaitIdle
  /-- A call made by `cleanup()`. -/
  | teardown (c : Op)
deriving DecidableEq, Repr

/-- How an observed run of `Engine::run` ends: the function returned, the program stopped
at a failed assertion, or the answers of the environment were used up while the loop was
still running. -/
inductive RunEnd where
  | returned
  | aborted
  | stillLooping
deriving DecidableEq, Repr

/-- One pass through the body of the loop of `Engine::run` whose test found `shouldClose()`
false, up to the end of `render()`: the test, `timer.Start()`, the calls of `update` and the
calls of `render`, with the slot index `nextRenderFrame` and the swapchain's answer. -/
def tickOps (nextRenderFrame : Nat) (input : LoopInput) : List RunOp :=
  [RunOp.shouldClose false, RunOp.timerStart]
  ++ (update nextRenderFrame).map RunOp.frame
  ++ (render nextRenderFrame input.result input.imageIndex
        input.recordInput).calls.map RunOp.frame

/-- The loop `while (!shouldClose()) { ... }` of `Engine::run`, started with the given value
of `nextRenderFrame`, against the answers of the environment: its steps and how it ends
(`returned` stands for leaving the loop). -/
def runLoop : Nat → List LoopInput → List RunOp × RunEnd
  | _, [] => ([], RunEnd.stillLooping)
  | nextRenderFrame, input :: rest =>
    if input.shouldClose then ([RunOp.shouldClose true], RunEnd.returned)
    else
      let t := render nextRenderFrame input.result input.imageIndex input.recordInput
      if t.aborted then (tickOps nextRenderFrame input, RunEnd.aborted)
      else
        let later := runLoop t.nextRenderFrame rest
        (tickOps nextRenderFrame input ++ [RunOp.timerStop] ++ later.1, later.2)

/-- The function `Engine::run`, against the answers of the environment; the static
`nextRenderFrame` starts at 0. -/
def run (inputs : List LoopInput) : List RunOp × RunEnd :=
  let loop := runLoop 0 inputs
  match loop.2 with
  | RunEnd.returned =>
    ([RunOp.init] ++ loop.1 ++ [RunOp.deviceWaitIdle] ++ cleanup.map RunOp.teardown,
      RunEnd.returned)
  | ended => ([RunOp.init] ++ loop.1, ended)

def VK_IMAGE_TILING_OPTIMAL : Nat := 0
def VK_IMAGE_TILING_LINEAR : Nat := 1

/-- The struct `VkFormatProperties`: three masks of `VkFormatFeatureFlags`. -/
structure VkFormatProperties where
  linearTilingFeatures : Nat
  optimalTilingFeatures : Nat
  bufferFeatures : Nat
deriving DecidableEq, Repr

/-- The ways a call of `PhysicalDevice::findSupportedFormat` can end: a `return format`
statement, a failed `ENGINE_ASSERT`, or the end of the range-for loop, after which the
function body ends without a `return` statement. -/
inductive FormatSearch where
  | returned (format : VkFormat)
  | fatal (failure : Call)
  | fellThrough
deriving DecidableEq, Repr

/-- The function `PhysicalDevice::findSupportedFormat`; `getFormatProperties` is what
`vkGetPhysicalDeviceFormatProperties` reports for a format. Every path through the loop body
leaves the function (a `return` in each `if` branch, then the assertion with the `return`
written after it), so the candidates after the first are never reached. -/
def findSupportedFormat (getFormatProperties : VkFormat → VkFormatProperties) :
    List VkFormat → Nat → Nat → FormatSearch
  | [], _, _ => FormatSearch.fellThrough
  | format :: _, tiling, features =>
    let props := getFormatProperties format
    if tiling = VK_IMAGE_TILING_LINEAR ∧ props.linearTilingFeatures &&& features = features then
      FormatSearch.returned format
    else if tiling = VK_IMAGE_TILING_OPTIMAL ∧
        props.optimalTilingFeatures &&& features = features then
      FormatSearch.returned format
    else
      match ENGINE_ASSERT false "No suitable formats was found" with
      | some failure => FormatSearch.fatal failure
      | none => FormatSearch.returned format

/-! ## Slot sequences -/

/-- What the environment answers during one execution of `Engine::render`: the result of
the acquire, the acquired image index, and what the recording meets. -/
structure RenderInput where
  result : VkResult
  imageIndex : Nat
  recordInput : RecordInput
deriving DecidableEq, Repr

/-- The value of the static `nextRenderFrame` after `Engine::render` has been executed once
for each answer of the environment in the list, in order, starting from the given value. -/
def slotAfter : Nat → List RenderInput → Nat
  | nextRenderFrame, [] => nextRenderFrame
  | nextRenderFrame, t :: rest =>
    slotAfter (render nextRenderFrame t.result t.imageIndex t.recordInput).nextRenderFrame rest

/-- The values of the static `nextRenderFrame` at the start of each execution of
`Engine::render` in such a sequence. -/
def slotsUsed : Nat → List RenderInput → List Nat
  | _, [] => []
  | nextRenderFrame, t :: rest =>
    nextRenderFrame ::
      slotsUsed (render nextRenderFrame t.result t.imageIndex t.recordInput).nextRenderFrame
        rest

/-- A tick produces a frame: its acquire result is `VK_SUCCESS` or `VK_SUBOPTIMAL_KHR` and
both `vkBeginCommandBuffer` and `vkEndCommandBuffer` return `VK_SUCCESS`, so that the tick
reaches its submission. -/
def isProducing (t : RenderInput) : Bool :=
  decide ((t.result = VK_SUCCESS ∨ t.result = VK_SUBOPTIMAL_KHR) ∧
    t.recordInput.beginResult = VK_SUCCESS ∧ t.recordInput.endResult = VK_SUCCESS)

/-- The images are handed out in slot order: in each producing tick of the sequence the
acquired image index is the slot index the tick runs on. -/
def inSlotOrder : Nat → List RenderInput → Bool
  | _, [] => true
  | nextRenderFrame, t :: rest =>
    (!isProducing t || decide (t.imageIndex = nextRenderFrame)) &&
    inSlotOrder (render nextRenderFrame t.result t.imageIndex t.recordInput).nextRenderFrame
      rest

/-- The indices a call uses in the per-slot vectors (`m_InFlightFences`,
`m_ImageAvailableSemaphores`, `m_RenderFinishedSemaphores`, the command buffers,
`m_DescriptorSets`, `m_UniformBuffersMapped`), each of `s_MaxFramesInFlight` elements. The
image index of `recordCommandBuffer` selects a framebuffer and is not among them. -/
def Call.slotIndices : Call → List Nat
  | Call.memcpyUniform currentFrame => [currentFrame]
  | Call.waitForFences fence => [fence]
  | Call.acquireNextImage frame => [frame]
  | Call.resetFences fence => [fence]
  | Call.resetCommandBuffer cmdBuffer => [cmdBuffer]
  | Call.recordCommandBuffer cmdBuffer _ descriptorSet => [cmdBuffer, descriptorSet]
  | Call.submitCommands submitInfo fence =>
    fence :: submitInfo.commandBuffers
      ++ (submitInfo.waitSemaphores ++ submitInfo.signalSemaphores).map fun sem =>
          match sem with
          | Semaphore.imageAvailable frame => frame
          | Semaphore.renderFinished frame => frame
  | Call.present waitSemaphores =>
    waitSemaphores.map fun sem =>
      match sem with
      | Semaphore.imageAvailable frame => frame
      | Semaphore.renderFinished frame => frame
  | _ => []

/-- Every fence of a slot is signaled, or it is unsignaled and a pending submission has it
as completion fence. -/
def World.fencesArmed (w : World) : Prop :=
  ∀ slot : Nat, slot < s_MaxFramesInFlight →
    w.device.fences[slot]? = some true ∨
    (w.device.fences[slot]? = some false ∧ ∃ sub ∈ w.device.pending, sub.fence = slot)

/-! ## Buffers as byte arrays -/

/-- The memory the upload calls act on: the bytes of every live buffer, the buffer each
live memory handle is bound to (`vkBindBufferMemory` at offset 0 in `initBuffer`), the
buffer and offset currently mapped at `data`, and the copies recorded in the open
single-time command context, if one is open. -/
structure Memory where
  buffer : Handle → Option (List Nat)
  memoryOf : Handle → Option Handle
  mapped : Option (Handle × Nat)
  recording : Option (List (Handle × Handle × List VkBufferCopy))

/-- A table from handles with one entry replaced. -/
def setAt {α : Type} (table : Handle → α) (h : Handle) (value : α) : Handle → α :=
  fun x => if x = h then value else table x

/-- One region of `vkCmdCopyBuffer` executed on byte arrays: `size` bytes of the source from
`srcOffset` overwrite the destination from `dstOffset`; `none` when the region does not lie
within both buffers. -/
def copyRegion (src dst : List Nat) (region : VkBufferCopy) : Option (List Nat) :=
  if region.srcOffset + region.size ≤ src.length ∧
      region.dstOffset + region.size ≤ dst.length then
    some (dst.take region.dstOffset ++ (src.drop region.srcOffset).take region.size
      ++ dst.drop (region.dstOffset + region.size))
  else none

/-- The regions of one `vkCmdCopyBuffer` executed in order. -/
def Memory.copyRegions (m : Memory) (srcBuffer dstBuffer : Handle) :
    List VkBufferCopy → Option Memory
  | [] => some m
  | region :: rest =>
    match m.buffer srcBuffer, m.buffer dstBuffer with
    | some src, some dst =>
      match copyRegion src dst region with
      | some bytes =>
        Memory.copyRegions { m with buffer := setAt m.buffer dstBuffer (some bytes) }
          srcBuffer dstBuffer rest
      | none => none
    | _, _ => none

/-- The recorded copy commands executed in order. -/
def Memory.runCopies (m : Memory) :
    List (Handle × Handle × List VkBufferCopy) → Option Memory
  | [] => some m
  | (srcBuffer, dstBuffer, regions) :: rest =>
    match m.copyRegions srcBuffer dstBuffer regions with
    | some m1 => m1.runCopies rest
    | none => none

/-- Modelled from the spec: the function `CommandBufferHandler::endSingleTimeCommands`, whose
body is not among the sources. By section 4.4 it ends and submits the context and blocks
until the queue is idle: the recorded copies have been executed when it returns, and the
context is closed. -/
def Memory.endSingleTimeCommands (m : Memory) : Option Memory :=
  match m.recording with
  | some copies =>
    match m.runCopies copies with
    | some m1 => some { m1 with recording := none }
    | none => none
  | none => none

/-- The effect of one upload call on the memory. `host` gives the bytes of the host arrays,
`fresh` the bytes a newly created buffer happens to hold (Vulkan leaves them unspecified). A
call that reads or writes outside a buffer or a host array, or uses a handle that is not
live, gives `none`. Calls that do not touch buffer contents leave the memory as it is. -/
def Memory.exec (host : HostData → List Nat) (fresh : Handle → List Nat) (m : Memory) :
    Op → Option Memory
  | Op.initBuffer size _ _ buffer bufferMemory =>
    some { m with
      buffer := setAt m.buffer buffer
        (some ((fresh buffer ++ List.replicate size 0).take size))
      memoryOf := setAt m.memoryOf bufferMemory (some buffer) }
  | Op.mapMemory memory offset size =>
    match m.memoryOf memory with
    | some buffer =>
      match m.buffer buffer with
      | some bytes =>
        if offset + size ≤ bytes.length then some { m with mapped := some (buffer, offset) }
        else none
      | none => none
    | none => none
  | Op.memcpy source size =>
    match m.mapped with
    | some (buffer, offset) =>
      match m.buffer buffer with
      | some bytes =>
        if size ≤ (host source).length ∧ offset + size ≤ bytes.length then
          some { m with
            buffer := setAt m.buffer buffer
              (some (bytes.take offset ++ (host source).take size
                ++ bytes.drop (offset + size))) }
        else none
      | none => none
    | none => none
  | Op.unmapMemory _ => some { m with mapped := none }
  | Op.beginSingleTimeCommands =>
    match m.recording with
    | none => some { m with recording := some [] }
    | some _ => none
  | Op.cmdCopyBuffer srcBuffer dstBuffer regions =>
    match m.recording with
    | some copies =>
      some { m with recording := some (copies ++ [(srcBuffer, dstBuffer, regions)]) }
    | none => none
  | Op.endSingleTimeCommands => m.endSingleTimeCommands
  | Op.destroyBuffer buffer => some { m with buffer := setAt m.buffer buffer none }
  | Op.freeMemory memory => some { m with memoryOf := setAt m.memoryOf memory none }
  | _ => some m

theorem chooseSwapSurfaceFormatLoop_some {fs : List VkSurfaceFormatKHR}
    {r : VkSurfaceFormatKHR} (h : chooseSwapSurfaceFormatLoop fs = some r) :
    ∃ k, fs[k]? = some r ∧ isPreferredFormat r = true ∧
      ∀ (j : Nat) (g : VkSurfaceFormatKHR), j < k → fs[j]? = some g → isPreferredFormat g = false := by
  induction fs with
  | nil => simp [chooseSwapSurfaceFormatLoop] at h
  | cons f rest ih =>
    unfold chooseSwapSurfaceFormatLoop at h
    by_cases hf : isPreferredFormat f = true
    · rw [if_pos hf] at h
      cases h
      exact ⟨0, by simp, hf, fun j g hj _ => absurd hj (Nat.not_lt_zero j)⟩
    · rw [if_neg hf] at h
      obtain ⟨k, hk, hp, hlt⟩ := ih h
      refine ⟨k + 1, by simpa using hk, hp, ?_⟩
      intro j g hj hg
      cases j with
      | zero =>
        simp only [List.getElem?_cons_zero, Option.some.injEq] at hg
        subst hg
        simpa using hf
      | succ j =>
        exact hlt j g (Nat.lt_of_succ_lt_succ hj) (by simpa using hg)

theorem chooseSwapSurfaceFormatLoop_none {fs : List VkSurfaceFormatKHR}
    (h : chooseSwapSurfaceFormatLoop fs = none) :
    ∀ g ∈ fs, isPreferredFormat g = false := by
  induction fs with
  | nil => intro g hg; cases hg
  | cons f rest ih =>
    unfold chooseSwapSurfaceFormatLoop at h
    by_cases hf : isPreferredFormat f = true
    · rw [if_pos hf] at h
      cases h
    · rw [if_neg hf] at h
      intro g hg
      rcases List.mem_cons.mp hg with hgf | hgr
      · subst hgf
        simpa using hf
      · exact ih h g hgr

/-- C1. On every non-empty list of supported formats `chooseSwapSurfaceFormat` returns a
format `r` that is either the first element of the list (position `k`, nothing preferred
before it) whose format is `B8G8R8A8_SRGB` and whose colour space is `SRGB_NONLINEAR`, or,
when no element of the list is such a pair, the element at index 0; and on
`[{R8G8B8A8_UNORM, SRGB_NONLINEAR}, {B8G8R8A8_SRGB, SRGB_NONLINEAR}]` it returns the second
element. -/
theorem chooseSwapSurfaceFormat_spec (fs : List VkSurfaceFormatKHR) (hne : fs ≠ []) :
    (∃ r, chooseSwapSurfaceFormat fs = some r ∧
      ((∃ k, fs[k]? = some r ∧
          (r.format = VK_FORMAT_B8G8R8A8_SRGB ∧
            r.colorSpace = VK_COLOR_SPACE_SRGB_NONLINEAR_KHR) ∧
          ∀ (j : Nat) (g : VkSurfaceFormatKHR), j < k → fs[j]? = some g →
            ¬ (g.format = VK_FORMAT_B8G8R8A8_SRGB ∧
              g.colorSpace = VK_COLOR_SPACE_SRGB_NONLINEAR_KHR)) ∨
        ((∀ g ∈ fs, ¬ (g.format = VK_FORMAT_B8G8R8A8_SRGB ∧
              g.colorSpace = VK_COLOR_SPACE_SRGB_NONLINEAR_KHR)) ∧
          fs[0]? = some r))) ∧
    chooseSwapSurfaceFormat
        [⟨VK_FORMAT_R8G8B8A8_UNORM, VK_COLOR_SPACE_SRGB_NONLINEAR_KHR⟩,
         ⟨VK_FORMAT_B8G8R8A8_SRGB, VK_COLOR_SPACE_SRGB_NONLINEAR_KHR⟩]
      = some ⟨VK_FORMAT_B8G8R8A8_SRGB, VK_COLOR_SPACE_SRGB_NONLINEAR_KHR⟩ := by
  have pref_iff : ∀ g : VkSurfaceFormatKHR, isPreferredFormat g = true ↔
      (g.format = VK_FORMAT_B8G8R8A8_SRGB ∧
        g.colorSpace = VK_COLOR_SPACE_SRGB_NONLINEAR_KHR) := by
    intro g
    simp [isPreferredFormat]
  refine ⟨?_, by decide⟩
  cases hloop : chooseSwapSurfaceFormatLoop fs with
  | some r =>
    obtain ⟨k, hk, hp, hlt⟩ := chooseSwapSurfaceFormatLoop_some hloop
    refine ⟨r, by simp [chooseSwapSurfaceFormat, hloop], Or.inl ⟨k, hk, (pref_iff r).mp hp, ?_⟩⟩
    intro j g hj hg hpg
    have := hlt j g hj hg
    rw [(pref_iff g).mpr hpg] at this
    cases this
  | none =>
    have hall := chooseSwapSurfaceFormatLoop_none hloop
    cases fs with
    | nil => exact absurd rfl hne
    | cons f rest =>
      refine ⟨f, by simp [chooseSwapSurfaceFormat, hloop], Or.inr ⟨?_, by simp⟩⟩
      intro g hg hpg
      have := hall g hg
      rw [(pref_iff g).mpr hpg] at this
      cases this

/-- Witness for C1: the theorem applied to a two-element list that holds the preferred pair
at index 1. -/
theorem chooseSwapSurfaceFormat_spec_witness :
    ([⟨44, 0⟩, ⟨50, 0⟩] : List VkSurfaceFormatKHR) ≠ [] ∧
    ((∃ r, chooseSwapSurfaceFormat ([⟨44, 0⟩, ⟨50, 0⟩] : List VkSurfaceFormatKHR) = some r ∧
      ((∃ k, ([⟨44, 0⟩, ⟨50, 0⟩] : List VkSurfaceFormatKHR)[k]? = some r ∧
          (r.format = VK_FORMAT_B8G8R8A8_SRGB ∧
            r.colorSpace = VK_COLOR_SPACE_SRGB_NONLINEAR_KHR) ∧
          ∀ (j : Nat) (g : VkSurfaceFormatKHR), j < k → ([⟨44, 0⟩, ⟨50, 0⟩] : List VkSurfaceFormatKHR)[j]? = some g →
            ¬ (g.format = VK_FORMAT_B8G8R8A8_SRGB ∧
              g.colorSpace = VK_COLOR_SPACE_SRGB_NONLINEAR_KHR)) ∨
        ((∀ g ∈ ([⟨44, 0⟩, ⟨50, 0⟩] : List VkSurfaceFormatKHR), ¬ (g.format = VK_FORMAT_B8G8R8A8_SRGB ∧
              g.colorSpace = VK_COLOR_SPACE_SRGB_NONLINEAR_KHR)) ∧
          ([⟨44, 0⟩, ⟨50, 0⟩] : List VkSurfaceFormatKHR)[0]? = some r))) ∧
    chooseSwapSurfaceFormat
        [⟨VK_FORMAT_R8G8B8A8_UNORM, VK_COLOR_SPACE_SRGB_NONLINEAR_KHR⟩,
         ⟨VK_FORMAT_B8G8R8A8_SRGB, VK_COLOR_SPACE_SRGB_NONLINEAR_KHR⟩]
      = some ⟨VK_FORMAT_B8G8R8A8_SRGB, VK_COLOR_SPACE_SRGB_NONLINEAR_KHR⟩) :=
  ⟨by simp, chooseSwapSurfaceFormat_spec [⟨44, 0⟩, ⟨50, 0⟩] (by simp)⟩

/-- C2. When `currentExtent.width` is not the sentinel `0xFFFFFFFF`, `chooseSwapExtent`
returns `currentExtent` itself, for every window size and whatever the reported minimum and
maximum extents are; so a current extent of (1280, 720) gives (1280, 720) for every window
size and every pair of bounds. -/
theorem chooseSwapExtent_current (capabilities : VkSurfaceCapabilitiesKHR)
    (h : capabilities.currentExtent.width ≠ 0xFFFFFFFF) :
    (∀ windowSize : Int × Int,
      chooseSwapExtent capabilities windowSize = capabilities.currentExtent) ∧
    (∀ (minImageExtent maxImageExtent : VkExtent2D) (windowSize : Int × Int),
      chooseSwapExtent ⟨⟨1280, 720⟩, minImageExtent, maxImageExtent⟩ windowSize
        = ⟨1280, 720⟩) := by
  constructor
  · intro windowSize
    have h1 : capabilities.currentExtent.width ≠ UINT32_MAX := h
    simp only [chooseSwapExtent, if_pos h1]
  · intro mn mx windowSize
    have h1 : (1280 : Nat) ≠ UINT32_MAX := by decide
    simp only [chooseSwapExtent, if_pos h1]

/-- Witness for C2: a current extent of (640, 480) with bounds that exclude it. -/
theorem chooseSwapExtent_current_witness :
    (640 : Nat) ≠ 0xFFFFFFFF ∧
    chooseSwapExtent ⟨⟨640, 480⟩, ⟨1000, 1000⟩, ⟨2000, 2000⟩⟩ (800, 600) = ⟨640, 480⟩ :=
  ⟨by decide,
   (chooseSwapExtent_current ⟨⟨640, 480⟩, ⟨1000, 1000⟩, ⟨2000, 2000⟩⟩ (by decide)).1
     (800, 600)⟩

theorem stdClamp_eq_max_min (v lo hi : Nat) (h : lo ≤ hi) :
    stdClamp v lo hi = max lo (min v hi) := by
  unfold stdClamp
  by_cases h1 : v < lo
  · rw [if_pos h1]
    omega
  · rw [if_neg h1]
    by_cases h2 : hi < v
    · rw [if_pos h2]
      omega
    · rw [if_neg h2]
      omega

/-- C3. When `currentExtent.width` is the sentinel `0xFFFFFFFF` and the reported minimum is
at most the reported maximum in both components, then for every signed window size
`(w, h)` the result of `chooseSwapExtent` is the window size converted to `uint32_t`
(`w mod 2^32`, `h mod 2^32`) clamped componentwise into the bounds; the result lies within
the bounds; and with minimum (1, 1), maximum (4096, 4096) and window (800, 600) it is
(800, 600). -/
theorem chooseSwapExtent_sentinel (capabilities : VkSurfaceCapabilitiesKHR) (w h : Int)
    (hs : capabilities.currentExtent.width = 0xFFFFFFFF)
    (hw : capabilities.minImageExtent.width ≤ capabilities.maxImageExtent.width)
    (hh : capabilities.minImageExtent.height ≤ capabilities.maxImageExtent.height) :
    chooseSwapExtent capabilities (w, h)
      = ⟨max capabilities.minImageExtent.width
            (min (w % 2 ^ 32).toNat capabilities.maxImageExtent.width),
          max capabilities.minImageExtent.height
            (min (h % 2 ^ 32).toNat capabilities.maxImageExtent.height)⟩ ∧
    (capabilities.minImageExtent.width ≤ (chooseSwapExtent capabilities (w, h)).width ∧
      (chooseSwapExtent capabilities (w, h)).width ≤ capabilities.maxImageExtent.width ∧
      capabilities.minImageExtent.height ≤ (chooseSwapExtent capabilities (w, h)).height ∧
      (chooseSwapExtent capabilities (w, h)).height ≤ capabilities.maxImageExtent.height) ∧
    (∀ currentHeight : Nat,
      chooseSwapExtent ⟨⟨0xFFFFFFFF, currentHeight⟩, ⟨1, 1⟩, ⟨4096, 4096⟩⟩ (800, 600)
        = ⟨800, 600⟩) := by
  have h1 : ¬ capabilities.currentExtent.width ≠ UINT32_MAX := by
    rw [hs]
    decide
  have key : chooseSwapExtent capabilities (w, h)
      = ⟨max capabilities.minImageExtent.width
            (min (w % 2 ^ 32).toNat capabilities.maxImageExtent.width),
          max capabilities.minImageExtent.height
            (min (h % 2 ^ 32).toNat capabilities.maxImageExtent.height)⟩ := by
    simp only [chooseSwapExtent, if_neg h1, castU32, stdClamp_eq_max_min _ _ _ hw,
      stdClamp_eq_max_min _ _ _ hh]
    rfl
  refine ⟨key, ?_, ?_⟩
  · rw [key]
    simp only
    omega
  · intro currentHeight
    have h2 : ¬ (0xFFFFFFFF : Nat) ≠ UINT32_MAX := by decide
    simp only [chooseSwapExtent, if_neg h2]
    decide

/-- Witness for C3: a negative window width wraps to `2^32 - 5` before it is clamped to the
maximum, and a height below the minimum is raised to it. -/
theorem chooseSwapExtent_sentinel_witness :
    chooseSwapExtent ⟨⟨0xFFFFFFFF, 0⟩, ⟨16, 16⟩, ⟨4096, 2160⟩⟩ (-5, 3) = ⟨4096, 16⟩ := by
  have h := (chooseSwapExtent_sentinel ⟨⟨0xFFFFFFFF, 0⟩, ⟨16, 16⟩, ⟨4096, 2160⟩⟩ (-5) 3
    rfl (by decide) (by decide)).1
  rw [h]
  decide

/-- C4. For every list of available present modes, `chooseSwapPresentMode` returns
`MAILBOX` exactly when `MAILBOX` occurs in the list and `FIFO` otherwise; it never returns
any other mode. -/
theorem chooseSwapPresentMode_spec (abailableModes : List VkPresentModeKHR) :
    (chooseSwapPresentMode abailableModes = VK_PRESENT_MODE_MAILBOX_KHR ↔
      VK_PRESENT_MODE_MAILBOX_KHR ∈ abailableModes) ∧
    chooseSwapPresentMode abailableModes
      = (if VK_PRESENT_MODE_MAILBOX_KHR ∈ abailableModes then VK_PRESENT_MODE_MAILBOX_KHR
         else VK_PRESENT_MODE_FIFO_KHR) ∧
    (chooseSwapPresentMode abailableModes = VK_PRESENT_MODE_MAILBOX_KHR ∨
      chooseSwapPresentMode abailableModes = VK_PRESENT_MODE_FIFO_KHR) ∧
    VK_PRESENT_MODE_MAILBOX_KHR = 1 ∧ VK_PRESENT_MODE_FIFO_KHR = 2 := by
  have key : chooseSwapPresentMode abailableModes
      = (if VK_PRESENT_MODE_MAILBOX_KHR ∈ abailableModes then VK_PRESENT_MODE_MAILBOX_KHR
         else VK_PRESENT_MODE_FIFO_KHR) := by
    induction abailableModes with
    | nil => simp [chooseSwapPresentMode]
    | cons m rest ih =>
      unfold chooseSwapPresentMode
      by_cases hm : m = VK_PRESENT_MODE_MAILBOX_KHR
      · simp [hm]
      · rw [if_neg hm, ih]
        have hm2 : ¬ VK_PRESENT_MODE_MAILBOX_KHR = m := fun e => hm e.symm
        simp [hm2]
  have hne : VK_PRESENT_MODE_FIFO_KHR ≠ VK_PRESENT_MODE_MAILBOX_KHR := by decide
  refine ⟨?_, key, ?_, rfl, rfl⟩
  · rw [key]
    by_cases hmem : VK_PRESENT_MODE_MAILBOX_KHR ∈ abailableModes
    · simp [hmem]
    · simp [hmem, hne]
  · rw [key]
    by_cases hmem : VK_PRESENT_MODE_MAILBOX_KHR ∈ abailableModes
    · simp [hmem]
    · simp [hmem]

/-! ## Theorems: one execution of `Engine::render` -/

theorem render_out_of_date_eq (nextRenderFrame imageIndex : Nat)
    (recordInput : RecordInput) :
    render nextRenderFrame VK_ERROR_OUT_OF_DATE_KHR imageIndex recordInput
      = { calls := [Call.waitForFences nextRenderFrame,
                    Call.acquireNextImage nextRenderFrame, Call.recreateSwapchain]
          nextRenderFrame := nextRenderFrame
          aborted := false } := by
  simp [render]

theorem render_acquired_eq (nextRenderFrame : Nat) (result : VkResult) (imageIndex : Nat)
    (recordInput : RecordInput)
    (hr : result = VK_SUCCESS ∨ result = VK_SUBOPTIMAL_KHR)
    (hbegin : recordInput.beginResult = VK_SUCCESS)
    (hend : recordInput.endResult = VK_SUCCESS) :
    render nextRenderFrame result imageIndex recordInput
      = { calls :=
            [ Call.waitForFences nextRenderFrame,
              Call.acquireNextImage nextRenderFrame,
              Call.resetFences nextRenderFrame,
              Call.resetCommandBuffer nextRenderFrame,
              Call.recordCommandBuffer nextRenderFrame imageIndex nextRenderFrame,
              Call.submitCommands
                { waitSemaphores := [Semaphore.imageAvailable nextRenderFrame]
                  waitDstStageMask := [VK_PIPELINE_STAGE_COLOR_ATTACHMENT_OUTPUT_BIT]
                  commandBuffers := [nextRenderFrame]
                  signalSemaphores := [Semaphore.renderFinished nextRenderFrame] }
                nextRenderFrame,
              Call.present [Semaphore.renderFinished nextRenderFrame] ]
          nextRenderFrame := (imageIndex + 1) % 4294967296 % s_MaxFramesInFlight
          aborted := false } := by
  have hood : result ≠ VK_ERROR_OUT_OF_DATE_KHR := by
    rcases hr with h | h <;> rw [h] <;> decide
  simp [render, recordCommandBuffer, ENGINE_ASSERT, hood, hr, hbegin, hend]

theorem render_begin_failed_eq (nextRenderFrame : Nat) (result : VkResult)
    (imageIndex : Nat) (recordInput : RecordInput)
    (hr : result = VK_SUCCESS ∨ result = VK_SUBOPTIMAL_KHR)
    (hbegin : recordInput.beginResult ≠ VK_SUCCESS) :
    render nextRenderFrame result imageIndex recordInput
      = { calls :=
            [ Call.waitForFences nextRenderFrame,
              Call.acquireNextImage nextRenderFrame,
              Call.resetFences nextRenderFrame,
              Call.resetCommandBuffer nextRenderFrame,
              Call.recordCommandBuffer nextRenderFrame imageIndex nextRenderFrame,
              Call.assertFailed "Beginning of command buffer failed" ]
          nextRenderFrame := nextRenderFrame
          aborted := true } := by
  have hood : result ≠ VK_ERROR_OUT_OF_DATE_KHR := by
    rcases hr with h | h <;> rw [h] <;> decide
  simp [render, recordCommandBuffer, ENGINE_ASSERT, hood, hr, hbegin]

theorem render_end_failed_eq (nextRenderFrame : Nat) (result : VkResult)
    (imageIndex : Nat) (recordInput : RecordInput)
    (hr : result = VK_SUCCESS ∨ result = VK_SUBOPTIMAL_KHR)
    (hbegin : recordInput.beginResult = VK_SUCCESS)
    (hend : recordInput.endResult ≠ VK_SUCCESS) :
    render nextRenderFrame result imageIndex recordInput
      = { calls :=
            [ Call.waitForFences nextRenderFrame,
              Call.acquireNextImage nextRenderFrame,
              Call.resetFences nextRenderFrame,
              Call.resetCommandBuffer nextRenderFrame,
              Call.recordCommandBuffer nextRenderFrame imageIndex nextRenderFrame,
              Call.assertFailed "Ending of command buffer failed" ]
          nextRenderFrame := nextRenderFrame
          aborted := true } := by
  have hood : result ≠ VK_ERROR_OUT_OF_DATE_KHR := by
    rcases hr with h | h <;> rw [h] <;> decide
  simp [render, recordCommandBuffer, ENGINE_ASSERT, hood, hr, hbegin, hend]

theorem render_failed_eq (nextRenderFrame : Nat) (result : VkResult) (imageIndex : Nat)
    (recordInput : RecordInput)
    (hood : result ≠ VK_ERROR_OUT_OF_DATE_KHR)
    (hr : ¬ (result = VK_SUCCESS ∨ result = VK_SUBOPTIMAL_KHR)) :
    render nextRenderFrame result imageIndex recordInput
      = { calls := [Call.waitForFences nextRenderFrame,
                    Call.acquireNextImage nextRenderFrame,
                    Call.assertFailed "failed to acquire swap chain image!"]
          nextRenderFrame := nextRenderFrame
          aborted := true } := by
  simp [render, ENGINE_ASSERT, hood, hr]

/-- A tick whose acquire succeeded and whose recording stopped at a failed assertion: its
calls are the wait, the acquire, the two resets, the recording and the failed assertion. -/
theorem render_record_failed (nextRenderFrame : Nat) (result : VkResult) (imageIndex : Nat)
    (recordInput : RecordInput)
    (hr : result = VK_SUCCESS ∨ result = VK_SUBOPTIMAL_KHR)
    (hrec : ¬ (recordInput.beginResult = VK_SUCCESS ∧ recordInput.endResult = VK_SUCCESS)) :
    ∃ msg : String,
      (msg = "Beginning of command buffer failed" ∨
        msg = "Ending of command buffer failed") ∧
      render nextRenderFrame result imageIndex recordInput
        = { calls :=
              [ Call.waitForFences nextRenderFrame,
                Call.acquireNextImage nextRenderFrame,
                Call.resetFences nextRenderFrame,
                Call.resetCommandBuffer nextRenderFrame,
                Call.recordCommandBuffer nextRenderFrame imageIndex nextRenderFrame,
                Call.assertFailed msg ]
            nextRenderFrame := nextRenderFrame
            aborted := true } := by
  by_cases hbegin : recordInput.beginResult = VK_SUCCESS
  · have hend : recordInput.endResult ≠ VK_SUCCESS := fun h => hrec ⟨hbegin, h⟩
    exact ⟨_, Or.inr rfl, render_end_failed_eq _ _ _ _ hr hbegin hend⟩
  · exact ⟨_, Or.inl rfl, render_begin_failed_eq _ _ _ _ hr hbegin⟩

/-- The four ways a tick of `Engine::render` can go: the surface is stale; the acquire fails
the assertion; the acquire succeeds and the recording fails an assertion; the acquire and
the recording succeed. -/
theorem render_cases (result : VkResult) (recordInput : RecordInput) :
    result = VK_ERROR_OUT_OF_DATE_KHR ∨
    (result ≠ VK_ERROR_OUT_OF_DATE_KHR ∧
      ¬ (result = VK_SUCCESS ∨ result = VK_SUBOPTIMAL_KHR)) ∨
    ((result = VK_SUCCESS ∨ result = VK_SUBOPTIMAL_KHR) ∧
      ¬ (recordInput.beginResult = VK_SUCCESS ∧ recordInput.endResult = VK_SUCCESS)) ∨
    ((result = VK_SUCCESS ∨ result = VK_SUBOPTIMAL_KHR) ∧
      recordInput.beginResult = VK_SUCCESS ∧ recordInput.endResult = VK_SUCCESS) := by
  by_cases hood : result = VK_ERROR_OUT_OF_DATE_KHR
  · exact Or.inl hood
  · by_cases hr : result = VK_SUCCESS ∨ result = VK_SUBOPTIMAL_KHR
    · by_cases hrec : recordInput.beginResult = VK_SUCCESS ∧
          recordInput.endResult = VK_SUCCESS
      · exact Or.inr (Or.inr (Or.inr ⟨hr, hrec⟩))
      · exact Or.inr (Or.inr (Or.inl ⟨hr, hrec⟩))
    · exact Or.inr (Or.inl ⟨hood, hr⟩)

/-- C5. For every value of the slot index, a tick of `Engine::render` whose acquire returns
`VK_ERROR_OUT_OF_DATE_KHR` calls `recreateSwapchain` exactly once and returns with the slot
index unchanged and without a failed assertion; among its calls there is no fence reset, no
command-buffer reset, no recording, no queue submission and no present. -/
theorem render_out_of_date (nextRenderFrame imageIndex : Nat) (recordInput : RecordInput) :
    (render nextRenderFrame VK_ERROR_OUT_OF_DATE_KHR imageIndex recordInput).calls.count
        Call.recreateSwapchain = 1 ∧
    (render nextRenderFrame VK_ERROR_OUT_OF_DATE_KHR imageIndex recordInput).nextRenderFrame
        = nextRenderFrame ∧
    (render nextRenderFrame VK_ERROR_OUT_OF_DATE_KHR imageIndex recordInput).aborted
        = false ∧
    (∀ c ∈ (render nextRenderFrame VK_ERROR_OUT_OF_DATE_KHR imageIndex recordInput).calls,
      (∀ f, c ≠ Call.resetFences f) ∧
      (∀ b, c ≠ Call.resetCommandBuffer b) ∧
      (∀ b i ds, c ≠ Call.recordCommandBuffer b i ds) ∧
      (∀ info f, c ≠ Call.submitCommands info f) ∧
      (∀ sems, c ≠ Call.present sems)) := by
  rw [render_out_of_date_eq]
  refine ⟨by simp [List.count_cons], rfl, rfl, ?_⟩
  intro c hc
  simp only [List.mem_cons, List.mem_singleton, List.not_mem_nil, or_false] at hc
  rcases hc with h | h | h <;> subst h <;> simp

/-- C10 (the claim as stated fails). Slot 0 acquires image 0 with `VK_SUCCESS`, and
`vkBeginCommandBuffer` returns `VK_ERROR_OUT_OF_HOST_MEMORY`: the tick stops at the failed
assertion of `recordCommandBuffer` after the fence reset, and makes no queue submission and
no present. The same happens when `vkEndCommandBuffer` is the call that fails. -/
theorem render_acquired_without_submission :
    (VK_SUCCESS = VK_SUCCESS ∨ VK_SUCCESS = VK_SUBOPTIMAL_KHR) ∧
    (render 0 VK_SUCCESS 0 ⟨⟨800, 600⟩, 6, VK_ERROR_OUT_OF_HOST_MEMORY, VK_SUCCESS⟩).calls
      = [ Call.waitForFences 0, Call.acquireNextImage 0, Call.resetFences 0,
          Call.resetCommandBuffer 0, Call.recordCommandBuffer 0 0 0,
          Call.assertFailed "Beginning of command buffer failed" ] ∧
    (render 0 VK_SUCCESS 0
        ⟨⟨800, 600⟩, 6, VK_ERROR_OUT_OF_HOST_MEMORY, VK_SUCCESS⟩).calls.countP
          (fun c => match c with
            | Call.submitCommands _ _ => true
            | _ => false) = 0 ∧
    (render 0 VK_SUCCESS 0 ⟨⟨800, 600⟩, 6, VK_SUCCESS, VK_ERROR_OUT_OF_HOST_MEMORY⟩).calls
      = [ Call.waitForFences 0, Call.acquireNextImage 0, Call.resetFences 0,
          Call.resetCommandBuffer 0, Call.recordCommandBuffer 0 0 0,
          Call.assertFailed "Ending of command buffer failed" ] ∧
    (render 0 VK_SUCCESS 0
        ⟨⟨800, 600⟩, 6, VK_SUCCESS, VK_ERROR_OUT_OF_HOST_MEMORY⟩).calls.countP
          (fun c => match c with
            | Call.submitCommands _ _ => true
            | _ => false) = 0 := by
  refine ⟨Or.inl rfl, ?_, ?_, ?_, ?_⟩ <;> decide

/-- C10 (amended). A tick of `Engine::render` on slot `s` that acquires with `VK_SUCCESS` or
`VK_SUBOPTIMAL_KHR` and whose recording passes both assertions (`vkBeginCommandBuffer` and
`vkEndCommandBuffer` return `VK_SUCCESS`) makes exactly one queue submission: its calls end
with that submission followed by the present request, and no submission or present occurs
before. The submission executes exactly command buffer `s`, waits on exactly the
image-acquired semaphore of `s` at the stage `COLOR_ATTACHMENT_OUTPUT`, signals exactly the
rendering-finished semaphore of `s` and has fence `s` as completion fence; the present
request waits on exactly that rendering-finished semaphore. A tick whose recording fails an
assertion stops there and makes no submission and no present. -/
theorem render_submission (s : Nat) (result : VkResult) (imageIndex : Nat)
    (recordInput : RecordInput)
    (hr : result = VK_SUCCESS ∨ result = VK_SUBOPTIMAL_KHR)
    (hrec : recordInput.beginResult = VK_SUCCESS ∧ recordInput.endResult = VK_SUCCESS) :
    (∃ before : List Call,
      (render s result imageIndex recordInput).calls
        = before ++
          [ Call.submitCommands
              { waitSemaphores := [Semaphore.imageAvailable s]
                waitDstStageMask := [VK_PIPELINE_STAGE_COLOR_ATTACHMENT_OUTPUT_BIT]
                commandBuffers := [s]
                signalSemaphores := [Semaphore.renderFinished s] }
              s,
            Call.present [Semaphore.renderFinished s] ] ∧
      (∀ c ∈ before, (∀ info f, c ≠ Call.submitCommands info f) ∧
        (∀ sems, c ≠ Call.present sems)) ∧
      (render s result imageIndex recordInput).calls.countP
          (fun c => match c with
            | Call.submitCommands _ _ => true
            | _ => false) = 1) ∧
    (∀ failing : RecordInput,
      ¬ (failing.beginResult = VK_SUCCESS ∧ failing.endResult = VK_SUCCESS) →
        (render s result imageIndex failing).aborted = true ∧
        ∀ c ∈ (render s result imageIndex failing).calls,
          (∀ info f, c ≠ Call.submitCommands info f) ∧ (∀ sems, c ≠ Call.present sems)) := by
  constructor
  · rw [render_acquired_eq _ _ _ _ hr hrec.1 hrec.2]
    refine ⟨[Call.waitForFences s, Call.acquireNextImage s, Call.resetFences s,
      Call.resetCommandBuffer s, Call.recordCommandBuffer s imageIndex s], rfl, ?_, ?_⟩
    · intro c hc
      simp only [List.mem_cons, List.mem_singleton, List.not_mem_nil, or_false] at hc
      rcases hc with h | h | h | h | h <;> subst h <;> simp
    · simp [List.countP_cons]
  · intro failing hfail
    obtain ⟨msg, -, heq⟩ := render_record_failed s result imageIndex failing hr hfail
    rw [heq]
    refine ⟨rfl, ?_⟩
    intro c hc
    simp only [List.mem_cons, List.mem_singleton, List.not_mem_nil, or_false] at hc
    rcases hc with h | h | h | h | h | h <;> subst h <;> simp

/-- Witness for C10 (amended): slot 2 acquiring image 0 with `VK_SUCCESS`. -/
theorem render_submission_witness :
    (VK_SUCCESS = VK_SUCCESS ∨ VK_SUCCESS = VK_SUBOPTIMAL_KHR) ∧
    ∃ before : List Call,
      (render 2 VK_SUCCESS 0 ⟨⟨800, 600⟩, 6, VK_SUCCESS, VK_SUCCESS⟩).calls
        = before ++
          [ Call.submitCommands
              { waitSemaphores := [Semaphore.imageAvailable 2]
                waitDstStageMask := [VK_PIPELINE_STAGE_COLOR_ATTACHMENT_OUTPUT_BIT]
                commandBuffers := [2]
                signalSemaphores := [Semaphore.renderFinished 2] }
              2,
            Call.present [Semaphore.renderFinished 2] ] ∧
      (∀ c ∈ before, (∀ info f, c ≠ Call.submitCommands info f) ∧
        (∀ sems, c ≠ Call.present sems)) ∧
      (render 2 VK_SUCCESS 0 ⟨⟨800, 600⟩, 6, VK_SUCCESS, VK_SUCCESS⟩).calls.countP
          (fun c => match c with
            | Call.submitCommands _ _ => true
            | _ => false) = 1 :=
  ⟨Or.inl rfl,
   (render_submission 2 VK_SUCCESS 0 ⟨⟨800, 600⟩, 6, VK_SUCCESS, VK_SUCCESS⟩ (Or.inl rfl)
      ⟨rfl, rfl⟩).1⟩

/-! ## Theorems: runs of the loop -/

theorem takeOut_perm {α : Type} {l : List α} {k : Nat} {y : α} {ys : List α}
    (h : takeOut l k = some (y, ys)) : l.Perm (y :: ys) := by
  induction l generalizing k y ys with
  | nil => simp [takeOut] at h
  | cons x xs ih =>
    cases k with
    | zero =>
      simp only [takeOut, Option.some.injEq, Prod.mk.injEq] at h
      obtain ⟨h1, h2⟩ := h
      subst h1
      subst h2
      exact List.Perm.refl _
    | succ k =>
      unfold takeOut at h
      cases hrec : takeOut xs k with
      | none => simp [hrec] at h
      | some p =>
        obtain ⟨z, zs⟩ := p
        simp only [hrec, Option.some.injEq, Prod.mk.injEq] at h
        obtain ⟨h1, h2⟩ := h
        subst h1
        subst h2
        exact ((ih hrec).cons x).trans (List.Perm.swap z x zs)

theorem runCalls_update (d : Device) (nextRenderFrame : Nat) :
    d.runCalls (update nextRenderFrame) = some d := by
  simp [update, updateUniformBuffer, Device.runCalls, Device.exec]

theorem World.Inv.init : World.init.Inv where
  fences_length := by simp [World.init, initSyncObjects]
  slot_lt := by decide
  pending_ok := by intro sub hsub; simp [World.init] at hsub
  fences_nodup := by simp [World.init]

/-- In a state that satisfies the invariant, a signaled fence has no pending submission. -/
theorem World.Inv.not_pending_of_signaled {w : World} (hinv : w.Inv) {slot : Nat}
    (hsig : w.device.fences[slot]? = some true) :
    ∀ sub ∈ w.device.pending, sub.fence ≠ slot := by
  intro sub hsub heq
  have h := (hinv.pending_ok sub hsub).2
  rw [heq, hsig] at h
  cases h

theorem World.Inv.step_update {w w1 : World} (hinv : w.Inv)
    (h : w.step Event.update = some w1) : w1.Inv := by
  simp only [World.step, runCalls_update] at h
  split at h
  · cases h
    exact ⟨hinv.fences_length, hinv.slot_lt, hinv.pending_ok, hinv.fences_nodup⟩
  · cases h

/-- What a `render` step does, in a state that satisfies the invariant: the fence of the
slot was signaled; the slot index and the running flag are those of the tick; and the device
is unchanged (stale surface or failed acquire), or has the slot's fence reset and nothing
added to the queue (the recording failed an assertion, which stops the run), or has that
fence reset and the slot's submission added to the queue. -/
theorem World.Inv.step_render_device {w w1 : World} (hinv : w.Inv) (result : VkResult)
    (imageIndex : Nat) (recordInput : RecordInput)
    (h : w.step (Event.render result imageIndex recordInput) = some w1) :
    w.device.fences[w.nextRenderFrame]? = some true ∧
    w1.nextRenderFrame
      = (render w.nextRenderFrame result imageIndex recordInput).nextRenderFrame ∧
    w1.running = !(render w.nextRenderFrame result imageIndex recordInput).aborted ∧
    (w1.device = w.device ∨
      ((result = VK_SUCCESS ∨ result = VK_SUBOPTIMAL_KHR) ∧
        ¬ (recordInput.beginResult = VK_SUCCESS ∧ recordInput.endResult = VK_SUCCESS) ∧
        w1.running = false ∧
        w1.device.fences = w.device.fences.set w.nextRenderFrame false ∧
        w1.device.pending = w.device.pending) ∨
      ((result = VK_SUCCESS ∨ result = VK_SUBOPTIMAL_KHR) ∧
        (recordInput.beginResult = VK_SUCCESS ∧ recordInput.endResult = VK_SUCCESS) ∧
        w1.running = true ∧
        w1.device.fences = w.device.fences.set w.nextRenderFrame false ∧
        w1.device.pending = w.device.pending ++
          [⟨{ waitSemaphores := [Semaphore.imageAvailable w.nextRenderFrame]
              waitDstStageMask := [VK_PIPELINE_STAGE_COLOR_ATTACHMENT_OUTPUT_BIT]
              commandBuffers := [w.nextRenderFrame]
              signalSemaphores := [Semaphore.renderFinished w.nextRenderFrame] },
            w.nextRenderFrame⟩])) := by
  have hlt : w.nextRenderFrame < w.device.fences.length := by
    rw [hinv.fences_length]
    exact hinv.slot_lt
  have hlt2 : w.nextRenderFrame < (w.device.fences.set w.nextRenderFrame false).length := by
    simpa using hlt
  simp only [World.step] at h
  split at h
  case isFalse => cases h
  case isTrue hrun =>
    by_cases hsig : w.device.fences[w.nextRenderFrame]? = some true
    case neg =>
      -- the wait does not return: no step
      exfalso
      rcases render_cases result recordInput with hood | ⟨hood, hr⟩ | ⟨hr, hrec⟩ | ⟨hr, hb, he⟩
      · subst hood
        simp [render_out_of_date_eq, Device.runCalls, Device.exec, hsig] at h
      · simp [render_failed_eq _ _ _ _ hood hr, Device.runCalls, Device.exec, hsig] at h
      · obtain ⟨msg, -, heq⟩ :=
          render_record_failed w.nextRenderFrame result imageIndex recordInput hr hrec
        simp [heq, Device.runCalls, Device.exec, hsig] at h
      · simp [render_acquired_eq _ _ _ _ hr hb he, Device.runCalls, Device.exec, hsig] at h
    case pos =>
      refine ⟨hsig, ?_⟩
      rcases render_cases result recordInput with hood | ⟨hood, hr⟩ | ⟨hr, hrec⟩ | ⟨hr, hb, he⟩
      · subst hood
        simp only [render_out_of_date_eq, Device.runCalls, Device.exec, hsig, if_true,
          Option.some.injEq] at h
        subst h
        rw [render_out_of_date_eq]
        exact ⟨rfl, rfl, Or.inl rfl⟩
      · simp only [render_failed_eq _ _ _ _ hood hr, Device.runCalls, Device.exec, hsig,
          if_true, Option.some.injEq] at h
        subst h
        rw [render_failed_eq _ _ _ _ hood hr]
        exact ⟨rfl, rfl, Or.inl rfl⟩
      · obtain ⟨msg, -, heq⟩ :=
          render_record_failed w.nextRenderFrame result imageIndex recordInput hr hrec
        simp only [heq, Device.runCalls, Device.exec, hsig, if_true, hlt,
          Option.some.injEq] at h
        subst h
        rw [heq]
        exact ⟨rfl, rfl, Or.inr (Or.inl ⟨hr, hrec, rfl, rfl, rfl⟩)⟩
      · simp only [render_acquired_eq _ _ _ _ hr hb he, Device.runCalls, Device.exec,
          Device.submitCommands, hsig, if_true, hlt, hlt2, List.length_set,
          Option.some.injEq] at h
        subst h
        rw [render_acquired_eq _ _ _ _ hr hb he]
        exact ⟨rfl, rfl, Or.inr (Or.inr ⟨hr, ⟨hb, he⟩, rfl, rfl, rfl⟩)⟩

theorem render_nextRenderFrame_lt (nextRenderFrame : Nat) (result : VkResult)
    (imageIndex : Nat) (recordInput : RecordInput)
    (h : nextRenderFrame < s_MaxFramesInFlight) :
    (render nextRenderFrame result imageIndex recordInput).nextRenderFrame
      < s_MaxFramesInFlight := by
  rcases render_cases result recordInput with hood | ⟨hood, hr⟩ | ⟨hr, hrec⟩ | ⟨hr, hb, he⟩
  · subst hood
    rw [render_out_of_date_eq]
    exact h
  · rw [render_failed_eq _ _ _ _ hood hr]
    exact h
  · obtain ⟨msg, -, heq⟩ :=
      render_record_failed nextRenderFrame result imageIndex recordInput hr hrec
    rw [heq]
    exact h
  · rw [render_acquired_eq _ _ _ _ hr hb he]
    exact Nat.mod_lt _ (by decide)

theorem World.Inv.step_render {w w1 : World} (hinv : w.Inv) (result : VkResult)
    (imageIndex : Nat) (recordInput : RecordInput)
    (h : w.step (Event.render result imageIndex recordInput) = some w1) :
    w1.Inv := by
  obtain ⟨hsig, hslot1, -, hdev⟩ := hinv.step_render_device result imageIndex recordInput h
  have hlt : w.nextRenderFrame < w.device.fences.length := by
    rw [hinv.fences_length]
    exact hinv.slot_lt
  have hslot : w1.nextRenderFrame < s_MaxFramesInFlight := by
    rw [hslot1]
    exact render_nextRenderFrame_lt _ _ _ _ hinv.slot_lt
  have hfresh := hinv.not_pending_of_signaled hsig
  rcases hdev with hsame | ⟨-, -, -, hfences, hpending⟩ | ⟨-, -, -, hfences, hpending⟩
  · refine ⟨?_, hslot, ?_, ?_⟩
    · rw [hsame]
      exact hinv.fences_length
    · rw [hsame]
      exact hinv.pending_ok
    · rw [hsame]
      exact hinv.fences_nodup
  · refine ⟨?_, hslot, ?_, ?_⟩
    · rw [hfences, List.length_set]
      exact hinv.fences_length
    · rw [hfences, hpending]
      intro sub hsub
      have hne : w.nextRenderFrame ≠ sub.fence := fun e => hfresh sub hsub e.symm
      refine ⟨(hinv.pending_ok sub hsub).1, ?_⟩
      rw [List.getElem?_set_ne hne]
      exact (hinv.pending_ok sub hsub).2
    · rw [hpending]
      exact hinv.fences_nodup
  · refine ⟨?_, hslot, ?_, ?_⟩
    · rw [hfences, List.length_set]
      exact hinv.fences_length
    · rw [hfences, hpending]
      intro sub hsub
      simp only [List.mem_append, List.mem_singleton] at hsub
      rcases hsub with hold | hnew
      · have hne : w.nextRenderFrame ≠ sub.fence := fun e => hfresh sub hold e.symm
        refine ⟨(hinv.pending_ok sub hold).1, ?_⟩
        rw [List.getElem?_set_ne hne]
        exact (hinv.pending_ok sub hold).2
      · subst hnew
        refine ⟨rfl, ?_⟩
        simp only [List.getElem?_set, if_true, hlt]
    · rw [hpending]
      simp only [List.map_append, List.map_cons, List.map_nil]
      rw [List.nodup_append]
      refine ⟨hinv.fences_nodup, List.nodup_singleton _, ?_⟩
      intro a ha hb
      simp only [List.mem_singleton] at hb
      subst hb
      obtain ⟨sub, hsub, hfe⟩ := List.mem_map.mp ha
      exact hfresh sub hsub hfe

theorem World.Inv.step_gpuComplete {w w1 : World} (hinv : w.Inv) (k : Nat)
    (h : w.step (Event.gpuComplete k) = some w1) : w1.Inv := by
  simp only [World.step, Device.complete] at h
  cases htake : takeOut w.device.pending k with
  | none => simp [htake] at h
  | some p =>
    obtain ⟨sub, others⟩ := p
    simp only [htake, Option.some.injEq] at h
    subst h
    have hperm := takeOut_perm htake
    have hnd : (sub.fence :: others.map Submission.fence).Nodup := by
      have := (hperm.map Submission.fence).nodup_iff.mp hinv.fences_nodup
      simpa using this
    have hnotin : sub.fence ∉ others.map Submission.fence := (List.nodup_cons.mp hnd).1
    refine ⟨by simpa using hinv.fences_length, hinv.slot_lt, ?_, (List.nodup_cons.mp hnd).2⟩
    intro sub1 hsub1
    have hmem : sub1 ∈ w.device.pending := hperm.mem_iff.mpr (List.mem_cons_of_mem _ hsub1)
    have hne : sub.fence ≠ sub1.fence := by
      intro e
      exact hnotin (e ▸ List.mem_map_of_mem Submission.fence hsub1)
    refine ⟨(hinv.pending_ok sub1 hmem).1, ?_⟩
    simp only [List.getElem?_set_ne hne]
    exact (hinv.pending_ok sub1 hmem).2

theorem World.Inv.step {w w1 : World} (hinv : w.Inv) (e : Event)
    (h : w.step e = some w1) : w1.Inv := by
  cases e with
  | update => exact hinv.step_update h
  | render result imageIndex recordInput =>
    exact hinv.step_render result imageIndex recordInput h
  | gpuComplete k => exact hinv.step_gpuComplete k h

theorem World.Inv.run {w w1 : World} (hinv : w.Inv) (evs : List Event)
    (h : w.run evs = some w1) : w1.Inv := by
  induction evs generalizing w with
  | nil =>
    simp only [World.run, Option.some.injEq] at h
    subst h
    exact hinv
  | cons e rest ih =>
    unfold World.run at h
    cases hstep : w.step e with
    | none => simp [hstep] at h
    | some w2 =>
      simp only [hstep] at h
      exact ih (hinv.step e hstep) h

/-- Under the invariant the command buffers in flight are the fences of the pending
submissions. -/
theorem World.Inv.inFlight_eq {w : World} (hinv : w.Inv) :
    w.device.inFlight = w.device.pending.map Submission.fence := by
  have h := hinv.pending_ok
  unfold Device.inFlight
  generalize w.device.pending = l at h
  induction l with
  | nil => rfl
  | cons sub rest ih =>
    have h1 := (h sub (List.mem_cons_self _ _)).1
    have h2 := ih (fun s hs => h s (List.mem_cons_of_mem _ hs))
    simp only [List.map_cons, List.flatten_cons, h1, h2, List.singleton_append]

theorem World.Inv.pending_length_le {w : World} (hinv : w.Inv) :
    w.device.pending.length ≤ s_MaxFramesInFlight := by
  have hsub : w.device.pending.map Submission.fence ⊆ List.range s_MaxFramesInFlight := by
    intro f hf
    obtain ⟨sub, hsub, hfe⟩ := List.mem_map.mp hf
    have h2 := (hinv.pending_ok sub hsub).2
    rw [hfe] at h2
    have hlt : f < w.device.fences.length := by
      by_contra hge
      rw [List.getElem?_eq_none (Nat.le_of_not_lt hge)] at h2
      cases h2
    rw [hinv.fences_length] at hlt
    exact List.mem_range.mpr hlt
  have := (hinv.fences_nodup.subperm hsub).length_le
  simpa using this

/-- Under the invariant, the GPU is not executing the command buffer of a slot whose fence
is signaled. -/
theorem World.Inv.not_busy_of_signaled {w : World} (hinv : w.Inv) {slot : Nat}
    (hsig : w.device.fences[slot]? = some true) (d : Device)
    (hd : d.pending = w.device.pending) : d.busy slot = false := by
  have hfresh := hinv.not_pending_of_signaled hsig
  unfold Device.busy
  rw [hd]
  rw [Bool.eq_false_iff]
  intro hany
  obtain ⟨sub, hsub, hmem⟩ := List.any_eq_true.mp hany
  rw [(hinv.pending_ok sub hsub).1] at hmem
  simp only [List.mem_singleton, decide_eq_true_eq] at hmem
  exact hfresh sub hsub hmem.symm

/-- C9. In every state reached from the initial state (all fences created signaled, nothing
submitted) by any sequence of `update` and `render` executions with arbitrary acquire
results and image indices, interleaved with GPU completions in any order, the number of
command buffers submitted and not completed is at most `s_MaxFramesInFlight`, no slot has
more than one such command buffer or more than one pending submission on its fence, and
the fence of every pending submission is unsignaled. -/
theorem frames_in_flight_bounded (evs : List Event) (w : World)
    (h : World.init.run evs = some w) :
    w.device.inFlight.length ≤ s_MaxFramesInFlight ∧
    (∀ slot : Nat, w.device.inFlight.count slot ≤ 1) ∧
    w.device.pending.length ≤ s_MaxFramesInFlight ∧
    (∀ slot : Nat, (w.device.pending.filter (fun sub => sub.fence = slot)).length ≤ 1) ∧
    (∀ sub ∈ w.device.pending, w.device.fences[sub.fence]? = some false) ∧
    w.device.fences.length = s_MaxFramesInFlight := by
  have hinv : w.Inv := World.Inv.init.run evs h
  have hcount : ∀ slot : Nat, (w.device.pending.map Submission.fence).count slot ≤ 1 :=
    List.nodup_iff_count_le_one.mp hinv.fences_nodup
  refine ⟨?_, ?_, hinv.pending_length_le, ?_, fun sub hsub => (hinv.pending_ok sub hsub).2,
    hinv.fences_length⟩
  · rw [hinv.inFlight_eq, List.length_map]
    exact hinv.pending_length_le
  · intro slot
    rw [hinv.inFlight_eq]
    exact hcount slot
  · intro slot
    have h1 := hcount slot
    rw [List.count_eq_countP, List.countP_map, List.countP_eq_length_filter] at h1
    have h2 : (List.filter ((fun x => x == slot) ∘ Submission.fence) w.device.pending)
        = List.filter (fun sub => decide (sub.fence = slot)) w.device.pending := by
      rfl
    rw [h2] at h1
    exact h1

/-- Witness for C9: three frames submitted in slot order, none completed. -/
theorem frames_in_flight_bounded_witness :
    World.init.run [Event.update,
        Event.render VK_SUCCESS 0 ⟨⟨800, 600⟩, 6, VK_SUCCESS, VK_SUCCESS⟩, Event.update,
        Event.render VK_SUCCESS 1 ⟨⟨800, 600⟩, 6, VK_SUCCESS, VK_SUCCESS⟩, Event.update,
        Event.render VK_SUCCESS 2 ⟨⟨800, 600⟩, 6, VK_SUCCESS, VK_SUCCESS⟩]
      = some ⟨0, ⟨[false, false, false],
          [⟨⟨[Semaphore.imageAvailable 0], [1024], [0], [Semaphore.renderFinished 0]⟩, 0⟩,
           ⟨⟨[Semaphore.imageAvailable 1], [1024], [1], [Semaphore.renderFinished 1]⟩, 1⟩,
           ⟨⟨[Semaphore.imageAvailable 2], [1024], [2], [Semaphore.renderFinished 2]⟩, 2⟩]⟩,
          Phase.atUpdate, true⟩ ∧
    (3 : Nat) ≤ s_MaxFramesInFlight :=
  ⟨rfl,
   (frames_in_flight_bounded
      [Event.update,
        Event.render VK_SUCCESS 0 ⟨⟨800, 600⟩, 6, VK_SUCCESS, VK_SUCCESS⟩, Event.update,
        Event.render VK_SUCCESS 1 ⟨⟨800, 600⟩, 6, VK_SUCCESS, VK_SUCCESS⟩, Event.update,
        Event.render VK_SUCCESS 2 ⟨⟨800, 600⟩, 6, VK_SUCCESS, VK_SUCCESS⟩]
      ⟨0, ⟨[false, false, false],
          [⟨⟨[Semaphore.imageAvailable 0], [1024], [0], [Semaphore.renderFinished 0]⟩, 0⟩,
           ⟨⟨[Semaphore.imageAvailable 1], [1024], [1], [Semaphore.renderFinished 1]⟩, 1⟩,
           ⟨⟨[Semaphore.imageAvailable 2], [1024], [2], [Semaphore.renderFinished 2]⟩, 2⟩]⟩,
          Phase.atUpdate, true⟩
      rfl).2.2.1⟩

/-- The calls of a tick whose acquire succeeded begin with the wait, the acquire, the fence
reset, the command-buffer reset and the recording; what follows holds no command-buffer
reset and no recording. -/
theorem render_acquired_prefix (nextRenderFrame : Nat) (result : VkResult)
    (imageIndex : Nat) (recordInput : RecordInput)
    (hr : result = VK_SUCCESS ∨ result = VK_SUBOPTIMAL_KHR) :
    ∃ tail : List Call,
      (render nextRenderFrame result imageIndex recordInput).calls
        = [ Call.waitForFences nextRenderFrame,
            Call.acquireNextImage nextRenderFrame,
            Call.resetFences nextRenderFrame,
            Call.resetCommandBuffer nextRenderFrame,
            Call.recordCommandBuffer nextRenderFrame imageIndex nextRenderFrame ] ++ tail ∧
      ∀ c ∈ tail, (∀ b, c ≠ Call.resetCommandBuffer b) ∧
        (∀ b i ds, c ≠ Call.recordCommandBuffer b i ds) := by
  by_cases hrec : recordInput.beginResult = VK_SUCCESS ∧ recordInput.endResult = VK_SUCCESS
  · rw [render_acquired_eq _ _ _ _ hr hrec.1 hrec.2]
    refine ⟨_, rfl, ?_⟩
    intro c hc
    simp only [List.mem_cons, List.mem_singleton, List.not_mem_nil, or_false] at hc
    rcases hc with h | h <;> subst h <;> simp
  · obtain ⟨msg, -, heq⟩ :=
      render_record_failed nextRenderFrame result imageIndex recordInput hr hrec
    rw [heq]
    refine ⟨[Call.assertFailed msg], rfl, ?_⟩
    intro c hc
    simp only [List.mem_singleton] at hc
    subst hc
    simp

/-- C7. In every state reached by a run, and for every answer of the swapchain and of the
recording, each `vkResetCommandBuffer` and each `recordCommandBuffer` call of the
`Engine::render` tick is made on the command buffer of the current slot and is preceded in
that tick by the call `vkWaitForFences` on the fence of the same slot; and whenever the
calls before it have been executed (so that the wait has returned), no pending submission
contains that command buffer: the GPU has finished the slot's previous iteration before the
CPU resets and re-records it. -/
theorem fence_before_reuse (evs : List Event) (w : World) (result : VkResult)
    (imageIndex : Nat) (recordInput : RecordInput) (pre post : List Call) (x : Call)
    (c : Nat)
    (hreach : World.init.run evs = some w)
    (hsplit : (render w.nextRenderFrame result imageIndex recordInput).calls
      = pre ++ x :: post)
    (hx : x = Call.resetCommandBuffer c ∨
      ∃ img ds, x = Call.recordCommandBuffer c img ds) :
    c = w.nextRenderFrame ∧
    Call.waitForFences c ∈ pre ∧
    ∀ d : Device, w.device.runCalls pre = some d → d.busy c = false := by
  have hinv : w.Inv := World.Inv.init.run evs hreach
  have hxmem : x ∈ (render w.nextRenderFrame result imageIndex recordInput).calls := by
    rw [hsplit]
    simp
  rcases render_cases result recordInput with hood | ⟨hood, hr⟩ | ⟨hr, -⟩ | ⟨hr, -, -⟩
  · subst hood
    rw [render_out_of_date_eq] at hxmem
    simp only [List.mem_cons, List.mem_singleton, List.not_mem_nil, or_false] at hxmem
    rcases hx with hx | ⟨img, ds, hx⟩ <;> subst hx <;> simp at hxmem
  · rw [render_failed_eq _ _ _ _ hood hr] at hxmem
    simp only [List.mem_cons, List.mem_singleton, List.not_mem_nil, or_false] at hxmem
    rcases hx with hx | ⟨img, ds, hx⟩ <;> subst hx <;> simp at hxmem
  all_goals
    obtain ⟨tail, hcalls, htail⟩ :=
      render_acquired_prefix w.nextRenderFrame result imageIndex recordInput hr
    rw [hcalls] at hsplit
    have hbusy : ∀ d : Device, w.device.fences[w.nextRenderFrame]? = some true →
        d.pending = w.device.pending → d.busy w.nextRenderFrame = false :=
      fun d hsig hd => hinv.not_busy_of_signaled hsig d hd
    have hlt : w.nextRenderFrame < w.device.fences.length := by
      rw [hinv.fences_length]
      exact hinv.slot_lt
    rcases pre with _ | ⟨p0, _ | ⟨p1, _ | ⟨p2, _ | ⟨p3, _ | ⟨p4, pre⟩⟩⟩⟩⟩
    all_goals simp only [List.nil_append, List.cons_append, List.cons.injEq] at hsplit
    · obtain ⟨h0, -⟩ := hsplit
      subst h0
      rcases hx with hx | ⟨img, ds, hx⟩ <;> cases hx
    · obtain ⟨-, h1, -⟩ := hsplit
      subst h1
      rcases hx with hx | ⟨img, ds, hx⟩ <;> cases hx
    · obtain ⟨-, -, h2, -⟩ := hsplit
      subst h2
      rcases hx with hx | ⟨img, ds, hx⟩ <;> cases hx
    · obtain ⟨h0, h1, h2, h3, -⟩ := hsplit
      subst h0 h1 h2 h3
      have hc : c = w.nextRenderFrame := by
        rcases hx with hx | ⟨img, ds, hx⟩
        · injection hx with hx
          exact hx.symm
        · cases hx
      subst hc
      refine ⟨rfl, by simp, ?_⟩
      intro d hd
      by_cases hsig : w.device.fences[w.nextRenderFrame]? = some true
      · refine hbusy d hsig ?_
        simp only [Device.runCalls, Device.exec, hsig, if_true, hlt,
          Option.some.injEq] at hd
        rw [← hd]
      · simp [Device.runCalls, Device.exec, hsig] at hd
    · obtain ⟨h0, h1, h2, h3, h4, -⟩ := hsplit
      subst h0 h1 h2 h3 h4
      have hc : c = w.nextRenderFrame := by
        rcases hx with hx | ⟨img, ds, hx⟩
        · cases hx
        · injection hx with hx
          exact hx.symm
      subst hc
      refine ⟨rfl, by simp, ?_⟩
      intro d hd
      by_cases hsig : w.device.fences[w.nextRenderFrame]? = some true
      · refine hbusy d hsig ?_
        simp only [Device.runCalls, Device.exec, hsig, if_true, hlt,
          Option.some.injEq] at hd
        rw [← hd]
      · simp [Device.runCalls, Device.exec, hsig] at hd
    · obtain ⟨-, -, -, -, -, h5⟩ := hsplit
      have hmem : x ∈ tail := by
        rw [h5]
        simp
      have hno := htail x hmem
      rcases hx with hx | ⟨img, ds, hx⟩
      · exact absurd hx (hno.1 c)
      · exact absurd hx (hno.2 c img ds)

/-- Witness for C7: after one frame on slot 0 (image 2) has been submitted and completed, the
next tick runs on slot 0 again and resets its command buffer after the wait on fence 0. -/
theorem fence_before_reuse_witness :
    World.init.run [Event.update,
        Event.render VK_SUCCESS 2 ⟨⟨800, 600⟩, 6, VK_SUCCESS, VK_SUCCESS⟩, Event.update,
        Event.gpuComplete 0]
      = some ⟨0, ⟨[true, true, true], []⟩, Phase.atRender, true⟩ ∧
    (render 0 VK_SUCCESS 1 ⟨⟨800, 600⟩, 6, VK_SUCCESS, VK_SUCCESS⟩).calls
      = [Call.waitForFences 0, Call.acquireNextImage 0, Call.resetFences 0] ++
          Call.resetCommandBuffer 0 ::
          [ Call.recordCommandBuffer 0 1 0,
            Call.submitCommands
              ⟨[Semaphore.imageAvailable 0], [1024], [0], [Semaphore.renderFinished 0]⟩ 0,
            Call.present [Semaphore.renderFinished 0] ] ∧
    (0 = 0 ∧
      Call.waitForFences 0
        ∈ [Call.waitForFences 0, Call.acquireNextImage 0, Call.resetFences 0] ∧
      ∀ d : Device,
        Device.runCalls ⟨[true, true, true], []⟩
            [Call.waitForFences 0, Call.acquireNextImage 0, Call.resetFences 0] = some d →
          d.busy 0 = false) :=
  ⟨rfl, rfl,
   fence_before_reuse
     [Event.update, Event.render VK_SUCCESS 2 ⟨⟨800, 600⟩, 6, VK_SUCCESS, VK_SUCCESS⟩,
       Event.update, Event.gpuComplete 0]
     ⟨0, ⟨[true, true, true], []⟩, Phase.atRender, true⟩ VK_SUCCESS 1
     ⟨⟨800, 600⟩, 6, VK_SUCCESS, VK_SUCCESS⟩
     [Call.waitForFences 0, Call.acquireNextImage 0, Call.resetFences 0]
     [ Call.recordCommandBuffer 0 1 0,
       Call.submitCommands
         ⟨[Semaphore.imageAvailable 0], [1024], [0], [Semaphore.renderFinished 0]⟩ 0,
       Call.present [Semaphore.renderFinished 0] ]
     (Call.resetCommandBuffer 0) 0 rfl rfl (Or.inl rfl)⟩

/-- C6 (the code at the failing input). Three iterations of the loop acquire images 0, 1, 2
with `VK_SUCCESS` and the GPU completes nothing. The run reaches a state at the start of the
fourth iteration in which the slot index is 0, fence 0 is unsignaled and the submission of
the first iteration, which contains command buffer 0, is pending. In that state `update`
can be executed; its calls are the camera update, the `memcpy` into uniform buffer 0 and
the event poll, none of them a fence wait; so the `memcpy` writes a buffer the GPU may
still read. The wait on fence 0 is the first call of the `render` that follows, and that
`render` cannot proceed before the GPU has completed the submission. -/
theorem update_writes_uniform_of_pending_slot :
    ∃ w : World,
      World.init.run [Event.update,
          Event.render VK_SUCCESS 0 ⟨⟨800, 600⟩, 6, VK_SUCCESS, VK_SUCCESS⟩, Event.update,
          Event.render VK_SUCCESS 1 ⟨⟨800, 600⟩, 6, VK_SUCCESS, VK_SUCCESS⟩, Event.update,
          Event.render VK_SUCCESS 2 ⟨⟨800, 600⟩, 6, VK_SUCCESS, VK_SUCCESS⟩] = some w ∧
      w.phase = Phase.atUpdate ∧ w.running = true ∧
      w.nextRenderFrame = 0 ∧
      w.device.fences[0]? = some false ∧
      w.device.busy 0 = true ∧
      update w.nextRenderFrame = [Call.cameraUpdate, Call.memcpyUniform 0, Call.pollEvents] ∧
      w.racyWrites = [0] ∧
      (∃ w1 : World, w.step Event.update = some w1 ∧
        w1.step (Event.render VK_SUCCESS 0 ⟨⟨800, 600⟩, 6, VK_SUCCESS, VK_SUCCESS⟩)
          = none ∧
        (∃ w2 : World, w1.step (Event.gpuComplete 0) = some w2 ∧
          (w2.step (Event.render VK_SUCCESS 0
            ⟨⟨800, 600⟩, 6, VK_SUCCESS, VK_SUCCESS⟩)).isSome = true)) ∧
      (render 0 VK_SUCCESS 0 ⟨⟨800, 600⟩, 6, VK_SUCCESS, VK_SUCCESS⟩).calls.head?
        = some (Call.waitForFences 0) :=
  ⟨⟨0, ⟨[false, false, false],
      [⟨⟨[Semaphore.imageAvailable 0], [1024], [0], [Semaphore.renderFinished 0]⟩, 0⟩,
       ⟨⟨[Semaphore.imageAvailable 1], [1024], [1], [Semaphore.renderFinished 1]⟩, 1⟩,
       ⟨⟨[Semaphore.imageAvailable 2], [1024], [2], [Semaphore.renderFinished 2]⟩, 2⟩]⟩,
      Phase.atUpdate, true⟩,
    rfl, rfl, rfl, rfl, rfl, rfl, rfl, rfl,
    ⟨⟨0, ⟨[false, false, false],
      [⟨⟨[Semaphore.imageAvailable 0], [1024], [0], [Semaphore.renderFinished 0]⟩, 0⟩,
       ⟨⟨[Semaphore.imageAvailable 1], [1024], [1], [Semaphore.renderFinished 1]⟩, 1⟩,
       ⟨⟨[Semaphore.imageAvailable 2], [1024], [2], [Semaphore.renderFinished 2]⟩, 2⟩]⟩,
      Phase.atRender, true⟩, rfl, rfl,
     ⟨0, ⟨[true, false, false],
      [⟨⟨[Semaphore.imageAvailable 1], [1024], [1], [Semaphore.renderFinished 1]⟩, 1⟩,
       ⟨⟨[Semaphore.imageAvailable 2], [1024], [2], [Semaphore.renderFinished 2]⟩, 2⟩]⟩,
      Phase.atRender, true⟩, rfl, rfl⟩,
    rfl⟩

/-! ## Theorems: acquire results -/

/-- C12. `Engine::render` stops at the failed assertion `failed to acquire swap chain image!`
if and only if the acquire result is none of `VK_SUCCESS`, `VK_SUBOPTIMAL_KHR` and
`VK_ERROR_OUT_OF_DATE_KHR`. When it does, the assertion is the last entry of the tick, which
holds no fence reset, no command-buffer reset or recording, no submission and no present,
and the slot index is unchanged. The tick ends in a failed assertion exactly in that case or
when the acquire succeeded and the recording failed one of its two assertions; no other
assertion message occurs. -/
theorem render_acquire_failure (nextRenderFrame : Nat) (result : VkResult)
    (imageIndex : Nat) (recordInput : RecordInput) :
    (Call.assertFailed "failed to acquire swap chain image!"
        ∈ (render nextRenderFrame result imageIndex recordInput).calls ↔
      (result ≠ VK_SUCCESS ∧ result ≠ VK_SUBOPTIMAL_KHR ∧
        result ≠ VK_ERROR_OUT_OF_DATE_KHR)) ∧
    ((result ≠ VK_SUCCESS ∧ result ≠ VK_SUBOPTIMAL_KHR ∧
        result ≠ VK_ERROR_OUT_OF_DATE_KHR) →
      (render nextRenderFrame result imageIndex recordInput).aborted = true ∧
      (render nextRenderFrame result imageIndex recordInput).calls
        = [Call.waitForFences nextRenderFrame, Call.acquireNextImage nextRenderFrame,
           Call.assertFailed "failed to acquire swap chain image!"] ∧
      (render nextRenderFrame result imageIndex recordInput).nextRenderFrame
        = nextRenderFrame ∧
      ∀ c ∈ (render nextRenderFrame result imageIndex recordInput).calls,
        (∀ f, c ≠ Call.resetFences f) ∧
        (∀ b, c ≠ Call.resetCommandBuffer b) ∧
        (∀ b i ds, c ≠ Call.recordCommandBuffer b i ds) ∧
        (∀ info f, c ≠ Call.submitCommands info f) ∧
        (∀ sems, c ≠ Call.present sems)) ∧
    ((render nextRenderFrame result imageIndex recordInput).aborted = true ↔
      ((result ≠ VK_SUCCESS ∧ result ≠ VK_SUBOPTIMAL_KHR ∧
          result ≠ VK_ERROR_OUT_OF_DATE_KHR) ∨
        ((result = VK_SUCCESS ∨ result = VK_SUBOPTIMAL_KHR) ∧
          ¬ (recordInput.beginResult = VK_SUCCESS ∧
            recordInput.endResult = VK_SUCCESS)))) ∧
    (∀ msg : String,
      Call.assertFailed msg ∈ (render nextRenderFrame result imageIndex recordInput).calls →
        msg = "failed to acquire swap chain image!" ∨
        msg = "Beginning of command buffer failed" ∨
        msg = "Ending of command buffer failed") := by
  have hne1 : VK_ERROR_OUT_OF_DATE_KHR ≠ VK_SUCCESS := by decide
  have hne2 : VK_ERROR_OUT_OF_DATE_KHR ≠ VK_SUBOPTIMAL_KHR := by decide
  rcases render_cases result recordInput with hood | ⟨hood, hr⟩ | ⟨hr, hrec⟩ | ⟨hr, hb, he⟩
  · subst hood
    rw [render_out_of_date_eq]
    simp [hne1, hne2]
  · rw [render_failed_eq _ _ _ _ hood hr]
    have hyes : result ≠ VK_SUCCESS ∧ result ≠ VK_SUBOPTIMAL_KHR ∧
        result ≠ VK_ERROR_OUT_OF_DATE_KHR :=
      ⟨fun h => hr (Or.inl h), fun h => hr (Or.inr h), hood⟩
    simp [hyes]
  · obtain ⟨msg, hmsg, heq⟩ :=
      render_record_failed nextRenderFrame result imageIndex recordInput hr hrec
    rw [heq]
    have hnot : ¬ (result ≠ VK_SUCCESS ∧ result ≠ VK_SUBOPTIMAL_KHR ∧
        result ≠ VK_ERROR_OUT_OF_DATE_KHR) := by
      rintro ⟨h1, h2, -⟩
      rcases hr with h | h
      · exact h1 h
      · exact h2 h
    have hmsg2 : msg ≠ "failed to acquire swap chain image!" := by
      rcases hmsg with h | h <;> rw [h] <;> decide
    have hmsg3 : "failed to acquire swap chain image!" ≠ msg := fun e => hmsg2 e.symm
    refine ⟨?_, fun h => absurd h hnot, ?_, ?_⟩
    · simp [hnot, hmsg3]
    · simp only [true_iff]
      exact Or.inr ⟨hr, hrec⟩
    · intro m hm
      simp only [List.mem_cons, List.mem_singleton, List.not_mem_nil, or_false,
        Call.assertFailed.injEq, reduceCtorEq, false_or] at hm
      rw [hm]
      exact Or.inr hmsg
  · rw [render_acquired_eq _ _ _ _ hr hb he]
    have hnot : ¬ (result ≠ VK_SUCCESS ∧ result ≠ VK_SUBOPTIMAL_KHR ∧
        result ≠ VK_ERROR_OUT_OF_DATE_KHR) := by
      rintro ⟨h1, h2, -⟩
      rcases hr with h | h
      · exact h1 h
      · exact h2 h
    simp [hnot, hb, he]

/-- C13. For every slot index, every acquired image index and every answer the recording
meets, the tick of `Engine::render` whose acquire result is `VK_SUBOPTIMAL_KHR` is the tick
whose acquire result is `VK_SUCCESS`: the same calls in the same order (when the recording
passes its assertions: wait, acquire, fence reset, command-buffer reset, record, submit,
present), the same next slot index, a failed assertion in the one exactly when in the other
(namely when the recording fails one); and from every state of a run the two ticks lead to
the same state. -/
theorem render_suboptimal_eq_success (nextRenderFrame imageIndex : Nat)
    (recordInput : RecordInput) :
    render nextRenderFrame VK_SUBOPTIMAL_KHR imageIndex recordInput
      = render nextRenderFrame VK_SUCCESS imageIndex recordInput ∧
    (∀ (swapchainExtent : VkExtent2D) (indicesSize : Nat),
      (render nextRenderFrame VK_SUBOPTIMAL_KHR imageIndex
          ⟨swapchainExtent, indicesSize, VK_SUCCESS, VK_SUCCESS⟩).calls
        = [ Call.waitForFences nextRenderFrame,
            Call.acquireNextImage nextRenderFrame,
            Call.resetFences nextRenderFrame,
            Call.resetCommandBuffer nextRenderFrame,
            Call.recordCommandBuffer nextRenderFrame imageIndex nextRenderFrame,
            Call.submitCommands
              { waitSemaphores := [Semaphore.imageAvailable nextRenderFrame]
                waitDstStageMask := [VK_PIPELINE_STAGE_COLOR_ATTACHMENT_OUTPUT_BIT]
                commandBuffers := [nextRenderFrame]
                signalSemaphores := [Semaphore.renderFinished nextRenderFrame] }
              nextRenderFrame,
            Call.present [Semaphore.renderFinished nextRenderFrame] ]) ∧
    (render nextRenderFrame VK_SUBOPTIMAL_KHR imageIndex recordInput).nextRenderFrame
      = (render nextRenderFrame VK_SUCCESS imageIndex recordInput).nextRenderFrame ∧
    ((render nextRenderFrame VK_SUBOPTIMAL_KHR imageIndex recordInput).aborted = false ↔
      (recordInput.beginResult = VK_SUCCESS ∧ recordInput.endResult = VK_SUCCESS)) ∧
    (∀ w : World, w.step (Event.render VK_SUBOPTIMAL_KHR imageIndex recordInput)
      = w.step (Event.render VK_SUCCESS imageIndex recordInput)) := by
  have hstep : ∀ slot : Nat, render slot VK_SUBOPTIMAL_KHR imageIndex recordInput
      = render slot VK_SUCCESS imageIndex recordInput := by
    intro slot
    by_cases hb : recordInput.beginResult = VK_SUCCESS
    · by_cases he : recordInput.endResult = VK_SUCCESS
      · rw [render_acquired_eq _ _ _ _ (Or.inr rfl) hb he,
          render_acquired_eq _ _ _ _ (Or.inl rfl) hb he]
      · rw [render_end_failed_eq _ _ _ _ (Or.inr rfl) hb he,
          render_end_failed_eq _ _ _ _ (Or.inl rfl) hb he]
    · rw [render_begin_failed_eq _ _ _ _ (Or.inr rfl) hb,
        render_begin_failed_eq _ _ _ _ (Or.inl rfl) hb]
  have h := hstep nextRenderFrame
  refine ⟨h, ?_, by rw [h], ?_, ?_⟩
  · intro swapchainExtent indicesSize
    rw [render_acquired_eq _ _ _ _ (Or.inr rfl) rfl rfl]
  · by_cases hrec : recordInput.beginResult = VK_SUCCESS ∧
        recordInput.endResult = VK_SUCCESS
    · rw [render_acquired_eq _ _ _ _ (Or.inr rfl) hrec.1 hrec.2]
      simp [hrec]
    · obtain ⟨msg, -, heq⟩ := render_record_failed nextRenderFrame VK_SUBOPTIMAL_KHR
        imageIndex recordInput (Or.inr rfl) hrec
      rw [heq]
      simp [hrec]
  · intro w
    simp only [World.step, hstep]

/-! ## Theorems: command recording and the uniform upload -/

theorem castFloat_of_lt (n : Nat) (h : n < 2 ^ 24) : castFloat n = n := by
  have hspacing : floatSpacing 8 n = 1 := by
    simp only [floatSpacing, if_pos h]
  simp [castFloat, hspacing, Nat.mod_one]

theorem recordCommandBuffer_begun (nextRenderFrame commandBuffer imageIndex : Nat)
    (swapchainExtent : VkExtent2D) (indicesSize : Nat) (endResult : VkResult) :
    (recordCommandBuffer nextRenderFrame commandBuffer imageIndex swapchainExtent indicesSize
        VK_SUCCESS endResult).commands
      = [ Cmd.beginCommandBuffer 0,
          Cmd.beginRenderPass imageIndex ⟨⟨0, 0⟩, swapchainExtent⟩ 1 VK_SUBPASS_CONTENTS_INLINE,
          Cmd.bindPipeline VK_PIPELINE_BIND_POINT_GRAPHICS,
          Cmd.bindVertexBuffers 0 1 [0],
          Cmd.bindIndexBuffer 0 VK_INDEX_TYPE_UINT16,
          Cmd.setViewport 0 1
            ⟨0, 0, castFloat swapchainExtent.width, castFloat swapchainExtent.height, 0, 1⟩,
          Cmd.setScissor 0 1 ⟨⟨0, 0⟩, swapchainExtent⟩,
          Cmd.bindDescriptorSets VK_PIPELINE_BIND_POINT_GRAPHICS 0 [nextRenderFrame],
          Cmd.drawIndexed (indicesSize % 4294967296) 1 0 0 0,
          Cmd.endRenderPass,
          Cmd.endCommandBuffer ] := by
  simp [recordCommandBuffer, ENGINE_ASSERT]

/-- C18 (the claim as stated fails). Three inputs on which the commands recorded for slot 0
and image 0 are not the claimed sequence. With `indices.size() = 2^32` the draw has index
count 0, not `indices.size()`. With a swapchain extent of width `2^24 + 1` the viewport
width is 16777216, not the width of the extent: the conversion to `float` rounds it. When
`vkBeginCommandBuffer` returns `VK_ERROR_OUT_OF_HOST_MEMORY` the function stops at its first
assertion and the only command is the begin. -/
theorem recordCommandBuffer_not_claimed_sequence :
    ((recordCommandBuffer 0 0 0 ⟨800, 600⟩ 4294967296 VK_SUCCESS VK_SUCCESS).commands
      ≠ [ Cmd.beginCommandBuffer 0,
          Cmd.beginRenderPass 0 ⟨⟨0, 0⟩, ⟨800, 600⟩⟩ 1 VK_SUBPASS_CONTENTS_INLINE,
          Cmd.bindPipeline VK_PIPELINE_BIND_POINT_GRAPHICS,
          Cmd.bindVertexBuffers 0 1 [0],
          Cmd.bindIndexBuffer 0 VK_INDEX_TYPE_UINT16,
          Cmd.setViewport 0 1 ⟨0, 0, 800, 600, 0, 1⟩,
          Cmd.setScissor 0 1 ⟨⟨0, 0⟩, ⟨800, 600⟩⟩,
          Cmd.bindDescriptorSets VK_PIPELINE_BIND_POINT_GRAPHICS 0 [0],
          Cmd.drawIndexed 4294967296 1 0 0 0,
          Cmd.endRenderPass,
          Cmd.endCommandBuffer ] ∧
      Cmd.drawIndexed 0 1 0 0 0
        ∈ (recordCommandBuffer 0 0 0 ⟨800, 600⟩ 4294967296 VK_SUCCESS VK_SUCCESS).commands) ∧
    ((recordCommandBuffer 0 0 0 ⟨16777217, 600⟩ 6 VK_SUCCESS VK_SUCCESS).commands
      ≠ [ Cmd.beginCommandBuffer 0,
          Cmd.beginRenderPass 0 ⟨⟨0, 0⟩, ⟨16777217, 600⟩⟩ 1 VK_SUBPASS_CONTENTS_INLINE,
          Cmd.bindPipeline VK_PIPELINE_BIND_POINT_GRAPHICS,
          Cmd.bindVertexBuffers 0 1 [0],
          Cmd.bindIndexBuffer 0 VK_INDEX_TYPE_UINT16,
          Cmd.setViewport 0 1 ⟨0, 0, 16777217, 600, 0, 1⟩,
          Cmd.setScissor 0 1 ⟨⟨0, 0⟩, ⟨16777217, 600⟩⟩,
          Cmd.bindDescriptorSets VK_PIPELINE_BIND_POINT_GRAPHICS 0 [0],
          Cmd.drawIndexed 6 1 0 0 0,
          Cmd.endRenderPass,
          Cmd.endCommandBuffer ] ∧
      Cmd.setViewport 0 1 ⟨0, 0, 16777216, 600, 0, 1⟩
        ∈ (recordCommandBuffer 0 0 0 ⟨16777217, 600⟩ 6 VK_SUCCESS VK_SUCCESS).commands) ∧
    ((recordCommandBuffer 0 0 0 ⟨800, 600⟩ 6 VK_ERROR_OUT_OF_HOST_MEMORY VK_SUCCESS).commands
      = [Cmd.beginCommandBuffer 0] ∧
      (recordCommandBuffer 0 0 0 ⟨800, 600⟩ 6 VK_ERROR_OUT_OF_HOST_MEMORY VK_SUCCESS).failure
        = some (Call.assertFailed "Beginning of command buffer failed")) := by
  refine ⟨⟨?_, ?_⟩, ⟨?_, ?_⟩, ⟨?_, ?_⟩⟩ <;> decide

/-- C18 (amended). For every slot `s` (the value of `nextRenderFrame`, whose command buffer
is recorded) and every acquired image index `i`, when `vkBeginCommandBuffer` returns
`VK_SUCCESS`, `recordCommandBuffer` issues exactly: begin command buffer; begin render pass
on framebuffer `i` with render area of the swapchain extent at offset (0,0); bind graphics
pipeline; bind vertex buffer; bind index buffer; set viewport (origin (0,0), size the
swapchain extent converted to `float`, which is the extent itself when width and height are
below `2^24` and is rounded above (`2^24 + 1` to `2^24`), depth 0..1); set scissor (offset
(0,0), the swapchain extent); bind descriptor set `s`; one indexed draw of
`indices.size() mod 2^32` indices, which is `indices.size()` when that is below `2^32`; end
render pass; end command buffer. It then fails its last assertion exactly when `vkEndCommandBuffer` does not return `VK_SUCCESS`. When
`vkBeginCommandBuffer` does not return `VK_SUCCESS`, the begin is the only command and the
function stops at its first assertion. -/
theorem recordCommandBuffer_sequence (s i : Nat) (swapchainExtent : VkExtent2D)
    (indicesSize : Nat) (beginResult endResult : VkResult)
    (hbegin : beginResult = VK_SUCCESS) :
    (recordCommandBuffer s s i swapchainExtent indicesSize beginResult endResult).commands
      = [ Cmd.beginCommandBuffer 0,
          Cmd.beginRenderPass i ⟨⟨0, 0⟩, swapchainExtent⟩ 1 VK_SUBPASS_CONTENTS_INLINE,
          Cmd.bindPipeline VK_PIPELINE_BIND_POINT_GRAPHICS,
          Cmd.bindVertexBuffers 0 1 [0],
          Cmd.bindIndexBuffer 0 VK_INDEX_TYPE_UINT16,
          Cmd.setViewport 0 1
            ⟨0, 0, castFloat swapchainExtent.width, castFloat swapchainExtent.height, 0, 1⟩,
          Cmd.setScissor 0 1 ⟨⟨0, 0⟩, swapchainExtent⟩,
          Cmd.bindDescriptorSets VK_PIPELINE_BIND_POINT_GRAPHICS 0 [s],
          Cmd.drawIndexed (indicesSize % 2 ^ 32) 1 0 0 0,
          Cmd.endRenderPass,
          Cmd.endCommandBuffer ] ∧
    (swapchainExtent.width < 2 ^ 24 → castFloat swapchainExtent.width = swapchainExtent.width) ∧
    (swapchainExtent.height < 2 ^ 24 →
      castFloat swapchainExtent.height = swapchainExtent.height) ∧
    (castFloat 16777217 = 16777216 ∧ castFloat 16777219 = 16777220 ∧
      castFloat 4294967295 = 4294967296) ∧
    (indicesSize < 2 ^ 32 → indicesSize % 2 ^ 32 = indicesSize) ∧
    (recordCommandBuffer s s i swapchainExtent indicesSize beginResult endResult).commandBuffer
      = s ∧
    ((recordCommandBuffer s s i swapchainExtent indicesSize beginResult endResult).failure
        = none ↔ endResult = VK_SUCCESS) ∧
    (∀ failed : VkResult, failed ≠ VK_SUCCESS →
      (recordCommandBuffer s s i swapchainExtent indicesSize failed endResult).commands
        = [Cmd.beginCommandBuffer 0] ∧
      (recordCommandBuffer s s i swapchainExtent indicesSize failed endResult).failure
        = some (Call.assertFailed "Beginning of command buffer failed")) := by
  subst hbegin
  refine ⟨?_, castFloat_of_lt _, castFloat_of_lt _, by decide,
    fun h => Nat.mod_eq_of_lt h, ?_, ?_, ?_⟩
  · rw [recordCommandBuffer_begun]
    rfl
  · simp [recordCommandBuffer, ENGINE_ASSERT]
  · by_cases he : endResult = VK_SUCCESS
    · simp [recordCommandBuffer, ENGINE_ASSERT, he]
    · simp [recordCommandBuffer, ENGINE_ASSERT, he]
  · intro failed hfailed
    simp [recordCommandBuffer, ENGINE_ASSERT, hfailed]

/-- Witness for C18 (amended): slot 1, image 2, extent 800 x 600 and six indices. -/
theorem recordCommandBuffer_sequence_witness :
    VK_SUCCESS = VK_SUCCESS ∧
    (recordCommandBuffer 1 1 2 ⟨800, 600⟩ 6 VK_SUCCESS VK_SUCCESS).commands
      = [ Cmd.beginCommandBuffer 0,
          Cmd.beginRenderPass 2 ⟨⟨0, 0⟩, ⟨800, 600⟩⟩ 1 VK_SUBPASS_CONTENTS_INLINE,
          Cmd.bindPipeline VK_PIPELINE_BIND_POINT_GRAPHICS,
          Cmd.bindVertexBuffers 0 1 [0],
          Cmd.bindIndexBuffer 0 VK_INDEX_TYPE_UINT16,
          Cmd.setViewport 0 1 ⟨0, 0, castFloat 800, castFloat 600, 0, 1⟩,
          Cmd.setScissor 0 1 ⟨⟨0, 0⟩, ⟨800, 600⟩⟩,
          Cmd.bindDescriptorSets VK_PIPELINE_BIND_POINT_GRAPHICS 0 [1],
          Cmd.drawIndexed (6 % 2 ^ 32) 1 0 0 0,
          Cmd.endRenderPass,
          Cmd.endCommandBuffer ] ∧
    castFloat 800 = 800 ∧ castFloat 600 = 600 :=
  ⟨rfl, (recordCommandBuffer_sequence 1 2 ⟨800, 600⟩ 6 VK_SUCCESS VK_SUCCESS rfl).1,
   by decide, by decide⟩

theorem mem_render_submit {nextRenderFrame : Nat} {result : VkResult} {imageIndex : Nat}
    {recordInput : RecordInput} {info : VkSubmitInfo} {f : Nat}
    (h : Call.submitCommands info f
      ∈ (render nextRenderFrame result imageIndex recordInput).calls) :
    (result = VK_SUCCESS ∨ result = VK_SUBOPTIMAL_KHR) ∧
    (recordInput.beginResult = VK_SUCCESS ∧ recordInput.endResult = VK_SUCCESS) ∧
    info = { waitSemaphores := [Semaphore.imageAvailable nextRenderFrame]
             waitDstStageMask := [VK_PIPELINE_STAGE_COLOR_ATTACHMENT_OUTPUT_BIT]
             commandBuffers := [nextRenderFrame]
             signalSemaphores := [Semaphore.renderFinished nextRenderFrame] } ∧
    f = nextRenderFrame := by
  rcases render_cases result recordInput with hood | ⟨hood, hr⟩ | ⟨hr, hrec⟩ | ⟨hr, hb, he⟩
  · subst hood
    rw [render_out_of_date_eq] at h
    simp at h
  · rw [render_failed_eq _ _ _ _ hood hr] at h
    simp at h
  · obtain ⟨msg, -, heq⟩ :=
      render_record_failed nextRenderFrame result imageIndex recordInput hr hrec
    rw [heq] at h
    simp at h
  · rw [render_acquired_eq _ _ _ _ hr hb he] at h
    simp only [List.mem_cons, List.mem_singleton, List.not_mem_nil, or_false,
      Call.submitCommands.injEq, reduceCtorEq, false_or] at h
    exact ⟨hr, ⟨hb, he⟩, h.1, h.2⟩

/-- C11. In every state reached by a run, an iteration of the loop (`update` followed by
`render`) whose `render` makes a queue submission has this shape: `update` writes the
uniform buffer of the current slot `s` and no other; the submission comes later in the
iteration than that `memcpy`; it submits exactly command buffer `s`; between the two the
command buffer `s` is recorded with descriptor set `s`, the only descriptor set
`recordCommandBuffer` binds; and `initDescriptorSets` has written uniform buffer `s`, and no
other uniform buffer, into binding 0 of descriptor set `s`. -/
theorem uniform_upload_targets_submitted_slot (evs : List Event) (w : World)
    (result : VkResult) (imageIndex : Nat) (recordInput : RecordInput)
    (info : VkSubmitInfo) (f : Nat)
    (hreach : World.init.run evs = some w)
    (hsub : Call.submitCommands info f
      ∈ (render w.nextRenderFrame result imageIndex recordInput).calls) :
    (∃ pre mid post : List Call,
      update w.nextRenderFrame
          ++ (render w.nextRenderFrame result imageIndex recordInput).calls
        = pre ++ Call.memcpyUniform w.nextRenderFrame ::
            (mid ++ Call.submitCommands info f :: post) ∧
      Call.recordCommandBuffer w.nextRenderFrame imageIndex w.nextRenderFrame ∈ mid) ∧
    (∀ k : Nat, Call.memcpyUniform k
        ∈ update w.nextRenderFrame
          ++ (render w.nextRenderFrame result imageIndex recordInput).calls →
      k = w.nextRenderFrame) ∧
    info.commandBuffers = [w.nextRenderFrame] ∧
    (∀ (ext : VkExtent2D) (n : Nat) (endResult : VkResult)
        (bindPoint firstSet : Nat) (sets : List Nat),
      Cmd.bindDescriptorSets bindPoint firstSet sets
          ∈ (recordCommandBuffer w.nextRenderFrame w.nextRenderFrame imageIndex ext n
              VK_SUCCESS endResult).commands ↔
        (bindPoint = VK_PIPELINE_BIND_POINT_GRAPHICS ∧ firstSet = 0 ∧
          sets = [w.nextRenderFrame])) ∧
    (∃ writes ∈ (initDescriptorSets VK_SUCCESS).updates,
      ({ dstSet := w.nextRenderFrame, dstBinding := 0, dstArrayElement := 0,
         descriptorType := VK_DESCRIPTOR_TYPE_UNIFORM_BUFFER, descriptorCount := 1,
         info := DescriptorInfo.buffer w.nextRenderFrame 0 VK_WHOLE_SIZE }
        : VkWriteDescriptorSet) ∈ writes) ∧
    (∀ writes ∈ (initDescriptorSets VK_SUCCESS).updates, ∀ wr ∈ writes,
      wr.dstSet = w.nextRenderFrame →
        ∀ b off rng, wr.info = DescriptorInfo.buffer b off rng → b = w.nextRenderFrame) := by
  have hinv : w.Inv := World.Inv.init.run evs hreach
  obtain ⟨hr, ⟨hb, he⟩, hinfo, hf⟩ := mem_render_submit hsub
  subst hinfo
  subst hf
  have hupd : (initDescriptorSets VK_SUCCESS).updates
      = (List.range s_MaxFramesInFlight).map initDescriptorSetsBody := by
    simp [initDescriptorSets, ENGINE_ASSERT]
  refine ⟨?_, ?_, rfl, ?_, ?_, ?_⟩
  · refine ⟨[Call.cameraUpdate],
      [Call.pollEvents, Call.waitForFences w.nextRenderFrame,
        Call.acquireNextImage w.nextRenderFrame, Call.resetFences w.nextRenderFrame,
        Call.resetCommandBuffer w.nextRenderFrame,
        Call.recordCommandBuffer w.nextRenderFrame imageIndex w.nextRenderFrame],
      [Call.present [Semaphore.renderFinished w.nextRenderFrame]], ?_, by simp⟩
    rw [render_acquired_eq _ _ _ _ hr hb he]
    rfl
  · intro k hk
    rw [render_acquired_eq _ _ _ _ hr hb he] at hk
    simp only [update, updateUniformBuffer, List.mem_append, List.mem_cons,
      List.mem_singleton, List.not_mem_nil, or_false, Call.memcpyUniform.injEq,
      reduceCtorEq, false_or, or_self] at hk
    exact hk
  · intro ext n endResult bindPoint firstSet sets
    rw [recordCommandBuffer_begun]
    simp
  · refine ⟨initDescriptorSetsBody w.nextRenderFrame, ?_, ?_⟩
    · rw [hupd]
      exact List.mem_map.mpr ⟨w.nextRenderFrame, List.mem_range.mpr hinv.slot_lt, rfl⟩
    · simp [initDescriptorSetsBody]
  · intro writes hwrites wr hwr hset b off rng hb
    rw [hupd] at hwrites
    obtain ⟨j, -, hj⟩ := List.mem_map.mp hwrites
    subst hj
    simp only [initDescriptorSetsBody, List.mem_cons, List.mem_singleton,
      List.not_mem_nil, or_false] at hwr
    rcases hwr with h | h
    · subst h
      simp only [DescriptorInfo.buffer.injEq] at hb
      simp only at hset
      rw [← hb.1, hset]
    · subst h
      cases hb

/-- Witness for C11: the first iteration of a run, acquiring image 1 with `VK_SUCCESS`. -/
theorem uniform_upload_targets_submitted_slot_witness :
    World.init.run [] = some World.init ∧
    Call.submitCommands
        ⟨[Semaphore.imageAvailable 0], [1024], [0], [Semaphore.renderFinished 0]⟩ 0
      ∈ (render World.init.nextRenderFrame VK_SUCCESS 1
          ⟨⟨800, 600⟩, 6, VK_SUCCESS, VK_SUCCESS⟩).calls ∧
    (∃ pre mid post : List Call,
      update World.init.nextRenderFrame
          ++ (render World.init.nextRenderFrame VK_SUCCESS 1
              ⟨⟨800, 600⟩, 6, VK_SUCCESS, VK_SUCCESS⟩).calls
        = pre ++ Call.memcpyUniform World.init.nextRenderFrame ::
            (mid ++ Call.submitCommands
              ⟨[Semaphore.imageAvailable 0], [1024], [0], [Semaphore.renderFinished 0]⟩ 0
              :: post) ∧
      Call.recordCommandBuffer World.init.nextRenderFrame 1 World.init.nextRenderFrame
        ∈ mid) :=
  ⟨rfl, by decide,
   (uniform_upload_targets_submitted_slot [] World.init VK_SUCCESS 1
      ⟨⟨800, 600⟩, 6, VK_SUCCESS, VK_SUCCESS⟩
      ⟨[Semaphore.imageAvailable 0], [1024], [0], [Semaphore.renderFinished 0]⟩ 0
      rfl (by decide)).1⟩

/-! ## Theorems: zero formats or present modes -/

/-- C16 (the claim as stated fails). On the empty list `chooseSwapSurfaceFormat` does not end
in a fatal error, whatever its message: it ends in the access `availableFormats[0]` outside
the vector. -/
theorem chooseSwapSurfaceFormat_empty_not_fatal :
    (∀ failure : Call, chooseSwapSurfaceFormatOutcome [] ≠ CallOutcome.fatal failure) ∧
    chooseSwapSurfaceFormatOutcome [] = CallOutcome.undefinedAccess := by
  constructor
  · intro failure h
    simp [chooseSwapSurfaceFormatOutcome, chooseSwapSurfaceFormatLoop] at h
  · rfl

/-- C16 (amended). `chooseSwapSurfaceFormat` has no fatal-error path: on no list does it end
in a failed assertion. On the empty list it returns no format: its loop returns nothing and
it reaches the access `availableFormats[0]` outside the vector; that is the only list on
which it does so. Zero formats is rejected before, at device selection: a device whose
surface query reports no format is not suitable. -/
theorem chooseSwapSurfaceFormat_empty (availableFormats : List VkSurfaceFormatKHR) :
    (∀ failure : Call,
      chooseSwapSurfaceFormatOutcome availableFormats ≠ CallOutcome.fatal failure) ∧
    chooseSwapSurfaceFormatOutcome [] = CallOutcome.undefinedAccess ∧
    chooseSwapSurfaceFormat [] = none ∧
    (chooseSwapSurfaceFormatOutcome availableFormats = CallOutcome.undefinedAccess ↔
      availableFormats = []) ∧
    (∀ (m_DeviceExtensions : List String) (device : PhysicalDeviceReport),
      device.formats = [] → isDeviceSuitable m_DeviceExtensions device = false) := by
  refine ⟨?_, rfl, rfl, ?_, ?_⟩
  · intro failure h
    unfold chooseSwapSurfaceFormatOutcome at h
    split at h
    · cases h
    · split at h <;> cases h
  · constructor
    · intro h
      cases availableFormats with
      | nil => rfl
      | cons f rest =>
        unfold chooseSwapSurfaceFormatOutcome at h
        split at h
        · cases h
        · simp at h
    · intro h
      subst h
      rfl
  · intro ext device hf
    by_cases hext : checkDeviceExtensionSupport ext device = true
    · simp [isDeviceSuitable, querySwapChainSupport, hf, hext]
    · simp [isDeviceSuitable, hext]

theorem isDeviceSuitable_false_of_empty (m_DeviceExtensions : List String)
    (device : PhysicalDeviceReport)
    (h : device.formats = [] ∨ device.presentModes = []) :
    isDeviceSuitable m_DeviceExtensions device = false := by
  by_cases hext : checkDeviceExtensionSupport m_DeviceExtensions device = true
  · rcases h with h | h
    · simp [isDeviceSuitable, querySwapChainSupport, h, hext]
    · simp [isDeviceSuitable, querySwapChainSupport, h, hext]
  · simp [isDeviceSuitable, hext]

theorem initializeLoop_none (m_DeviceExtensions : List String)
    (devices : List PhysicalDeviceReport) (deviceCount : Nat)
    (h : ∀ d ∈ devices, isDeviceSuitable m_DeviceExtensions d = false) :
    initializeLoop m_DeviceExtensions none deviceCount devices = none := by
  induction devices generalizing deviceCount with
  | nil => rfl
  | cons d rest ih =>
    have hd : isDeviceSuitable m_DeviceExtensions d = false := h d (List.mem_cons_self _ _)
    unfold initializeLoop
    simp only [hd, Bool.false_eq_true, and_false, if_false]
    exact ih (deviceCount + 1) (fun x hx => h x (List.mem_cons_of_mem _ hx))

/-- C17 (the claim as stated fails). On the empty device list, in which every device
trivially reports zero formats, `PhysicalDevice::initialize` stops at its first assertion,
`Failed to find GPUs with Vulkan support`, and not at `Failed to find suitable GPU`. -/
theorem initialize_empty_list :
    (∀ d ∈ ([] : List PhysicalDeviceReport), d.formats = [] ∨ d.presentModes = []) ∧
    (initializePhysicalDevice ["VK_KHR_swapchain"] none []).failure
      = some (Call.assertFailed "Failed to find GPUs with Vulkan support") ∧
    (initializePhysicalDevice ["VK_KHR_swapchain"] none []).failure
      ≠ some (Call.assertFailed "Failed to find suitable GPU") := by
  refine ⟨?_, ?_, ?_⟩
  · intro d hd
    cases hd
  · rfl
  · decide

/-- C17 (amended). For every non-empty enumerated device list in which each device's
surface query reports zero formats or zero present modes, and every list of required
extensions, `isDeviceSuitable` is false for every device, and `PhysicalDevice::initialize`,
started with `m_PhysicalDevice = VK_NULL_HANDLE`, selects no device and stops at the failed
assertion `Failed to find suitable GPU`. On the empty device list it stops before, at the
failed assertion `Failed to find GPUs with Vulkan support`. -/
theorem initialize_no_surface_support (m_DeviceExtensions : List String)
    (devices : List PhysicalDeviceReport) (hne : devices ≠ [])
    (h : ∀ d ∈ devices, d.formats = [] ∨ d.presentModes = []) :
    (∀ d ∈ devices, isDeviceSuitable m_DeviceExtensions d = false) ∧
    initializePhysicalDevice m_DeviceExtensions none devices
      = { m_PhysicalDevice := none
          failure := some (Call.assertFailed "Failed to find suitable GPU") } ∧
    initializePhysicalDevice m_DeviceExtensions none []
      = { m_PhysicalDevice := none
          failure := some (Call.assertFailed "Failed to find GPUs with Vulkan support") } := by
  have hall : ∀ d ∈ devices, isDeviceSuitable m_DeviceExtensions d = false :=
    fun d hd => isDeviceSuitable_false_of_empty m_DeviceExtensions d (h d hd)
  refine ⟨hall, ?_, rfl⟩
  have hlen : devices.length ≠ 0 := fun h0 => hne (List.length_eq_zero.mp h0)
  simp [initializePhysicalDevice, ENGINE_ASSERT, hlen,
    initializeLoop_none m_DeviceExtensions devices 0 hall]

/-- Witness for C17 (amended): two discrete GPUs that support the required extension, one
reporting no format, the other no present mode. -/
theorem initialize_no_surface_support_witness :
    ([⟨2, true, ["VK_KHR_swapchain"], [], [VK_PRESENT_MODE_FIFO_KHR]⟩,
      ⟨2, true, ["VK_KHR_swapchain"], [⟨50, 0⟩], []⟩] : List PhysicalDeviceReport) ≠ [] ∧
    (∀ d ∈ ([⟨2, true, ["VK_KHR_swapchain"], [], [VK_PRESENT_MODE_FIFO_KHR]⟩,
        ⟨2, true, ["VK_KHR_swapchain"], [⟨50, 0⟩], []⟩] : List PhysicalDeviceReport),
      d.formats = [] ∨ d.presentModes = []) ∧
    initializePhysicalDevice ["VK_KHR_swapchain"] none
        [⟨2, true, ["VK_KHR_swapchain"], [], [VK_PRESENT_MODE_FIFO_KHR]⟩,
         ⟨2, true, ["VK_KHR_swapchain"], [⟨50, 0⟩], []⟩]
      = { m_PhysicalDevice := none
          failure := some (Call.assertFailed "Failed to find suitable GPU") } :=
  ⟨by simp, by simp,
   (initialize_no_surface_support ["VK_KHR_swapchain"]
      [⟨2, true, ["VK_KHR_swapchain"], [], [VK_PRESENT_MODE_FIFO_KHR]⟩,
       ⟨2, true, ["VK_KHR_swapchain"], [⟨50, 0⟩], []⟩]
      (by simp) (by simp)).2.1⟩

/-! ## Theorems: `Engine::run` -/

/-- Two input lists that differ at most in the minimize flags give the same loop. -/
theorem runLoop_ignores_minimized (nextRenderFrame : Nat) (as bs : List LoopInput)
    (h : List.Forall₂
      (fun a b => a.shouldClose = b.shouldClose ∧ a.result = b.result ∧
        a.imageIndex = b.imageIndex ∧ a.recordInput = b.recordInput) as bs) :
    runLoop nextRenderFrame as = runLoop nextRenderFrame bs := by
  induction h generalizing nextRenderFrame with
  | nil => rfl
  | cons hab _ ih =>
    obtain ⟨h1, h2, h3, h4⟩ := hab
    simp only [runLoop, tickOps, h1, h2, h3, h4, ih]

/-- C15 (the claim as stated fails). A pass through the loop during which the window's
minimize flag is set, and whose acquire returns `VK_SUCCESS`, performs the image acquire,
the queue submission and the present; the run that consists of this pass and a close
request contains all three. -/
theorem minimized_tick_still_renders :
    (⟨false, true, VK_SUCCESS, 0, ⟨⟨800, 600⟩, 6, VK_SUCCESS, VK_SUCCESS⟩⟩
      : LoopInput).minimized = true ∧
    RunOp.frame (Call.acquireNextImage 0)
      ∈ tickOps 0 ⟨false, true, VK_SUCCESS, 0, ⟨⟨800, 600⟩, 6, VK_SUCCESS, VK_SUCCESS⟩⟩ ∧
    RunOp.frame (Call.submitCommands
        ⟨[Semaphore.imageAvailable 0], [1024], [0], [Semaphore.renderFinished 0]⟩ 0)
      ∈ tickOps 0 ⟨false, true, VK_SUCCESS, 0, ⟨⟨800, 600⟩, 6, VK_SUCCESS, VK_SUCCESS⟩⟩ ∧
    RunOp.frame (Call.present [Semaphore.renderFinished 0])
      ∈ tickOps 0 ⟨false, true, VK_SUCCESS, 0, ⟨⟨800, 600⟩, 6, VK_SUCCESS, VK_SUCCESS⟩⟩ ∧
    RunOp.frame (Call.acquireNextImage 0)
      ∈ (run [⟨false, true, VK_SUCCESS, 0, ⟨⟨800, 600⟩, 6, VK_SUCCESS, VK_SUCCESS⟩⟩,
              ⟨true, true, VK_SUCCESS, 0, ⟨⟨800, 600⟩, 6, VK_SUCCESS, VK_SUCCESS⟩⟩]).1 ∧
    RunOp.frame (Call.submitCommands
        ⟨[Semaphore.imageAvailable 0], [1024], [0], [Semaphore.renderFinished 0]⟩ 0)
      ∈ (run [⟨false, true, VK_SUCCESS, 0, ⟨⟨800, 600⟩, 6, VK_SUCCESS, VK_SUCCESS⟩⟩,
              ⟨true, true, VK_SUCCESS, 0, ⟨⟨800, 600⟩, 6, VK_SUCCESS, VK_SUCCESS⟩⟩]).1 ∧
    RunOp.frame (Call.present [Semaphore.renderFinished 0])
      ∈ (run [⟨false, true, VK_SUCCESS, 0, ⟨⟨800, 600⟩, 6, VK_SUCCESS, VK_SUCCESS⟩⟩,
              ⟨true, true, VK_SUCCESS, 0, ⟨⟨800, 600⟩, 6, VK_SUCCESS, VK_SUCCESS⟩⟩]).1 := by
  refine ⟨rfl, ?_, ?_, ?_, ?_, ?_, ?_⟩ <;> decide

/-- C15 (amended). The scheduler never reads the window's minimize flag: two runs whose
inputs differ at most in the minimize flags make the same steps and end the same way, and
the steps of a pass through the loop are the same whether the flag is set or not. Every pass
performs the image acquire on the current slot; it performs a queue submission exactly when
the acquire result is `VK_SUCCESS` or `VK_SUBOPTIMAL_KHR` and the recording passes both of
its assertions, and a present exactly then; so a pass whose acquire reports the surface out
of date performs neither. -/
theorem tick_ignores_minimize_flag (nextRenderFrame : Nat) (input : LoopInput) :
    (∀ as bs : List LoopInput,
      List.Forall₂
        (fun a b => a.shouldClose = b.shouldClose ∧ a.result = b.result ∧
          a.imageIndex = b.imageIndex ∧ a.recordInput = b.recordInput) as bs →
      run as = run bs) ∧
    (∀ flag : Bool,
      tickOps nextRenderFrame { input with minimized := flag }
        = tickOps nextRenderFrame input) ∧
    RunOp.frame (Call.acquireNextImage nextRenderFrame) ∈ tickOps nextRenderFrame input ∧
    ((∃ info f, RunOp.frame (Call.submitCommands info f) ∈ tickOps nextRenderFrame input) ↔
      ((input.result = VK_SUCCESS ∨ input.result = VK_SUBOPTIMAL_KHR) ∧
        input.recordInput.beginResult = VK_SUCCESS ∧
        input.recordInput.endResult = VK_SUCCESS)) ∧
    ((∃ sems, RunOp.frame (Call.present sems) ∈ tickOps nextRenderFrame input) ↔
      ((input.result = VK_SUCCESS ∨ input.result = VK_SUBOPTIMAL_KHR) ∧
        input.recordInput.beginResult = VK_SUCCESS ∧
        input.recordInput.endResult = VK_SUCCESS)) ∧
    (input.result = VK_ERROR_OUT_OF_DATE_KHR →
      (∀ info f, RunOp.frame (Call.submitCommands info f) ∉ tickOps nextRenderFrame input) ∧
      (∀ sems, RunOp.frame (Call.present sems) ∉ tickOps nextRenderFrame input)) := by
  have hood_no : input.result = VK_ERROR_OUT_OF_DATE_KHR →
      ¬ (input.result = VK_SUCCESS ∨ input.result = VK_SUBOPTIMAL_KHR) := by
    intro h
    rw [h]
    decide
  have hsubmit : (∃ info f,
        RunOp.frame (Call.submitCommands info f) ∈ tickOps nextRenderFrame input) ↔
      ((input.result = VK_SUCCESS ∨ input.result = VK_SUBOPTIMAL_KHR) ∧
        input.recordInput.beginResult = VK_SUCCESS ∧
        input.recordInput.endResult = VK_SUCCESS) := by
    rcases render_cases input.result input.recordInput with
      hood | ⟨hood, hr⟩ | ⟨hr, hrec⟩ | ⟨hr, hb, he⟩
    · have hno := hood_no hood
      constructor
      · rintro ⟨info, f, hmem⟩
        simp [tickOps, hood, render_out_of_date_eq, update, updateUniformBuffer] at hmem
      · rintro ⟨hr, -⟩
        exact absurd hr hno
    · simp [tickOps, render_failed_eq _ _ _ _ hood hr, update, updateUniformBuffer, hr]
    · obtain ⟨msg, -, heq⟩ := render_record_failed nextRenderFrame input.result
        input.imageIndex input.recordInput hr hrec
      simp only [tickOps, heq, update, updateUniformBuffer]
      constructor
      · rintro ⟨info, f, hmem⟩
        simp at hmem
      · rintro ⟨-, hb, he⟩
        exact absurd ⟨hb, he⟩ hrec
    · simp only [tickOps, render_acquired_eq _ _ _ _ hr hb he, update, updateUniformBuffer]
      constructor
      · intro _
        exact ⟨hr, hb, he⟩
      · intro _
        exact ⟨{ waitSemaphores := [Semaphore.imageAvailable nextRenderFrame]
                 waitDstStageMask := [VK_PIPELINE_STAGE_COLOR_ATTACHMENT_OUTPUT_BIT]
                 commandBuffers := [nextRenderFrame]
                 signalSemaphores := [Semaphore.renderFinished nextRenderFrame] },
          nextRenderFrame, by simp⟩
  have hpresent : (∃ sems,
        RunOp.frame (Call.present sems) ∈ tickOps nextRenderFrame input) ↔
      ((input.result = VK_SUCCESS ∨ input.result = VK_SUBOPTIMAL_KHR) ∧
        input.recordInput.beginResult = VK_SUCCESS ∧
        input.recordInput.endResult = VK_SUCCESS) := by
    rcases render_cases input.result input.recordInput with
      hood | ⟨hood, hr⟩ | ⟨hr, hrec⟩ | ⟨hr, hb, he⟩
    · have hno := hood_no hood
      constructor
      · rintro ⟨sems, hmem⟩
        simp [tickOps, hood, render_out_of_date_eq, update, updateUniformBuffer] at hmem
      · rintro ⟨hr, -⟩
        exact absurd hr hno
    · simp [tickOps, render_failed_eq _ _ _ _ hood hr, update, updateUniformBuffer, hr]
    · obtain ⟨msg, -, heq⟩ := render_record_failed nextRenderFrame input.result
        input.imageIndex input.recordInput hr hrec
      simp only [tickOps, heq, update, updateUniformBuffer]
      constructor
      · rintro ⟨sems, hmem⟩
        simp at hmem
      · rintro ⟨-, hb, he⟩
        exact absurd ⟨hb, he⟩ hrec
    · simp only [tickOps, render_acquired_eq _ _ _ _ hr hb he, update, updateUniformBuffer]
      constructor
      · intro _
        exact ⟨hr, hb, he⟩
      · intro _
        exact ⟨[Semaphore.renderFinished nextRenderFrame], by simp⟩
  refine ⟨?_, fun flag => rfl, ?_, hsubmit, hpresent, ?_⟩
  · intro as bs h
    simp only [run, runLoop_ignores_minimized 0 as bs h]
  · rcases render_cases input.result input.recordInput with
      hood | ⟨hood, hr⟩ | ⟨hr, hrec⟩ | ⟨hr, hb, he⟩
    · simp [tickOps, hood, render_out_of_date_eq]
    · simp [tickOps, render_failed_eq _ _ _ _ hood hr]
    · obtain ⟨msg, -, heq⟩ := render_record_failed nextRenderFrame input.result
        input.imageIndex input.recordInput hr hrec
      simp [tickOps, heq]
    · simp [tickOps, render_acquired_eq _ _ _ _ hr hb he]
  · intro hood
    have hno := hood_no hood
    constructor
    · intro info f hmem
      exact hno (hsubmit.mp ⟨info, f, hmem⟩).1
    · intro sems hmem
      exact hno (hpresent.mp ⟨sems, hmem⟩).1

/-! ## Theorems: transient uploads -/

theorem mem_foldl_erase {l : List String} (hl : l.Nodup) (available : List String)
    (x : String) :
    x ∈ available.foldl (fun required extension => required.erase extension) l ↔
      x ∈ l ∧ x ∉ available := by
  induction available generalizing l with
  | nil => simp
  | cons a rest ih =>
    simp only [List.foldl_cons]
    rw [ih (hl.erase a), hl.mem_erase_iff]
    simp only [List.mem_cons, not_or]
    constructor
    · rintro ⟨⟨h1, h2⟩, h3⟩
      exact ⟨h2, h1, h3⟩
    · rintro ⟨h2, h1, h3⟩
      exact ⟨⟨h1, h2⟩, h3⟩

/-- C28. For every list of required extension names and every device report,
`checkDeviceExtensionSupport` is true if and only if every required name is the name of at
least one reported extension. Duplicates and order therefore do not matter, and the result
is true when no extension is required. -/
theorem checkDeviceExtensionSupport_iff (m_DeviceExtensions : List String)
    (device : PhysicalDeviceReport) :
    (checkDeviceExtensionSupport m_DeviceExtensions device = true ↔
      ∀ name ∈ m_DeviceExtensions, name ∈ device.availableExtensions) ∧
    checkDeviceExtensionSupport [] device = true := by
  have key : ∀ required : List String,
      (checkDeviceExtensionSupport required device = true ↔
        ∀ name ∈ required, name ∈ device.availableExtensions) := by
    intro required
    simp only [checkDeviceExtensionSupport, List.isEmpty_iff]
    rw [List.eq_nil_iff_forall_not_mem]
    constructor
    · intro h name hname
      by_contra hnot
      exact h name ((mem_foldl_erase (List.nodup_dedup required) _ name).mpr
        ⟨List.mem_dedup.mpr hname, hnot⟩)
    · intro h name hmem
      obtain ⟨h1, h2⟩ := (mem_foldl_erase (List.nodup_dedup required) _ name).mp hmem
      exact h2 (h name (List.mem_dedup.mp h1))
  refine ⟨key m_DeviceExtensions, ?_⟩
  rw [key]
  intro name hname
  cases hname

/-- C24 (the claim as stated fails). On a candidate list that holds at least one candidate
`findSupportedFormat` never reaches the end of its loop: whatever the device reports, it
does not fall through. When the first candidate does not support the requested features
under the requested tiling, as when no candidate does, it stops at the failed assertion `No
suitable formats was found`; on the two candidates 124 and 126, of which none supports
feature mask 512 under optimal tiling, it raises that error. -/
theorem findSupportedFormat_no_match_raises :
    (∀ (getFormatProperties : VkFormat → VkFormatProperties) (first : VkFormat)
        (later : List VkFormat) (tiling features : Nat),
      findSupportedFormat getFormatProperties (first :: later) tiling features
        ≠ FormatSearch.fellThrough) ∧
    (∀ format ∈ ([124, 126] : List VkFormat),
      ¬ (VK_IMAGE_TILING_OPTIMAL = VK_IMAGE_TILING_LINEAR ∧
          ((fun _ => ⟨0, 0, 0⟩ : VkFormat → VkFormatProperties) format).linearTilingFeatures
            &&& 512 = 512) ∧
      ¬ (VK_IMAGE_TILING_OPTIMAL = VK_IMAGE_TILING_OPTIMAL ∧
          ((fun _ => ⟨0, 0, 0⟩ : VkFormat → VkFormatProperties) format).optimalTilingFeatures
            &&& 512 = 512)) ∧
    findSupportedFormat (fun _ => ⟨0, 0, 0⟩) [124, 126] VK_IMAGE_TILING_OPTIMAL 512
      = FormatSearch.fatal (Call.assertFailed "No suitable formats was found") := by
  refine ⟨?_, by decide, by decide⟩
  intro getFormatProperties first later tiling features h
  simp only [findSupportedFormat, ENGINE_ASSERT] at h
  split at h
  · cases h
  · split at h
    · cases h
    · simp at h

/-- C24 (amended). `findSupportedFormat` has a fall-through path, and it is reached exactly
on the empty candidate list: there the loop body never runs and the function reaches its end
without returning a format and without its error, for every tiling, feature mask and device.
On a list with at least one candidate in which no candidate supports the requested features
under the requested tiling, the function does not fall through: it stops in the first pass
through the loop at the failed assertion `No suitable formats was found`. -/
theorem findSupportedFormat_falls_through
    (getFormatProperties : VkFormat → VkFormatProperties) (tiling features : Nat) :
    findSupportedFormat getFormatProperties [] tiling features = FormatSearch.fellThrough ∧
    (∀ format, findSupportedFormat getFormatProperties [] tiling features
      ≠ FormatSearch.returned format) ∧
    (∀ failure, findSupportedFormat getFormatProperties [] tiling features
      ≠ FormatSearch.fatal failure) ∧
    (∀ candidates : List VkFormat,
      findSupportedFormat getFormatProperties candidates tiling features
        = FormatSearch.fellThrough ↔ candidates = []) ∧
    (∀ (first : VkFormat) (later : List VkFormat),
      (∀ format ∈ first :: later,
        ¬ (tiling = VK_IMAGE_TILING_LINEAR ∧
            (getFormatProperties format).linearTilingFeatures &&& features = features) ∧
        ¬ (tiling = VK_IMAGE_TILING_OPTIMAL ∧
            (getFormatProperties format).optimalTilingFeatures &&& features = features)) →
      findSupportedFormat getFormatProperties (first :: later) tiling features
        = FormatSearch.fatal (Call.assertFailed "No suitable formats was found")) := by
  refine ⟨rfl, ?_, ?_, ?_, ?_⟩
  · intro format h
    cases h
  · intro failure h
    cases h
  · intro candidates
    constructor
    · intro h
      cases candidates with
      | nil => rfl
      | cons format rest =>
        simp only [findSupportedFormat, ENGINE_ASSERT] at h
        split at h
        · cases h
        · split at h
          · cases h
          · simp at h
    · intro h
      subst h
      rfl
  · intro first later hnone
    obtain ⟨h1, h2⟩ := hnone first (List.mem_cons_self _ _)
    simp [findSupportedFormat, ENGINE_ASSERT, h1, h2]

/-- C27. On every non-empty candidate list `findSupportedFormat` ends as it does on the list
that holds the first candidate alone. It returns `candidates[0]` when the tiling is linear
and the linear features of that format include the mask, or the tiling is optimal and its
optimal features include the mask; otherwise it stops at the failed assertion `No suitable
formats was found`. This is so even when a later candidate satisfies the request: with a
first candidate without features and a second one that has them, the assertion fails. -/
theorem findSupportedFormat_first_only
    (getFormatProperties : VkFormat → VkFormatProperties) (first : VkFormat)
    (later : List VkFormat) (tiling features : Nat) :
    findSupportedFormat getFormatProperties (first :: later) tiling features
      = findSupportedFormat getFormatProperties [first] tiling features ∧
    findSupportedFormat getFormatProperties (first :: later) tiling features
      = (if (tiling = VK_IMAGE_TILING_LINEAR ∧
              (getFormatProperties first).linearTilingFeatures &&& features = features) ∨
            (tiling = VK_IMAGE_TILING_OPTIMAL ∧
              (getFormatProperties first).optimalTilingFeatures &&& features = features)
         then FormatSearch.returned first
         else FormatSearch.fatal (Call.assertFailed "No suitable formats was found")) ∧
    findSupportedFormat
        (fun format => if format = 126 then ⟨0, 512, 0⟩ else ⟨0, 0, 0⟩)
        [124, 126] VK_IMAGE_TILING_OPTIMAL 512
      = FormatSearch.fatal (Call.assertFailed "No suitable formats was found") ∧
    findSupportedFormat
        (fun format => if format = 126 then ⟨0, 512, 0⟩ else ⟨0, 0, 0⟩)
        [126] VK_IMAGE_TILING_OPTIMAL 512
      = FormatSearch.returned 126 := by
  refine ⟨rfl, ?_, by decide, by decide⟩
  simp only [findSupportedFormat, ENGINE_ASSERT]
  by_cases h1 : tiling = VK_IMAGE_TILING_LINEAR ∧
      (getFormatProperties first).linearTilingFeatures &&& features = features
  · simp [h1]
  · by_cases h2 : tiling = VK_IMAGE_TILING_OPTIMAL ∧
        (getFormatProperties first).optimalTilingFeatures &&& features = features
    · simp [h1, h2]
    · simp [h1, h2]

/-! ## Theorems: slot sequences -/

theorem render_nextRenderFrame_of_not_producing (nextRenderFrame : Nat) (t : RenderInput)
    (h : isProducing t = false) :
    (render nextRenderFrame t.result t.imageIndex t.recordInput).nextRenderFrame
      = nextRenderFrame := by
  have hnot : ¬ ((t.result = VK_SUCCESS ∨ t.result = VK_SUBOPTIMAL_KHR) ∧
      t.recordInput.beginResult = VK_SUCCESS ∧ t.recordInput.endResult = VK_SUCCESS) := by
    simpa [isProducing] using h
  rcases render_cases t.result t.recordInput with
    hood | ⟨hood, hr⟩ | ⟨hr, hrec⟩ | ⟨hr, hb, he⟩
  · rw [hood, render_out_of_date_eq]
  · rw [render_failed_eq _ _ _ _ hood hr]
  · obtain ⟨msg, -, heq⟩ :=
      render_record_failed nextRenderFrame t.result t.imageIndex t.recordInput hr hrec
    rw [heq]
  · exact absurd ⟨hr, hb, he⟩ hnot

theorem slotAfter_in_slot_order (start : Nat) (ticks : List RenderInput)
    (hstart : start < s_MaxFramesInFlight) (horder : inSlotOrder start ticks = true) :
    slotAfter start ticks
      = (start + ticks.countP isProducing) % s_MaxFramesInFlight := by
  induction ticks generalizing start with
  | nil =>
    simp only [slotAfter, List.countP_nil, Nat.add_zero]
    exact (Nat.mod_eq_of_lt hstart).symm
  | cons t rest ih =>
    simp only [inSlotOrder, Bool.and_eq_true, Bool.or_eq_true, Bool.not_eq_true',
      decide_eq_true_eq] at horder
    obtain ⟨hhere, hrest⟩ := horder
    have hnext :=
      render_nextRenderFrame_lt start t.result t.imageIndex t.recordInput hstart
    simp only [slotAfter]
    rw [ih _ hnext hrest]
    by_cases hp : isProducing t = true
    · have himg : t.imageIndex = start := by
        rcases hhere with h | h
        · rw [h] at hp
          cases hp
        · exact h
      have hall : (t.result = VK_SUCCESS ∨ t.result = VK_SUBOPTIMAL_KHR) ∧
          t.recordInput.beginResult = VK_SUCCESS ∧
          t.recordInput.endResult = VK_SUCCESS := by
        simpa [isProducing] using hp
      have hlt : t.imageIndex + 1 < 4294967296 := by
        have : t.imageIndex < 3 := by
          rw [himg]
          exact hstart
        omega
      rw [render_acquired_eq _ _ _ _ hall.1 hall.2.1 hall.2.2]
      simp only [List.countP_cons, hp, if_true, Nat.mod_eq_of_lt hlt, himg]
      rw [Nat.mod_add_mod]
      congr 1
      omega
    · have hp2 : isProducing t = false := by
        simpa using hp
      rw [render_nextRenderFrame_of_not_producing _ _ hp2]
      simp [List.countP_cons, hp2]

/-- C22. If in every producing tick of a sequence of `Engine::render` executions, started
from the initial state `nextRenderFrame = 0`, the acquired image index equals the slot index
the tick runs on, then the slot index after the sequence is `t mod N`, where `t` is the
number of producing ticks in the sequence (the acquire returns `VK_SUCCESS` or
`VK_SUBOPTIMAL_KHR` and the recording passes its assertions, so that the tick reaches its
submission and line 136) and `N = s_MaxFramesInFlight = 3`; ticks that do not produce a
frame leave the slot index as it is. -/
theorem slot_is_tick_counter (ticks : List RenderInput)
    (horder : inSlotOrder 0 ticks = true) :
    slotAfter 0 ticks
      = ticks.countP
          (fun t => decide ((t.result = VK_SUCCESS ∨ t.result = VK_SUBOPTIMAL_KHR) ∧
            t.recordInput.beginResult = VK_SUCCESS ∧
            t.recordInput.endResult = VK_SUCCESS))
          % s_MaxFramesInFlight ∧
    s_MaxFramesInFlight = 3 ∧
    (∀ (slot : Nat) (t : RenderInput),
      ¬ ((t.result = VK_SUCCESS ∨ t.result = VK_SUBOPTIMAL_KHR) ∧
        t.recordInput.beginResult = VK_SUCCESS ∧ t.recordInput.endResult = VK_SUCCESS) →
      (render slot t.result t.imageIndex t.recordInput).nextRenderFrame = slot) := by
  refine ⟨?_, rfl, ?_⟩
  · have h := slotAfter_in_slot_order 0 ticks (by decide) horder
    rw [h, Nat.zero_add]
    rfl
  · intro slot t hnot
    exact render_nextRenderFrame_of_not_producing slot t (by simpa [isProducing] using hnot)

/-- Witness for C22: four producing ticks in slot order with a stale-surface tick between
them; the slot index ends at `4 mod 3 = 1`. -/
theorem slot_is_tick_counter_witness :
    inSlotOrder 0
        [⟨VK_SUCCESS, 0, ⟨⟨800, 600⟩, 6, VK_SUCCESS, VK_SUCCESS⟩⟩,
         ⟨VK_SUBOPTIMAL_KHR, 1, ⟨⟨800, 600⟩, 6, VK_SUCCESS, VK_SUCCESS⟩⟩,
         ⟨VK_ERROR_OUT_OF_DATE_KHR, 0, ⟨⟨800, 600⟩, 6, VK_SUCCESS, VK_SUCCESS⟩⟩,
         ⟨VK_SUCCESS, 2, ⟨⟨800, 600⟩, 6, VK_SUCCESS, VK_SUCCESS⟩⟩,
         ⟨VK_SUCCESS, 0, ⟨⟨800, 600⟩, 6, VK_SUCCESS, VK_SUCCESS⟩⟩] = true ∧
    slotAfter 0
        [⟨VK_SUCCESS, 0, ⟨⟨800, 600⟩, 6, VK_SUCCESS, VK_SUCCESS⟩⟩,
         ⟨VK_SUBOPTIMAL_KHR, 1, ⟨⟨800, 600⟩, 6, VK_SUCCESS, VK_SUCCESS⟩⟩,
         ⟨VK_ERROR_OUT_OF_DATE_KHR, 0, ⟨⟨800, 600⟩, 6, VK_SUCCESS, VK_SUCCESS⟩⟩,
         ⟨VK_SUCCESS, 2, ⟨⟨800, 600⟩, 6, VK_SUCCESS, VK_SUCCESS⟩⟩,
         ⟨VK_SUCCESS, 0, ⟨⟨800, 600⟩, 6, VK_SUCCESS, VK_SUCCESS⟩⟩]
      = 4 % s_MaxFramesInFlight :=
  ⟨by decide,
   (slot_is_tick_counter
      [⟨VK_SUCCESS, 0, ⟨⟨800, 600⟩, 6, VK_SUCCESS, VK_SUCCESS⟩⟩,
       ⟨VK_SUBOPTIMAL_KHR, 1, ⟨⟨800, 600⟩, 6, VK_SUCCESS, VK_SUCCESS⟩⟩,
       ⟨VK_ERROR_OUT_OF_DATE_KHR, 0, ⟨⟨800, 600⟩, 6, VK_SUCCESS, VK_SUCCESS⟩⟩,
       ⟨VK_SUCCESS, 2, ⟨⟨800, 600⟩, 6, VK_SUCCESS, VK_SUCCESS⟩⟩,
       ⟨VK_SUCCESS, 0, ⟨⟨800, 600⟩, 6, VK_SUCCESS, VK_SUCCESS⟩⟩] (by decide)).1⟩

/-- C23. There is a sequence of successfully acquired image indices, each below the image
count `M = 3 = N`, on which the slots used by `Engine::render` are not the per-tick counter
`t mod N`: when image 2 is acquired three times, the ticks run on slots 0, 0, 0 (the counter
gives 0, 1, 2), so the same slot is used on consecutive producing ticks and slots 1 and 2
are never used. Every tick of the sequence produces a frame, and the sequence is a run of
the loop in which the GPU completes each submission before the next tick. -/
theorem slot_order_not_round_robin :
    ∃ ticks : List RenderInput,
      (∀ t ∈ ticks, t.result = VK_SUCCESS ∧ t.imageIndex < 3 ∧
        t.recordInput.beginResult = VK_SUCCESS ∧ t.recordInput.endResult = VK_SUCCESS) ∧
      slotsUsed 0 ticks = [0, 0, 0] ∧
      slotsUsed 0 ticks ≠ (List.range ticks.length).map (fun t => t % s_MaxFramesInFlight) ∧
      (List.range ticks.length).map (fun t => t % s_MaxFramesInFlight) = [0, 1, 2] ∧
      1 ∉ slotsUsed 0 ticks ∧ 2 ∉ slotsUsed 0 ticks ∧
      slotAfter 0 (ticks.take 1) ≠ 1 % s_MaxFramesInFlight ∧
      (World.init.run
        [Event.update, Event.render VK_SUCCESS 2 ⟨⟨800, 600⟩, 6, VK_SUCCESS, VK_SUCCESS⟩,
         Event.gpuComplete 0,
         Event.update, Event.render VK_SUCCESS 2 ⟨⟨800, 600⟩, 6, VK_SUCCESS, VK_SUCCESS⟩,
         Event.gpuComplete 0,
         Event.update, Event.render VK_SUCCESS 2 ⟨⟨800, 600⟩, 6, VK_SUCCESS, VK_SUCCESS⟩])
        = some ⟨0, ⟨[false, true, true],
            [⟨⟨[Semaphore.imageAvailable 0], [1024], [0], [Semaphore.renderFinished 0]⟩, 0⟩]⟩,
            Phase.atUpdate, true⟩ :=
  ⟨[⟨VK_SUCCESS, 2, ⟨⟨800, 600⟩, 6, VK_SUCCESS, VK_SUCCESS⟩⟩,
    ⟨VK_SUCCESS, 2, ⟨⟨800, 600⟩, 6, VK_SUCCESS, VK_SUCCESS⟩⟩,
    ⟨VK_SUCCESS, 2, ⟨⟨800, 600⟩, 6, VK_SUCCESS, VK_SUCCESS⟩⟩],
    by decide, by decide, by decide, by decide, by decide, by decide, by decide,
    rfl⟩

theorem slotAfter_lt (start : Nat) (ticks : List RenderInput)
    (hstart : start < s_MaxFramesInFlight) : slotAfter start ticks < s_MaxFramesInFlight := by
  induction ticks generalizing start with
  | nil => exact hstart
  | cons t rest ih =>
    simp only [slotAfter]
    exact ih _ (render_nextRenderFrame_lt start t.result t.imageIndex t.recordInput hstart)

theorem slotIndices_lt (nextRenderFrame : Nat) (result : VkResult) (imageIndex : Nat)
    (recordInput : RecordInput) (h : nextRenderFrame < s_MaxFramesInFlight) :
    ∀ c ∈ update nextRenderFrame
        ++ (render nextRenderFrame result imageIndex recordInput).calls,
      ∀ k ∈ c.slotIndices, k < s_MaxFramesInFlight := by
  intro c hc k hk
  have hk2 : k = nextRenderFrame := by
    rcases render_cases result recordInput with hood | ⟨hood, hr⟩ | ⟨hr, hrec⟩ | ⟨hr, hb, he⟩
    · subst hood
      rw [render_out_of_date_eq] at hc
      simp only [update, updateUniformBuffer, List.mem_append, List.mem_cons,
        List.mem_singleton, List.not_mem_nil, or_false, or_assoc] at hc
      rcases hc with h1 | h1 | h1 | h1 | h1 | h1
      all_goals subst h1
      all_goals simp [Call.slotIndices] at hk
      all_goals exact hk
    · rw [render_failed_eq _ _ _ _ hood hr] at hc
      simp only [update, updateUniformBuffer, List.mem_append, List.mem_cons,
        List.mem_singleton, List.not_mem_nil, or_false, or_assoc] at hc
      rcases hc with h1 | h1 | h1 | h1 | h1 | h1
      all_goals subst h1
      all_goals simp [Call.slotIndices] at hk
      all_goals exact hk
    · obtain ⟨msg, -, heq⟩ :=
        render_record_failed nextRenderFrame result imageIndex recordInput hr hrec
      rw [heq] at hc
      simp only [update, updateUniformBuffer, List.mem_append, List.mem_cons,
        List.mem_singleton, List.not_mem_nil, or_false, or_assoc] at hc
      rcases hc with h1 | h1 | h1 | h1 | h1 | h1 | h1 | h1 | h1
      all_goals subst h1
      all_goals simp [Call.slotIndices] at hk
      all_goals exact hk
    · rw [render_acquired_eq _ _ _ _ hr hb he] at hc
      simp only [update, updateUniformBuffer, List.mem_append, List.mem_cons,
        List.mem_singleton, List.not_mem_nil, or_false, or_assoc] at hc
      rcases hc with h1 | h1 | h1 | h1 | h1 | h1 | h1 | h1 | h1 | h1
      all_goals subst h1
      all_goals simp [Call.slotIndices] at hk
      all_goals exact hk
  rw [hk2]
  exact h

/-- C25. In every state reached from the initial state (`nextRenderFrame = 0`) by a run,
with arbitrary acquire results, image indices and recording results,
`nextRenderFrame < s_MaxFramesInFlight`; the same holds after any sequence of
`Engine::render` executions alone. In such a state every index that a call of `update` or
`render` uses in a per-slot vector (fence, image and rendering semaphores, command buffer,
descriptor set, mapped uniform buffer) is below `s_MaxFramesInFlight`, the descriptor set
bound by `recordCommandBuffer` included; the fence vector has `s_MaxFramesInFlight` elements
and `initDescriptorSets` has written that many descriptor sets. -/
theorem slot_index_in_range (evs : List Event) (w : World)
    (hreach : World.init.run evs = some w) :
    World.init.nextRenderFrame = 0 ∧
    w.nextRenderFrame < s_MaxFramesInFlight ∧
    (∀ ticks : List RenderInput, slotAfter 0 ticks < s_MaxFramesInFlight) ∧
    (∀ (result : VkResult) (imageIndex : Nat) (recordInput : RecordInput),
      ∀ c ∈ update w.nextRenderFrame
          ++ (render w.nextRenderFrame result imageIndex recordInput).calls,
        ∀ k ∈ c.slotIndices, k < s_MaxFramesInFlight) ∧
    (∀ (imageIndex : Nat) (ext : VkExtent2D) (n : Nat) (beginResult endResult : VkResult)
        (bindPoint firstSet : Nat) (sets : List Nat),
      Cmd.bindDescriptorSets bindPoint firstSet sets
          ∈ (recordCommandBuffer w.nextRenderFrame w.nextRenderFrame imageIndex ext n
              beginResult endResult).commands →
        ∀ k ∈ sets, k < s_MaxFramesInFlight) ∧
    w.device.fences.length = s_MaxFramesInFlight ∧
    initSyncObjects.length = s_MaxFramesInFlight ∧
    (initDescriptorSets VK_SUCCESS).updates.length = s_MaxFramesInFlight := by
  have hinv : w.Inv := World.Inv.init.run evs hreach
  refine ⟨rfl, hinv.slot_lt, fun ticks => slotAfter_lt 0 ticks (by decide),
    fun result imageIndex recordInput =>
      slotIndices_lt _ result imageIndex recordInput hinv.slot_lt, ?_,
    hinv.fences_length, by simp [initSyncObjects], by simp [initDescriptorSets, ENGINE_ASSERT]⟩
  intro imageIndex ext n beginResult endResult bindPoint firstSet sets hmem k hk
  by_cases hb : beginResult = VK_SUCCESS
  · subst hb
    rw [recordCommandBuffer_begun] at hmem
    simp only [List.mem_cons, List.mem_singleton, List.not_mem_nil, or_false,
      Cmd.bindDescriptorSets.injEq, reduceCtorEq, false_or] at hmem
    obtain ⟨-, -, hsets⟩ := hmem
    subst hsets
    simp only [List.mem_singleton] at hk
    rw [hk]
    exact hinv.slot_lt
  · simp [recordCommandBuffer, ENGINE_ASSERT, hb] at hmem

/-- Witness for C25: the state after two ticks, the second one on a stale surface. -/
theorem slot_index_in_range_witness :
    World.init.run [Event.update,
        Event.render VK_SUCCESS 7 ⟨⟨800, 600⟩, 6, VK_SUCCESS, VK_SUCCESS⟩, Event.update,
        Event.render VK_ERROR_OUT_OF_DATE_KHR 0 ⟨⟨800, 600⟩, 6, VK_SUCCESS, VK_SUCCESS⟩]
      = some ⟨2, ⟨[false, true, true],
          [⟨⟨[Semaphore.imageAvailable 0], [1024], [0], [Semaphore.renderFinished 0]⟩, 0⟩]⟩,
          Phase.atUpdate, true⟩ ∧
    (2 : Nat) < s_MaxFramesInFlight :=
  ⟨rfl,
   (slot_index_in_range
      [Event.update,
        Event.render VK_SUCCESS 7 ⟨⟨800, 600⟩, 6, VK_SUCCESS, VK_SUCCESS⟩, Event.update,
        Event.render VK_ERROR_OUT_OF_DATE_KHR 0 ⟨⟨800, 600⟩, 6, VK_SUCCESS, VK_SUCCESS⟩]
      ⟨2, ⟨[false, true, true],
          [⟨⟨[Semaphore.imageAvailable 0], [1024], [0], [Semaphore.renderFinished 0]⟩, 0⟩]⟩,
          Phase.atUpdate, true⟩
      rfl).2.1⟩

/-! ## Theorems: fences and pending submissions -/

theorem World.fencesArmed_init : World.init.fencesArmed := by
  intro slot hslot
  left
  have h3 : slot < 3 := hslot
  have hcases : slot = 0 ∨ slot = 1 ∨ slot = 2 := by omega
  rcases hcases with h | h | h <;> subst h <;> rfl

/-- A step of a run that ends in a running state started in a running state and keeps the
fences armed. -/
theorem World.fencesArmed_step {w w1 : World} (hinv : w.Inv)
    (harmed : w.running = true → w.fencesArmed)
    (e : Event) (h : w.step e = some w1) (hrun1 : w1.running = true) : w1.fencesArmed := by
  cases e with
  | update =>
    simp only [World.step, runCalls_update] at h
    split at h
    case isTrue hcond =>
      cases h
      exact harmed (by simpa using hcond.1)
    case isFalse => cases h
  | render result imageIndex recordInput =>
    have hrun : w.running = true := by
      simp only [World.step] at h
      split at h
      case isTrue hcond => simpa using hcond.1
      case isFalse => cases h
    have harmed := harmed hrun
    obtain ⟨-, -, -, hdev⟩ := hinv.step_render_device result imageIndex recordInput h
    rcases hdev with hsame | ⟨-, -, hstop, -, -⟩ | ⟨-, -, -, hfences, hpending⟩
    · intro slot hslot
      rw [hsame]
      exact harmed slot hslot
    · rw [hstop] at hrun1
      cases hrun1
    · intro slot hslot
      rw [hfences, hpending]
      by_cases hs : slot = w.nextRenderFrame
      · right
        subst hs
        have hlt : w.nextRenderFrame < w.device.fences.length := by
          rw [hinv.fences_length]
          exact hslot
        refine ⟨by simp [List.getElem?_set, hlt],
          ⟨{ waitSemaphores := [Semaphore.imageAvailable w.nextRenderFrame]
             waitDstStageMask := [VK_PIPELINE_STAGE_COLOR_ATTACHMENT_OUTPUT_BIT]
             commandBuffers := [w.nextRenderFrame]
             signalSemaphores := [Semaphore.renderFinished w.nextRenderFrame] },
            w.nextRenderFrame⟩, by simp, rfl⟩
      · have hne : w.nextRenderFrame ≠ slot := fun e => hs e.symm
        rw [List.getElem?_set_ne hne]
        rcases harmed slot hslot with h1 | ⟨h1, sub, hsub, hfence⟩
        · exact Or.inl h1
        · exact Or.inr ⟨h1, sub, List.mem_append_left _ hsub, hfence⟩
  | gpuComplete k =>
    simp only [World.step, Device.complete] at h
    cases htake : takeOut w.device.pending k with
    | none => simp [htake] at h
    | some p =>
      obtain ⟨done, others⟩ := p
      simp only [htake, Option.some.injEq] at h
      subst h
      have harmed := harmed hrun1
      have hperm := takeOut_perm htake
      intro slot hslot
      show (w.device.fences.set done.fence true)[slot]? = some true ∨
        ((w.device.fences.set done.fence true)[slot]? = some false ∧
          ∃ sub ∈ others, sub.fence = slot)
      by_cases hs : done.fence = slot
      · left
        subst hs
        have hlt : done.fence < w.device.fences.length := by
          rw [hinv.fences_length]
          exact hslot
        simp [List.getElem?_set, hlt]
      · rw [List.getElem?_set_ne hs]
        rcases harmed slot hslot with h1 | ⟨h1, sub, hsub, hfence⟩
        · exact Or.inl h1
        · refine Or.inr ⟨h1, sub, ?_, hfence⟩
          rcases List.mem_cons.mp (hperm.mem_iff.mp hsub) with heq | hmem
          · exact absurd (heq ▸ hfence) hs
          · exact hmem

theorem World.fencesArmed_run {w w1 : World} (hinv : w.Inv)
    (harmed : w.running = true → w.fencesArmed)
    (evs : List Event) (h : w.run evs = some w1) (hrun1 : w1.running = true) :
    w1.fencesArmed := by
  induction evs generalizing w with
  | nil =>
    simp only [World.run, Option.some.injEq] at h
    subst h
    exact harmed hrun1
  | cons e rest ih =>
    unfold World.run at h
    cases hstep : w.step e with
    | none => simp [hstep] at h
    | some w2 =>
      simp only [hstep] at h
      exact ih (hinv.step e hstep)
        (fun hrun2 => World.fencesArmed_step hinv harmed e hstep hrun2) h

/-- C26 (the claim as stated fails). On slot 0 the acquire returns `VK_SUCCESS` and
`vkBeginCommandBuffer` returns `VK_ERROR_OUT_OF_HOST_MEMORY`: the tick resets fence 0 and no
submission follows the reset in that tick. The run reaches a state in which fence 0 is
unsignaled and no pending submission names it; the program has stopped in that state. -/
theorem fence_reset_without_submission :
    Call.resetFences 0
      ∈ (render 0 VK_SUCCESS 0
          ⟨⟨800, 600⟩, 6, VK_ERROR_OUT_OF_HOST_MEMORY, VK_SUCCESS⟩).calls ∧
    (render 0 VK_SUCCESS 0
        ⟨⟨800, 600⟩, 6, VK_ERROR_OUT_OF_HOST_MEMORY, VK_SUCCESS⟩).calls.countP
          (fun c => match c with
            | Call.submitCommands _ _ => true
            | _ => false) = 0 ∧
    World.init.run [Event.update,
        Event.render VK_SUCCESS 0 ⟨⟨800, 600⟩, 6, VK_ERROR_OUT_OF_HOST_MEMORY, VK_SUCCESS⟩]
      = some ⟨0, ⟨[false, true, true], []⟩, Phase.atUpdate, false⟩ := by
  refine ⟨by decide, by decide, rfl⟩

/-- C26 (amended). In every state reached by a run in which the program is still running
(only in such a state does a render tick start), each slot's fence is signaled, or it is
unsignaled and a pending submission names it as completion fence. Initially all fences are
signaled and nothing is pending. A tick of `render` resets a fence only when its acquire
returned `VK_SUCCESS` or `VK_SUBOPTIMAL_KHR`, after the acquire; when the recording passes
its assertions the submission with that fence follows in the same tick, and otherwise the
tick ends in the failed assertion, after which no `update` or `render` is executed. A tick
on a stale surface resets no fence and leaves the device as it was, the fence of its slot
signaled. -/
theorem fence_signaled_or_pending (evs : List Event) (w : World)
    (hreach : World.init.run evs = some w) (hrunning : w.running = true) :
    (∀ slot : Nat, slot < s_MaxFramesInFlight →
      w.device.fences[slot]? = some true ∨
      (w.device.fences[slot]? = some false ∧
        ∃ sub ∈ w.device.pending, sub.fence = slot)) ∧
    (World.init.device.fences = [true, true, true] ∧ World.init.device.pending = []) ∧
    (∀ (result : VkResult) (imageIndex : Nat) (recordInput : RecordInput) (f : Nat),
      Call.resetFences f
          ∈ (render w.nextRenderFrame result imageIndex recordInput).calls →
        (result = VK_SUCCESS ∨ result = VK_SUBOPTIMAL_KHR) ∧
        ∃ (pre post : List Call),
          (render w.nextRenderFrame result imageIndex recordInput).calls
            = pre ++ Call.resetFences f :: post ∧
          Call.acquireNextImage f ∈ pre ∧
          (((recordInput.beginResult = VK_SUCCESS ∧ recordInput.endResult = VK_SUCCESS) ∧
              ∃ info : VkSubmitInfo, Call.submitCommands info f ∈ post) ∨
            (¬ (recordInput.beginResult = VK_SUCCESS ∧
                recordInput.endResult = VK_SUCCESS) ∧
              (∀ info g, Call.submitCommands info g ∉ post) ∧
              (render w.nextRenderFrame result imageIndex recordInput).aborted = true))) ∧
    (∀ (result : VkResult) (imageIndex : Nat) (recordInput : RecordInput) (w1 : World),
      w.step (Event.render result imageIndex recordInput) = some w1 →
      (render w.nextRenderFrame result imageIndex recordInput).aborted = true →
        w1.running = false ∧ w1.step Event.update = none ∧
        ∀ (result1 : VkResult) (imageIndex1 : Nat) (recordInput1 : RecordInput),
          w1.step (Event.render result1 imageIndex1 recordInput1) = none) ∧
    (∀ (imageIndex : Nat) (recordInput : RecordInput) (f : Nat),
      Call.resetFences f
        ∉ (render w.nextRenderFrame VK_ERROR_OUT_OF_DATE_KHR imageIndex
            recordInput).calls) ∧
    (∀ (imageIndex : Nat) (recordInput : RecordInput) (w1 : World),
      w.step (Event.render VK_ERROR_OUT_OF_DATE_KHR imageIndex recordInput) = some w1 →
        w1.device = w.device ∧ w1.device.fences[w.nextRenderFrame]? = some true) := by
  have hinv : w.Inv := World.Inv.init.run evs hreach
  have harmed : w.fencesArmed :=
    World.fencesArmed_run World.Inv.init (fun _ => World.fencesArmed_init) evs hreach
      hrunning
  refine ⟨harmed, ⟨rfl, rfl⟩, ?_, ?_, ?_, ?_⟩
  · intro result imageIndex recordInput f hmem
    rcases render_cases result recordInput with hood | ⟨hood, hr⟩ | ⟨hr, hrec⟩ | ⟨hr, hb, he⟩
    · subst hood
      rw [render_out_of_date_eq] at hmem
      simp at hmem
    · rw [render_failed_eq _ _ _ _ hood hr] at hmem
      simp at hmem
    · refine ⟨hr, ?_⟩
      obtain ⟨msg, -, heq⟩ :=
        render_record_failed w.nextRenderFrame result imageIndex recordInput hr hrec
      rw [heq] at hmem ⊢
      simp only [List.mem_cons, List.mem_singleton, List.not_mem_nil, or_false,
        Call.resetFences.injEq, reduceCtorEq, false_or] at hmem
      subst hmem
      refine ⟨[Call.waitForFences w.nextRenderFrame,
          Call.acquireNextImage w.nextRenderFrame],
        [Call.resetCommandBuffer w.nextRenderFrame,
          Call.recordCommandBuffer w.nextRenderFrame imageIndex w.nextRenderFrame,
          Call.assertFailed msg], rfl, by simp, Or.inr ⟨hrec, ?_, rfl⟩⟩
      intro info g hin
      simp at hin
    · refine ⟨hr, ?_⟩
      rw [render_acquired_eq _ _ _ _ hr hb he] at hmem ⊢
      simp only [List.mem_cons, List.mem_singleton, List.not_mem_nil, or_false,
        Call.resetFences.injEq, reduceCtorEq, false_or] at hmem
      subst hmem
      exact ⟨[Call.waitForFences w.nextRenderFrame,
          Call.acquireNextImage w.nextRenderFrame], _, rfl, by simp,
        Or.inl ⟨⟨hb, he⟩,
          { waitSemaphores := [Semaphore.imageAvailable w.nextRenderFrame]
            waitDstStageMask := [VK_PIPELINE_STAGE_COLOR_ATTACHMENT_OUTPUT_BIT]
            commandBuffers := [w.nextRenderFrame]
            signalSemaphores := [Semaphore.renderFinished w.nextRenderFrame] },
          by simp⟩⟩
  · intro result imageIndex recordInput w1 hstep hab
    obtain ⟨-, -, hrun1, -⟩ := hinv.step_render_device result imageIndex recordInput hstep
    rw [hab] at hrun1
    have hstop : w1.running = false := by simpa using hrun1
    refine ⟨hstop, ?_, ?_⟩
    · simp [World.step, hstop]
    · intro result1 imageIndex1 recordInput1
      simp [World.step, hstop]
  · intro imageIndex recordInput f hmem
    rw [render_out_of_date_eq] at hmem
    simp at hmem
  · intro imageIndex recordInput w1 hstep
    obtain ⟨hsig, -, -, hdev⟩ := hinv.step_render_device _ imageIndex recordInput hstep
    rcases hdev with hsame | ⟨hr, -⟩ | ⟨hr, -⟩
    · exact ⟨hsame, by rw [hsame]; exact hsig⟩
    · exfalso
      revert hr
      decide
    · exfalso
      revert hr
      decide

/-- Witness for C26 (amended): after the first producing tick fence 0 is unsignaled and the
pending submission names it. -/
theorem fence_signaled_or_pending_witness :
    World.init.run [Event.update,
        Event.render VK_SUCCESS 0 ⟨⟨800, 600⟩, 6, VK_SUCCESS, VK_SUCCESS⟩]
      = some ⟨1, ⟨[false, true, true],
          [⟨⟨[Semaphore.imageAvailable 0], [1024], [0], [Semaphore.renderFinished 0]⟩, 0⟩]⟩,
          Phase.atUpdate, true⟩ ∧
    (∀ slot : Nat, slot < s_MaxFramesInFlight →
      [false, true, true][slot]? = some true ∨
      ([false, true, true][slot]? = some false ∧
        ∃ sub ∈ [(⟨⟨[Semaphore.imageAvailable 0], [1024], [0],
            [Semaphore.renderFinished 0]⟩, 0⟩ : Submission)], sub.fence = slot)) :=
  ⟨rfl,
   (fence_signaled_or_pending
      [Event.update, Event.render VK_SUCCESS 0 ⟨⟨800, 600⟩, 6, VK_SUCCESS, VK_SUCCESS⟩]
      ⟨1, ⟨[false, true, true],
          [⟨⟨[Semaphore.imageAvailable 0], [1024], [0], [Semaphore.renderFinished 0]⟩, 0⟩]⟩,
          Phase.atUpdate, true⟩
      rfl rfl).1⟩


/-! ## Theorems: the staged-copy round trip -/

end vkEngine
